import Mathlib

/-!
A shallow embedding of the `context_graphs` query-answering pipeline

This file embeds the deterministic query-answering core of the repository
(entity-mention detection, query routing, the four answer builders, the
answer-contract normalizer, and the optional LLM synthesis layer) as
executable Lean definitions, and proves/refutes the frozen claims about it.

Modelling conventions:
* JavaScript strings are modelled as `List Char` (named `Str` below); all
  string operations (`trim`, `toLowerCase`, `includes`, …) are defined on
  that representation, following the semantics of the corresponding
  JavaScript operation on the ASCII texts the program manipulates.
* JavaScript numbers are modelled as `Option ℚ`: `some q` is a finite
  number, `none` stands for a non-finite value (`NaN`/`±Infinity`).
  The arithmetic the pipeline performs on confidences is exact on the
  decimal literals involved, so ℚ is a faithful carrier.
* The JSON-artifact loading layer and the graph-store query functions are
  external collaborators of the core (spec §1, §6); stores are modelled as
  records carrying the data the core reads, with the availability gates of
  the source preserved.
* `Map`/`Set` objects are modelled by lists with first/last-wins lookup
  matching the source's insertion-order semantics.
-/

/-- JavaScript strings, modelled as lists of characters. -/
abbrev Str := List Char

/-- Coerce a Lean string literal to the `Str` model. -/
def strOf (s : String) : Str := s.data

/-- JavaScript numbers: `none` models a non-finite value (NaN/±Infinity). -/
abbrev JsNum := Option ℚ

namespace Str

/-- Whitespace test used by `trim`/`split` (models JS `\s` on ASCII text). -/
def isWs (c : Char) : Bool := c.isWhitespace

/-- Drop leading whitespace (JS `trimStart`). -/
def trimLeft (s : Str) : Str := s.dropWhile isWs

/-- Drop trailing whitespace (JS `trimEnd`). -/
def trimRight (s : Str) : Str := (s.reverse.dropWhile isWs).reverse

/-- JS `String.prototype.trim`. -/
def trim (s : Str) : Str := trimRight (trimLeft s)

/-- JS `String.prototype.toLowerCase` (ASCII). -/
def lower (s : Str) : Str := s.map Char.toLower

/-- JS `a.includes(b)`: `b` occurs as a contiguous substring of `a`. -/
def containsStr (s w : Str) : Prop := w <:+: s

instance (s w : Str) : Decidable (containsStr s w) := by
  unfold containsStr; infer_instance

/-- JS `s.startsWith(p)`. -/
def startsWith (s p : Str) : Prop := p <+: s

instance (s p : Str) : Decidable (startsWith s p) := by
  unfold startsWith; infer_instance

end Str

namespace Str

/-- Collapse each maximal whitespace run to a single space
(JS `replace(/\s+/g, ' ')`). -/
def collapseWs : Str → Str
  | [] => []
  | c :: rest =>
    if isWs c then ' ' :: collapseWs (rest.dropWhile isWs)
    else c :: collapseWs rest
termination_by s => s.length
decreasing_by
  · simp only [List.length_cons]
    exact Nat.lt_succ_of_le (List.dropWhile_sublist isWs).length_le
  · simp

/-- `normalizeText` from the query service: lowercase, collapse whitespace,
trim. -/
def normalizeText (s : Str) : Str := trim (collapseWs (lower s))

/-- Maximal non-whitespace runs of a string: models
`split(/\s+/).filter(Boolean)`. -/
def words : Str → List Str
  | [] => []
  | c :: rest =>
    if isWs c then words (rest.dropWhile isWs)
    else (c :: rest.takeWhile (fun d => !isWs d)) :: words (rest.dropWhile (fun d => !isWs d))
termination_by s => s.length
decreasing_by
  · simp only [List.length_cons]
    exact Nat.lt_succ_of_le (List.dropWhile_sublist isWs).length_le
  · simp only [List.length_cons]
    exact Nat.lt_succ_of_le (List.dropWhile_sublist _).length_le

/-- Join a list of strings with a separator (JS `Array.prototype.join`). -/
def joinSep (sep : Str) : List Str → Str
  | [] => []
  | [x] => x
  | x :: rest => x ++ sep ++ joinSep sep rest

/-- Decimal digits of a natural number (helper for `natStr`). -/
def natStr (n : Nat) : Str := (toString n).data

end Str

open Str

/- ### The answer contract (`src/lib/queryContract.ts`) -/

/-- `QueryType` enum. -/
inductive QueryType where
  | fact | timeline | state_change | causal_chain | evidence | comparison
deriving DecidableEq, Repr

/-- `AnswerMode` enum. -/
inductive AnswerMode where
  | kg | ntg | hybrid | baseline_rag
deriving DecidableEq, Repr

/-- `PreferredMode` enum. -/
inductive PreferredMode where
  | auto | kg | ntg | hybrid | baseline_rag | baseline
deriving DecidableEq, Repr

/-- The string form of a `PreferredMode` value (how the TS union member is
spelled). -/
def PreferredMode.toStr : PreferredMode → Str
  | .auto => strOf "auto"
  | .kg => strOf "kg"
  | .ntg => strOf "ntg"
  | .hybrid => strOf "hybrid"
  | .baseline_rag => strOf "baseline_rag"
  | .baseline => strOf "baseline"

/-- `QueryRequest` (already parsed/normalized at the HTTP boundary). -/
structure QueryRequest where
  question : Str
  preferredMode : PreferredMode
  includeEvidence : Bool
  includeBaselineComparison : Bool
deriving DecidableEq, Repr

/-- `StructuredAnswerCore`. -/
structure StructuredAnswerCore where
  answerText : Str
  modeUsed : AnswerMode
  queryType : QueryType
  confidence : JsNum
  entitiesUsed : List Str
  eventsUsed : List Str
  stateChangesUsed : List Str
  evidenceRefs : List Str
  reasoningNotes : Str
deriving DecidableEq, Repr

/-- `QueryResponse`. In the source the core answer's fields are spread at
top level next to `question`/`baselineComparison`; here the spread is the
`main` field. -/
structure QueryResponse where
  question : Str
  main : StructuredAnswerCore
  baselineComparison : Option StructuredAnswerCore
deriving DecidableEq, Repr

/-- `clampConfidence`: non-finite maps to 0, finite values are clamped to
`[0, 1]`. -/
def clampConfidence : JsNum → JsNum
  | none => some 0
  | some v => some (max 0 (min 1 v))

/-- `uniqueStrings` worker: trim each value, drop empties and values already
seen (the source's `Set` is modelled by the `seen` list). -/
def uniqueStringsAux (seen : List Str) : List Str → List Str
  | [] => []
  | v :: rest =>
    let t := trim v
    if t = [] ∨ t ∈ seen then uniqueStringsAux seen rest
    else t :: uniqueStringsAux (t :: seen) rest

/-- `uniqueStrings`: dedupe a string list preserving first-seen order,
trimming entries and dropping empty ones. -/
def uniqueStrings (values : List Str) : List Str := uniqueStringsAux [] values

/-- `normalizeStructuredAnswer`. (The TS `?? []` null-guards on the list
fields are vacuous in this model, where the fields are total.) -/
def normalizeStructuredAnswer (input : StructuredAnswerCore) : StructuredAnswerCore :=
  { answerText := trim input.answerText
    modeUsed := input.modeUsed
    queryType := input.queryType
    confidence := clampConfidence input.confidence
    entitiesUsed := uniqueStrings input.entitiesUsed
    eventsUsed := uniqueStrings input.eventsUsed
    stateChangesUsed := uniqueStrings input.stateChangesUsed
    evidenceRefs := uniqueStrings input.evidenceRefs
    reasoningNotes := trim input.reasoningNotes }

/- ### Word/substring matching primitives (JS regexes used by the core) -/

namespace Str

/-- Boolean substring test (JS `String.prototype.includes`). -/
def containsB (s w : Str) : Bool := decide (w <:+: s)

/-- Boolean prefix test (JS `String.prototype.startsWith`). -/
def startsWithB (s p : Str) : Bool := decide (p <+: s)

/-- JS `\w` character class: `[A-Za-z0-9_]`. -/
def isWordChar (c : Char) : Bool :=
  ('a' ≤ c && c ≤ 'z') || ('A' ≤ c && c ≤ 'Z') || ('0' ≤ c && c ≤ '9') || c = '_'

/-- `[a-z0-9]`: the boundary class of the entity-detection regex
`(^|[^a-z0-9])(phrase)(?=$|[^a-z0-9])` (the scanned text is lowercased). -/
def isLowerAlnum (c : Char) : Bool :=
  ('a' ≤ c && c ≤ 'z') || ('0' ≤ c && c ≤ '9')

/-- Does `w` occur in `s` starting at index `i`? -/
def occursAt (w s : Str) (i : Nat) : Bool := decide ((s.drop i).take w.length = w)

/-- Does `w` occur at `i` with both ends on a boundary of the class `isW`?
Out-of-range neighbours are read as `' '` (never a word character). -/
def boundaryMatchAt (isW : Char → Bool) (w s : Str) (i : Nat) : Bool :=
  occursAt w s i &&
    (decide (i = 0) || !isW (s.getD (i - 1) ' ')) &&
    !isW (s.getD (i + w.length) ' ')

/-- Index of the first boundary-anchored occurrence of `w` in `s`
(JS `RegExp.exec` with a boundary-anchored pattern finds the leftmost one). -/
def firstBoundaryMatch (isW : Char → Bool) (w s : Str) : Option Nat :=
  (List.range (s.length + 1)).find? (boundaryMatchAt isW w s)

/-- JS `/\bw\b/.test(s)`. -/
def containsWord (s w : Str) : Bool := (firstBoundaryMatch isWordChar w s).isSome

end Str

/- ### The query router (`src/lib/queryRouter.ts`) -/

/-- `QuerySignals`. -/
structure QuerySignals where
  questionLower : Str
  hasWho : Bool
  hasWhat : Bool
  hasWhen : Bool
  hasWhy : Bool
  hasHow : Bool
  mentionsEvidence : Bool
  mentionsCompare : Bool
  mentionsRag : Bool
  mentionsStateChange : Bool
  mentionsRelationship : Bool
  mentionsTimeline : Bool
  mentionsCause : Bool
  mentionsSequence : Bool
deriving DecidableEq, Repr

/-- `QueryRouteDecision`. -/
structure QueryRouteDecision where
  queryType : QueryType
  modeUsed : AnswerMode
  reasoning : Str
  signals : QuerySignals
  entityCount : Nat
deriving DecidableEq, Repr

def EVIDENCE_KEYWORDS : List Str :=
  [strOf "evidence", strOf "supporting scene", strOf "supporting scenes",
   strOf "supporting evidence", strOf "what supports", strOf "show supporting",
   strOf "show proof", strOf "cite", strOf "cites", strOf "proof",
   strOf "which scene", strOf "which scenes"]

def COMPARISON_KEYWORDS : List Str :=
  [strOf "compare", strOf "comparison", strOf "versus", strOf "vs ", strOf "vs.",
   strOf "baseline", strOf "rag", strOf "not just rag",
   strOf "why is this not just rag"]

def STATE_CHANGE_KEYWORDS : List Str :=
  [strOf "relationship", strOf "change over time", strOf "changes over time",
   strOf "how does", strOf "trust", strOf "fear", strOf "distance",
   strOf "loyalty", strOf "respect", strOf "resentment", strOf "state change",
   strOf "trajectory"]

def TIMELINE_KEYWORDS : List Str :=
  [strOf "timeline", strOf "over time", strOf "in order", strOf "sequence",
   strOf "before", strOf "after", strOf "when does", strOf "when did",
   strOf "what happens first", strOf "what happens next"]

def CAUSAL_KEYWORDS : List Str :=
  [strOf "lead up", strOf "leads up", strOf "leads to", strOf "what events lead",
   strOf "contributes to", strOf "contribute to", strOf "cause", strOf "caused",
   strOf "why did", strOf "what makes", strOf "because"]

def includesAny (text : Str) (needles : List Str) : Bool :=
  needles.any (fun needle => text.containsB needle)

def extractQuerySignals (question : Str) : QuerySignals :=
  let q := lower (trim question)
  { questionLower := q
    hasWho := q.containsWord (strOf "who")
    hasWhat := q.containsWord (strOf "what")
    hasWhen := q.containsWord (strOf "when")
    hasWhy := q.containsWord (strOf "why")
    hasHow := q.containsWord (strOf "how")
    mentionsEvidence := includesAny q EVIDENCE_KEYWORDS
    mentionsCompare := includesAny q COMPARISON_KEYWORDS
    mentionsRag := q.containsB (strOf "rag")
    mentionsStateChange := includesAny q STATE_CHANGE_KEYWORDS
    mentionsRelationship :=
      q.containsB (strOf "relationship") || q.containsB (strOf "connected to") ||
        q.containsB (strOf "connected with")
    mentionsTimeline := includesAny q TIMELINE_KEYWORDS
    mentionsCause := includesAny q CAUSAL_KEYWORDS
    mentionsSequence :=
      q.containsB (strOf "sequence") || q.containsB (strOf "in order") ||
        q.containsB (strOf "chronolog") || q.containsB (strOf "timeline") }

def classifyQueryType (question : Str) : QueryType :=
  let s := extractQuerySignals question
  let q := s.questionLower
  if s.mentionsCompare then .comparison
  -- "Show supporting scenes for that conclusion" and similar evidence-centric asks.
  else if s.mentionsEvidence || (q.startsWithB (strOf "show ") && q.containsB (strOf "scene")) then .evidence
  -- State-change queries are prioritized over generic timeline cues.
  else if q.containsB (strOf "relationship with") ||
      q.containsB (strOf "relationship between") ||
      q.containsB (strOf "relationship change") ||
      q.containsB (strOf "state change") ||
      (q.containsB (strOf "how does") && q.containsB (strOf "change over time")) ||
      (s.mentionsStateChange &&
        (q.containsB (strOf "how does") || q.containsB (strOf "over time") ||
          q.containsB (strOf "trajectory"))) then .state_change
  -- Causal chains next (often overlap with timeline wording).
  else if s.mentionsCause then .causal_chain
  else if s.mentionsTimeline || s.hasWhen || s.mentionsSequence then .timeline
  else .fact

/-- `normalizePreferredMode`: lowercase/trim the raw value (`'auto'` when
absent) and fall back to `auto` when it is not a known mode string. -/
def normalizePreferredMode (preferredMode : Option Str) : PreferredMode :=
  let raw := lower (trim (preferredMode.getD (strOf "auto")))
  if raw = strOf "auto" then .auto
  else if raw = strOf "kg" then .kg
  else if raw = strOf "ntg" then .ntg
  else if raw = strOf "hybrid" then .hybrid
  else if raw = strOf "baseline_rag" then .baseline_rag
  else if raw = strOf "baseline" then .baseline
  else .auto

/-- `selectModeForQueryType`. The source's unreachable `default:` switch arm
is dead code for the closed `QueryType` union and has no counterpart here. -/
def selectModeForQueryType (queryType : QueryType) (preferredMode : Option Str)
    (entityCount : Nat) : AnswerMode × Str :=
  let preferred := normalizePreferredMode preferredMode
  if preferred ≠ .auto then
    if preferred = .baseline then
      (.baseline_rag, strOf "User preferred baseline mode override.")
    else
      (match preferred with
        | .kg => AnswerMode.kg
        | .ntg => AnswerMode.ntg
        | .hybrid => AnswerMode.hybrid
        | _ => AnswerMode.baseline_rag,
       strOf "User preferred " ++ preferred.toStr ++ strOf " mode override.")
  else
    match queryType with
    | .fact =>
      (.kg,
       if entityCount > 0 then strOf "Fact-style query with entity mention routes to KG."
       else strOf "Fact-style query defaults to KG lookup.")
    | .timeline =>
      (.ntg, strOf "Timeline/order query depends on event chronology and temporal edges (NTG).")
    | .state_change =>
      (.ntg, strOf "State-change query depends on inferred relationship shifts over time (NTG).")
    | .causal_chain =>
      (.hybrid, strOf "Causal-chain query benefits from NTG chronology plus KG entity context (hybrid).")
    | .evidence =>
      (.hybrid, strOf "Evidence query can require tracing prior answer structures plus source snippets (hybrid).")
    | .comparison =>
      (.hybrid, strOf "Comparison query is best answered by contrasting graph and baseline behavior (hybrid).")

/-- `routeQuery`. -/
def routeQuery (question : Str) (preferredMode : Option Str) (entityCount : Nat) :
    QueryRouteDecision :=
  let signals := extractQuerySignals question
  let queryType := classifyQueryType question
  let selected := selectModeForQueryType queryType preferredMode entityCount
  { queryType := queryType
    modeUsed := selected.1
    reasoning := selected.2
    signals := signals
    entityCount := entityCount }

/- ### Shared answer-builder helpers (`src/lib/answers/shared.ts`) -/

/-- `matchKind` of a lexicon entry / detected mention. -/
inductive MatchKind where
  | canonical | alias | hint
deriving DecidableEq, Repr

/-- `DetectedEntityMention`. -/
structure DetectedEntityMention where
  entityId : Str
  canonicalName : Str
  entityType : Str
  matchedText : Str
  matchKind : MatchKind
  startIndex : Nat
deriving DecidableEq, Repr

/-- `AnswerBuilderContext`. -/
structure AnswerBuilderContext where
  question : Str
  queryType : QueryType
  routeReasoning : Str
  entities : List DetectedEntityMention
  includeEvidence : Bool
deriving DecidableEq, Repr

/-- `tokenize`: lowercase, replace `[^a-z0-9\s']` by a space, split on
whitespace, keep tokens of length ≥ 2. -/
def tokenize (text : Str) : List Str :=
  let replaced := (lower text).map
    (fun c => if isLowerAlnum c || isWs c || c = '\'' then c else ' ')
  ((words replaced).map trim).filter (fun token => token.length ≥ 2)

/-- `truncate` (JS `slice` + `trimEnd` + ellipsis). -/
def truncate (text : Str) (maxLen : Nat) : Str :=
  if text.length ≤ maxLen then text
  else trimRight (text.take (maxLen - 3)) ++ strOf "..."

/-- `overlapScore`: token-overlap count plus a flat substring bonus. -/
def overlapScore (query text : Str) : Nat :=
  let qTokens := (tokenize query).dedup
  if qTokens.length = 0 then 0
  else
    let tTokens := tokenize text
    if tTokens.length = 0 then 0
    else
      let hits := tTokens.countP (fun token => decide (token ∈ qTokens))
      let substringBonus := if (lower text).containsB (lower (trim query)) then 2 else 0
      hits + substringBonus

/-- `displayEntityList`. -/
def displayEntityList (names : List Str) (maxItems : Nat) : Str :=
  let items := names.filter (fun n => n ≠ [])
  if items.length = 0 then strOf "no matched entities"
  else if items.length ≤ maxItems then joinSep (strOf ", ") items
  else
    joinSep (strOf ", ") (items.take maxItems) ++ strOf " (+" ++
      natStr (items.length - maxItems) ++ strOf " more)"

/-- `maybeStripEvidence`. -/
def maybeStripEvidence (answer : StructuredAnswerCore) (includeEvidence : Bool) :
    StructuredAnswerCore :=
  if includeEvidence then answer
  else
    { answer with
      evidenceRefs := []
      reasoningNotes :=
        if answer.reasoningNotes.containsB (strOf "Evidence refs omitted by request")
        then answer.reasoningNotes
        else answer.reasoningNotes ++ strOf " Evidence refs omitted by request." }

/-- Finite-or-NaN arithmetic on JS numbers (any non-finite operand is
propagated, matching IEEE semantics on the operations the core uses). -/
def jsMax : JsNum → JsNum → JsNum
  | some a, some b => some (max a b)
  | _, _ => none

def jsMin : JsNum → JsNum → JsNum
  | some a, some b => some (min a b)
  | _, _ => none

def jsMul : JsNum → JsNum → JsNum
  | some a, some b => some (a * b)
  | _, _ => none

def jsAdd : JsNum → JsNum → JsNum
  | some a, some b => some (a + b)
  | _, _ => none

/-- `Partial<StructuredAnswerCore>` as used by `mergeAnswerCores`. -/
structure AnswerOverrides where
  answerText : Option Str
  modeUsed : Option AnswerMode
  queryType : Option QueryType
  confidence : JsNum
  entitiesUsed : Option (List Str)
  eventsUsed : Option (List Str)
  stateChangesUsed : Option (List Str)
  evidenceRefs : Option (List Str)
  reasoningNotes : Option Str
deriving DecidableEq, Repr

/-- An overrides record with no field set. -/
def noOverrides : AnswerOverrides :=
  { answerText := none, modeUsed := none, queryType := none, confidence := none
    entitiesUsed := none, eventsUsed := none, stateChangesUsed := none
    evidenceRefs := none, reasoningNotes := none }

/-- `mergeAnswerCores`. -/
def mergeAnswerCores (primary secondary : StructuredAnswerCore)
    (overrides : AnswerOverrides) : StructuredAnswerCore :=
  { answerText := overrides.answerText.getD primary.answerText
    modeUsed := overrides.modeUsed.getD primary.modeUsed
    queryType := overrides.queryType.getD primary.queryType
    confidence :=
      match overrides.confidence with
      | some c => some c
      | none => jsMul (jsMax primary.confidence secondary.confidence) (some (95/100))
    entitiesUsed :=
      uniqueStrings ((overrides.entitiesUsed.getD []) ++ primary.entitiesUsed ++ secondary.entitiesUsed)
    eventsUsed :=
      uniqueStrings ((overrides.eventsUsed.getD []) ++ primary.eventsUsed ++ secondary.eventsUsed)
    stateChangesUsed :=
      uniqueStrings ((overrides.stateChangesUsed.getD []) ++ primary.stateChangesUsed ++ secondary.stateChangesUsed)
    evidenceRefs :=
      uniqueStrings ((overrides.evidenceRefs.getD []) ++ primary.evidenceRefs ++ secondary.evidenceRefs)
    reasoningNotes :=
      overrides.reasoningNotes.getD
        (trim (primary.reasoningNotes ++ strOf " " ++ secondary.reasoningNotes)) }

/- ### String comparison used by JS `localeCompare`-based sorts -/

namespace Str

/-- Code-point lexicographic comparison (model of `localeCompare` on the
ASCII identifiers/names the core sorts). -/
def cmpStr : Str → Str → Ordering
  | [], [] => .eq
  | [], _ :: _ => .lt
  | _ :: _, [] => .gt
  | a :: as, b :: bs => if a < b then .lt else if b < a then .gt else cmpStr as bs

end Str

/-- Stable comparator-driven sort (JS `Array.prototype.sort` is stable). -/
def sortByCmp {α : Type} (cmp : α → α → Ordering) (l : List α) : List α :=
  l.insertionSort (fun a b => cmp a b ≠ .gt)

/- ### The KG store (`src/lib/kgData.ts`), modelled on its parsed artifacts -/

/-- A canonical entity record (the fields the core reads). -/
structure EntityLite where
  entityId : Str
  canonicalName : Str
  entityType : Str
  aliases : List Str
deriving DecidableEq, Repr

/-- An entity-alias record (the fields the lexicon build reads). -/
structure AliasRecord where
  entityId : Str
  aliasRaw : Str
  aliasNormalized : Str
  source : Str
deriving DecidableEq, Repr

/-- A KG edge record. -/
structure KGEdge where
  edgeId : Str
  subjectId : Str
  predicate : Str
  objectId : Str
  stability : Str
  evidenceRefs : List Str
deriving DecidableEq, Repr

/-- The loaded KG artifacts (`loadKgArtifacts` result; `available = false`
models missing backing files, in which case the lists are empty). -/
structure KgArtifacts where
  available : Bool
  entities : List EntityLite
  aliases : List AliasRecord
  edges : List KGEdge
deriving DecidableEq, Repr

/-- The `entityMap` lookup (a JS `Map` built by iteration: last write wins). -/
def kgEntityById (kg : KgArtifacts) (entityId : Str) : Option EntityLite :=
  kg.entities.foldl (fun acc e => if e.entityId = entityId then some e else acc) none

inductive EdgeDirection where
  | outgoing | incoming
deriving DecidableEq, Repr

structure KGNeighbor where
  direction : EdgeDirection
  edge : KGEdge
  neighbor : Option EntityLite
deriving DecidableEq, Repr

structure NeighborsResult where
  available : Bool
  entity : Option EntityLite
  neighbors : List KGNeighbor
deriving DecidableEq, Repr

/-- Sort key of `getEntityNeighbors`: neighbor display name, then predicate,
then edge id. -/
def neighborCmp (a b : KGNeighbor) : Ordering :=
  let an := (a.neighbor.map (·.canonicalName)).getD a.edge.edgeId
  let bn := (b.neighbor.map (·.canonicalName)).getD b.edge.edgeId
  (cmpStr an bn).then ((cmpStr a.edge.predicate b.edge.predicate).then
    (cmpStr a.edge.edgeId b.edge.edgeId))

/-- `getEntityNeighbors`. -/
def getEntityNeighbors (kg : KgArtifacts) (entityId : Str) : NeighborsResult :=
  if !kg.available then { available := false, entity := none, neighbors := [] }
  else
    match kgEntityById kg entityId with
    | none => { available := true, entity := none, neighbors := [] }
    | some entity =>
      let neighbors := kg.edges.foldl
        (fun acc edge =>
          if edge.subjectId = entityId then
            acc ++ [{ direction := .outgoing, edge := edge,
                      neighbor := kgEntityById kg edge.objectId : KGNeighbor }]
          else if edge.objectId = entityId then
            acc ++ [{ direction := .incoming, edge := edge,
                      neighbor := kgEntityById kg edge.subjectId : KGNeighbor }]
          else acc)
        []
      { available := true, entity := some entity, neighbors := sortByCmp neighborCmp neighbors }

structure EntitySearchResult where
  available : Bool
  items : List EntityLite
  total : Nat
  filtered : Nat
deriving DecidableEq, Repr

/-- `listEntities` (no type filter: the answer builder never passes one). -/
def listEntities (kg : KgArtifacts) (q : Str) (limit : Nat) : EntitySearchResult :=
  if !kg.available then { available := false, items := [], total := 0, filtered := 0 }
  else
    let qn := lower (trim q)
    let limited := max 1 (min limit 500)
    let filtered :=
      if qn = [] then kg.entities
      else
        kg.entities.filter (fun entity =>
          (lower entity.canonicalName).containsB qn ||
          (lower entity.entityId).containsB qn ||
          entity.aliases.any (fun al => (lower al).containsB qn))
    let sorted := sortByCmp
      (fun a b => (cmpStr a.entityType b.entityType).then (cmpStr a.canonicalName b.canonicalName))
      filtered
    { available := true, items := sorted.take limited,
      total := kg.entities.length, filtered := filtered.length }

/- ### The graph-neighborhood builder (`src/lib/answers/kgAnswer.ts`) -/

/-- `predicateWeight`. -/
def predicateWeight (predicate : Str) : Nat :=
  let p := lower predicate
  if p = strOf "family" then 100
  else if p = strOf "associated_with" then 95
  else if p = strOf "works_with" ∨ p = strOf "allied_with" then 90
  else if p = strOf "advisor_to" ∨ p = strOf "counsel_to" then 85
  else if p = strOf "co_present_dialogue" then 50
  else 60

/-- Ranking comparator of `buildKgAnswer`: predicate weight descending,
then neighbor display name. -/
def kgRankCmp (a b : KGNeighbor) : Ordering :=
  let aw := predicateWeight a.edge.predicate
  let bw := predicateWeight b.edge.predicate
  if aw ≠ bw then (if bw < aw then .lt else .gt)
  else
    let an := (a.neighbor.map (·.canonicalName)).getD a.edge.edgeId
    let bn := (b.neighbor.map (·.canonicalName)).getD b.edge.edgeId
    cmpStr an bn

/-- `buildKgAnswer`. -/
def buildKgAnswer (kg : KgArtifacts) (context : AnswerBuilderContext) : StructuredAnswerCore :=
  if !kg.available then
    maybeStripEvidence
      { answerText := strOf "KG artifacts are unavailable. Run the Phase 2 entity/KG builders and retry."
        modeUsed := .kg
        queryType := context.queryType
        confidence := some (1/10)
        entitiesUsed := context.entities.map (·.entityId)
        eventsUsed := []
        stateChangesUsed := []
        evidenceRefs := []
        reasoningNotes := strOf "KG answer builder depends on entities.json and kg_edges.json." }
      context.includeEvidence
  else
    let focusMention := context.entities.head?
    let focusResult : Option StructuredAnswerCore :=
      match focusMention with
      | none => none
      | some mention =>
        let neighborhood := getEntityNeighbors kg mention.entityId
        match neighborhood.entity, neighborhood.available with
        | some entity, true =>
          let ranked := sortByCmp kgRankCmp neighborhood.neighbors
          let rows := ranked.take 8
          let characterRows := rows.filter
            (fun row => (row.neighbor.map (·.entityType)).getD [] = strOf "character")
          let emphasisRows := if characterRows.length ≥ 3 then characterRows.take 6 else rows
          let answerLines :=
            [strOf "KG view of " ++ entity.canonicalName ++ strOf ": " ++
              natStr emphasisRows.length ++
              strOf " high-signal relationship(s) from the local graph artifact."] ++
            emphasisRows.enum.map (fun (pair : Nat × KGNeighbor) =>
              let idx := pair.1
              let row := pair.2
              let neighborLabel :=
                match row.neighbor with
                | some n => n.canonicalName ++ strOf " (" ++ n.entityType ++ strOf ")"
                | none => row.edge.objectId
              let dir := if row.direction = .outgoing then strOf "out" else strOf "in"
              let evidenceCount := row.edge.evidenceRefs.length
              natStr (idx + 1) ++ strOf ". [" ++ dir ++ strOf "] " ++ row.edge.predicate ++
                strOf " -> " ++ neighborLabel ++ strOf " [" ++ row.edge.stability ++ strOf "]" ++
                (if evidenceCount ≠ 0 then strOf ", evidence refs: " ++ natStr evidenceCount
                 else [])) ++
            (if emphasisRows.length < ranked.length then
              [strOf "Additional relationships omitted for brevity: " ++
                natStr (ranked.length - emphasisRows.length) ++ strOf "."]
             else [])
          some
            { answerText := joinSep (strOf "\n") answerLines
              modeUsed := AnswerMode.kg
              queryType := context.queryType
              confidence := some (min (95/100) (55/100 + emphasisRows.length * (5/100)))
              entitiesUsed :=
                [entity.entityId] ++
                  emphasisRows.flatMap (fun row => (row.neighbor.map (fun n => [n.entityId])).getD [])
              eventsUsed := []
              stateChangesUsed := []
              evidenceRefs := emphasisRows.flatMap (·.edge.evidenceRefs)
              reasoningNotes := strOf "KG mode returns canonical entities and relationship edges (static/semi-stable/volatile) without timeline sequencing." }
        | _, _ => none
    match focusResult with
    | some answer => maybeStripEvidence answer context.includeEvidence
    | none =>
      let entitySearch := listEntities kg context.question 8
      let topEntities := if entitySearch.available then entitySearch.items.take 5 else []
      let fallbackLines :=
        [if topEntities.length ≠ 0 then
          strOf "KG entity search candidates for this question (no direct focus entity detected):"
         else strOf "No direct entity match detected for this fact-style query."] ++
        topEntities.enum.map (fun (pair : Nat × EntityLite) =>
          natStr (pair.1 + 1) ++ strOf ". " ++ pair.2.canonicalName ++ strOf " (" ++
            pair.2.entityType ++ strOf ") [" ++ pair.2.entityId ++ strOf "]") ++
        [if topEntities.length ≠ 0 then
          strOf "Ask with a specific entity name (for example \"Frank Sheeran\" or \"Jimmy Hoffa\") for relationship neighbors."
         else strOf "Try including a specific person or organization name to retrieve KG relationships."]
      maybeStripEvidence
        { answerText := joinSep (strOf "\n") (fallbackLines.map (fun line => truncate line 220))
          modeUsed := .kg
          queryType := context.queryType
          confidence := some (if topEntities.length ≠ 0 then 42/100 else 2/10)
          entitiesUsed := context.entities.map (·.entityId) ++ topEntities.map (·.entityId)
          eventsUsed := []
          stateChangesUsed := []
          evidenceRefs := []
          reasoningNotes := strOf "KG mode fell back to entity-name search because no specific graph neighborhood target was detected." }
        context.includeEvidence

/- ### The narrative-trace (NTG) store (`src/lib/ntgData.ts`) -/

/-- A scene-index record (the fields the core renders). -/
structure SceneLite where
  sceneId : Str
  headerRaw : Str
  yearExplicit : Option Int
  yearInferred : Option Int
deriving DecidableEq, Repr

/-- A narrative-event record. `participants` keeps only the participant
entity ids (the single field the core reads); `evidenceSnippets` models the
`metadata.evidence_spans[...].snippet` strings (absent/ill-typed metadata is
the empty list, which renders identically). -/
structure EventLite where
  eventId : Str
  eventTypeL2 : Str
  sceneId : Str
  sequenceInScene : Nat
  summary : Str
  evidenceRefs : List Str
  evidenceSnippets : List Str
  participants : List Str
deriving DecidableEq, Repr

/-- A state-change claim record. `ruleIds` models `metadata.rule_ids`
(absent is the empty list, whose join renders identically). -/
structure NtgStateChange where
  stateChangeId : Str
  subjectId : Str
  objectId : Str
  stateDimension : Str
  direction : Str
  magnitude : Option Str
  claimType : Str
  sceneId : Str
  confidence : ℚ
  evidenceRefs : List Str
  ruleIds : List Str
deriving DecidableEq, Repr

/-- A raw script block (the fields the baseline builder reads). -/
structure ScriptBlock where
  blockId : Str
  sceneId : Str
  blockType : Str
  speakerCueRaw : Option Str
  text : Str
deriving DecidableEq, Repr

/-- The loaded NTG artifacts (`loadNtgArtifacts` result; `available = false`
models missing backing files). -/
structure NtgArtifacts where
  available : Bool
  events : List EventLite
  stateChanges : List NtgStateChange
  scriptBlocks : List ScriptBlock
deriving DecidableEq, Repr

/-- A row of `listStateChanges`: the claim joined with its subject/object
entities, scene, and resolved trigger events. -/
structure StateChangeRow where
  stateChange : NtgStateChange
  subject : Option EntityLite
  object : Option EntityLite
  scene : Option SceneLite
  triggerEvents : List EventLite
deriving DecidableEq, Repr

/-- A row of `listTraceExplorerEvents`: the event joined with its scene,
participants and triggered state-change ids. -/
structure TraceRow where
  event : EventLite
  scene : Option SceneLite
  participants : List Str
  stateChangesTriggered : List Str
deriving DecidableEq, Repr

/-- A scene of `getTimelineSlice`. -/
structure TimelineScene where
  scene : SceneLite
  year : Option Int
  matchingEventCount : Nat
  matchingStateChangeCount : Nat
  events : List EventLite
deriving DecidableEq, Repr

/-- `ListStateChangesOptions` (the fields the trace builder passes). -/
structure ListStateChangesOptions where
  pair : Option Str
  entityId : Option Str
  limit : Nat
deriving DecidableEq, Repr

/-- `TraceExplorerOptions` (the fields the trace builder passes). -/
structure TraceExplorerOptions where
  q : Option Str
  entityId : Option Str
  eventType : Option Str
  pair : Option Str
  year : Option Nat
  limit : Nat
deriving DecidableEq, Repr

/-- `TimelineOptions` (the fields the trace builder passes). -/
structure TimelineOptions where
  q : Option Str
  entityId : Option Str
  pair : Option Str
  year : Option Nat
  limitScenes : Nat
  includeBlocks : Bool
deriving DecidableEq, Repr

/-- The NTG store. The artifact-backed row selection of
`listStateChanges`/`listTraceExplorerEvents`/`getTimelineSlice` (filtering,
joining and sorting over the JSON artifacts — the typed read API of spec §6)
is abstracted as the three query functions; the availability gate each of
those functions applies first is kept in the wrappers below, so an
unavailable store returns empty unavailable results exactly as in the
source. -/
structure NtgStore where
  artifacts : NtgArtifacts
  stateChangeRows : ListStateChangesOptions → List StateChangeRow × Nat
  traceEventRows : TraceExplorerOptions → List TraceRow × Nat
  timelineScenes : TimelineOptions → List TimelineScene

structure StateChangesResult where
  available : Bool
  items : List StateChangeRow
  filtered : Nat
deriving DecidableEq, Repr

structure TraceEventsResult where
  available : Bool
  items : List TraceRow
  filtered : Nat
deriving DecidableEq, Repr

structure TimelineResult where
  available : Bool
  scenes : List TimelineScene
deriving DecidableEq, Repr

/-- `listStateChanges` (availability gate from the source; row selection is
the store's). -/
def listStateChanges (store : NtgStore) (options : ListStateChangesOptions) :
    StateChangesResult :=
  if !store.artifacts.available then { available := false, items := [], filtered := 0 }
  else
    let (items, filtered) := store.stateChangeRows options
    { available := true, items := items, filtered := filtered }

/-- `listTraceExplorerEvents` (availability gate from the source). -/
def listTraceExplorerEvents (store : NtgStore) (options : TraceExplorerOptions) :
    TraceEventsResult :=
  if !store.artifacts.available then { available := false, items := [], filtered := 0 }
  else
    let (items, filtered) := store.traceEventRows options
    { available := true, items := items, filtered := filtered }

/-- `getTimelineSlice` (availability gate from the source). -/
def getTimelineSlice (store : NtgStore) (options : TimelineOptions) : TimelineResult :=
  if !store.artifacts.available then { available := false, scenes := [] }
  else { available := true, scenes := store.timelineScenes options }

/- ### The narrative-trace builder (`src/lib/answers/traceAnswer.ts`) -/

namespace Str

def isDigit (c : Char) : Bool := '0' ≤ c && c ≤ '9'

def digitVal (c : Char) : Nat := c.toNat - '0'.toNat

/-- Integer rendering (JS template interpolation of a number). -/
def intStr (n : Int) : Str := (toString n).data

/-- `Number.prototype.toFixed(2)` on the non-negative artifact confidences
(round to two decimals, half away from zero). -/
def toFixed2 (q : ℚ) : Str :=
  let n := (q * 100 + 1/2).floor.toNat
  natStr (n / 100) ++ strOf "." ++
    (if n % 100 < 10 then strOf "0" ++ natStr (n % 100) else natStr (n % 100))

end Str

/-- `pairFromContext`: sorted `idA::idB` key of the first two detected
entities (JS default array sort is lexicographic). -/
def pairFromContext (context : AnswerBuilderContext) : Option Str :=
  match context.entities with
  | e0 :: e1 :: _ =>
    let a := e0.entityId
    let b := e1.entityId
    let ids := if cmpStr a b = .gt then (b, a) else (a, b)
    some (ids.1 ++ strOf "::" ++ ids.2)
  | _ => none

/-- Does a 19xx/20xx year token occur at index `i` with `\b` boundaries? -/
def yearAt (q : Str) (i : Nat) : Bool :=
  let c0 := q.getD i ' '
  let c1 := q.getD (i + 1) ' '
  let c2 := q.getD (i + 2) ' '
  let c3 := q.getD (i + 3) ' '
  decide (i + 4 ≤ q.length) &&
    ((c0 = '1' && c1 = '9') || (c0 = '2' && c1 = '0')) &&
    isDigit c2 && isDigit c3 &&
    (decide (i = 0) || !isWordChar (q.getD (i - 1) ' ')) &&
    !isWordChar (q.getD (i + 4) ' ')

/-- `qLooksLikeYear`: value of the first `\b(19\d{2}|20\d{2})\b` match. -/
def qLooksLikeYear (q : Str) : Option Nat :=
  ((List.range (q.length + 1)).find? (yearAt q)).map (fun i =>
    digitVal (q.getD i '0') * 1000 + digitVal (q.getD (i + 1) '0') * 100 +
      digitVal (q.getD (i + 2) '0') * 10 + digitVal (q.getD (i + 3) '0'))

def contextEntityIds (context : AnswerBuilderContext) : List Str :=
  context.entities.map (·.entityId)

/-- `traceTextFilterFromQuestion`: free-text filtering is suppressed for
`timeline` queries. -/
def traceTextFilterFromQuestion (context : AnswerBuilderContext) : Option Str :=
  let question := trim context.question
  if question = [] then none
  else if context.queryType = .timeline then none
  else some question

/-- `summarizeStateChangesAnswer`. -/
def summarizeStateChangesAnswer (context : AnswerBuilderContext)
    (rows : StateChangesResult) : StructuredAnswerCore :=
  if !rows.available then
    maybeStripEvidence
      { answerText := strOf "NTG state-change artifacts are unavailable. Run Phase 4 generation and retry."
        modeUsed := .ntg
        queryType := context.queryType
        confidence := some (12/100)
        entitiesUsed := contextEntityIds context
        eventsUsed := []
        stateChangesUsed := []
        evidenceRefs := []
        reasoningNotes := strOf "State-change answer builder depends on state_changes.json and supporting NTG artifacts." }
      context.includeEvidence
  else
    let top := rows.items.take 8
    if top.length = 0 then
      maybeStripEvidence
        { answerText := strOf "No inferred state changes matched the current question filters. Try specifying a relationship pair (for example Frank and Peggy) or a dimension like trust/fear/distance."
          modeUsed := .ntg
          queryType := context.queryType
          confidence := some (25/100)
          entitiesUsed := contextEntityIds context
          eventsUsed := []
          stateChangesUsed := []
          evidenceRefs := []
          reasoningNotes := strOf "NTG state-change retrieval returned zero rows for the inferred pair/entity filters." }
        context.includeEvidence
    else
      let lines :=
        [strOf "NTG state-change view (" ++ natStr top.length ++ strOf " of " ++
          natStr rows.filtered ++ strOf " matching changes) for " ++
          displayEntityList (context.entities.map (·.canonicalName)) 4 ++ strOf "."] ++
        top.map (fun item =>
          let sc := item.stateChange
          let subject := (item.subject.map (·.canonicalName)).getD sc.subjectId
          let object := (item.object.map (·.canonicalName)).getD sc.objectId
          let sceneLabel := (item.scene.map (·.headerRaw)).getD sc.sceneId
          let triggerList := joinSep (strOf "; ")
            ((item.triggerEvents.take 2).map (fun event =>
              event.eventTypeL2 ++ strOf " (" ++ event.sceneId ++ strOf "/" ++
                natStr event.sequenceInScene ++ strOf ")"))
          strOf "- " ++ subject ++ strOf " -> " ++ object ++ strOf ": " ++ sc.stateDimension ++
            strOf " " ++ sc.direction ++
            (match sc.magnitude with
              | some m => strOf " (" ++ m ++ strOf ")"
              | none => []) ++
            strOf " [" ++ sc.claimType ++ strOf "] in " ++ sceneLabel ++ strOf " (conf " ++
            toFixed2 sc.confidence ++ strOf ")." ++
            (if triggerList ≠ [] then strOf " Triggers: " ++ triggerList ++ strOf "." else [])) ++
        (if top.length < rows.filtered then
          [strOf "Additional matching state changes omitted: " ++
            natStr (rows.filtered - top.length) ++ strOf "."]
         else [])
      let eventsUsed := top.flatMap (fun item => item.triggerEvents.map (·.eventId))
      let stateChangesUsed := top.map (·.stateChange.stateChangeId)
      let evidenceRefs := top.flatMap (·.stateChange.evidenceRefs)
      maybeStripEvidence
        { answerText := joinSep (strOf "\n") (lines.map (fun line => truncate line 320))
          modeUsed := .ntg
          queryType := context.queryType
          confidence := some (min (92/100) (58/100 + top.length * (4/100)))
          entitiesUsed :=
            contextEntityIds context ++
              top.flatMap (fun item => [item.stateChange.subjectId, item.stateChange.objectId])
          eventsUsed := eventsUsed
          stateChangesUsed := stateChangesUsed
          evidenceRefs := evidenceRefs
          reasoningNotes := strOf "NTG mode answered using inferred state changes linked to trigger events and evidence refs; inferred vs explicit claims remain labeled." }
        context.includeEvidence

/-- `summarizeTimelineLikeAnswer`. -/
def summarizeTimelineLikeAnswer (context : AnswerBuilderContext) (queryType : QueryType)
    (traceRows : TraceEventsResult) (timeline : TimelineResult) : StructuredAnswerCore :=
  if !traceRows.available || !timeline.available then
    maybeStripEvidence
      { answerText := strOf "NTG artifacts are unavailable. Run Phase 3/4 generation and retry."
        modeUsed := .ntg
        queryType := queryType
        confidence := some (12/100)
        entitiesUsed := contextEntityIds context
        eventsUsed := []
        stateChangesUsed := []
        evidenceRefs := []
        reasoningNotes := strOf "Trace/timeline answer builder depends on events, temporal edges, and scene index artifacts." }
      context.includeEvidence
  else
    let topEvents := traceRows.items.take (if queryType = .causal_chain then 10 else 8)
    let topScenes := timeline.scenes.take 6
    if topEvents.length = 0 ∧ topScenes.length = 0 then
      maybeStripEvidence
        { answerText := strOf "No matching timeline events were found. Try adding a character name, event type, or year."
          modeUsed := .ntg
          queryType := queryType
          confidence := some (22/100)
          entitiesUsed := contextEntityIds context
          eventsUsed := []
          stateChangesUsed := []
          evidenceRefs := []
          reasoningNotes := strOf "Timeline/event search returned zero rows for the current query filters." }
        context.includeEvidence
    else
      let heading :=
        if queryType = .causal_chain then
          strOf "Heuristic event chain (NTG) for " ++
            displayEntityList (context.entities.map (·.canonicalName)) 4 ++ strOf ":"
        else
          strOf "Scene-ordered NTG timeline slice for " ++
            displayEntityList (context.entities.map (·.canonicalName)) 4 ++ strOf ":"
      let sceneLines := topScenes.enum.flatMap (fun (pair : Nat × TimelineScene) =>
        let idx := pair.1
        let scene := pair.2
        let sceneHeader := if scene.scene.headerRaw ≠ [] then scene.scene.headerRaw else scene.scene.sceneId
        let year :=
          match scene.year with
          | some y => some y
          | none =>
            match scene.scene.yearExplicit with
            | some y => some y
            | none => scene.scene.yearInferred
        let matchingTag :=
          if scene.matchingEventCount ≠ 0 ∨ scene.matchingStateChangeCount ≠ 0 then
            strOf " matched events=" ++ natStr scene.matchingEventCount ++
              strOf ", state changes=" ++ natStr scene.matchingStateChangeCount
          else []
        [natStr (idx + 1) ++ strOf ". " ++ scene.scene.sceneId ++ strOf " [" ++
          (match year with | some y => intStr y | none => strOf "-") ++ strOf "] " ++
          truncate sceneHeader 140 ++ matchingTag] ++
        (scene.events.take 3).map (fun event =>
          let overlayCount :=
            ((traceRows.items.find? (fun row => row.event.eventId = event.eventId)).map
              (fun row => row.stateChangesTriggered.length)).getD 0
          let overlayLabel :=
            if overlayCount ≠ 0 then strOf ", state overlays=" ++ natStr overlayCount else []
          strOf "   - " ++ event.eventId ++ strOf " " ++ event.eventTypeL2 ++ strOf " (#" ++
            natStr event.sequenceInScene ++ overlayLabel ++ strOf "): " ++
            truncate event.summary 160))
      let lines :=
        [heading] ++ sceneLines ++
        (if queryType = .causal_chain then
          [strOf "This is a heuristic chain assembled from filtered event order and state-change overlays; it is not a formal causal proof."]
         else [])
      let eventsUsed := topEvents.map (·.event.eventId)
      let stateChangesUsed := topEvents.flatMap (·.stateChangesTriggered)
      let evidenceRefs := topEvents.flatMap (·.event.evidenceRefs)
      maybeStripEvidence
        { answerText := joinSep (strOf "\n") (lines.map (fun line => truncate line 360))
          modeUsed := .ntg
          queryType := queryType
          confidence := some (min (88/100) (1/2 + (min topEvents.length 10) * (3/100)))
          entitiesUsed := contextEntityIds context ++ topEvents.flatMap (·.participants)
          eventsUsed := eventsUsed
          stateChangesUsed := stateChangesUsed
          evidenceRefs := evidenceRefs
          reasoningNotes :=
            if queryType = .timeline then
              strOf "NTG mode answered using scene/event ordering plus temporal edges and evidence-linked event nodes."
            else
              strOf "NTG mode provided a heuristic chain using filtered event order and state-change overlays." }
        context.includeEvidence

/-- `buildTraceAnswer`. -/
def buildTraceAnswer (store : NtgStore) (context : AnswerBuilderContext) : StructuredAnswerCore :=
  let pair := pairFromContext context
  let primaryEntityId := (context.entities.head?).map (·.entityId)
  let derivedYear := qLooksLikeYear context.question
  let traceTextFilter := traceTextFilterFromQuestion context
  if context.queryType = .state_change then
    let rows := listStateChanges store
      { pair := pair
        entityId := if pair.isSome then none else primaryEntityId
        limit := 40 }
    summarizeStateChangesAnswer context rows
  else if context.queryType = .evidence then
    -- Evidence requests still use NTG rows but with a more evidence-centric summary.
    let traceRows := listTraceExplorerEvents store
      { q := some context.question
        entityId := primaryEntityId
        eventType := none
        pair := pair
        year := derivedYear
        limit := 14 }
    if !traceRows.available then
      summarizeTimelineLikeAnswer context .evidence traceRows
        { available := false, scenes := [] }
    else
      let top := traceRows.items.take 8
      let lines :=
        [strOf "Evidence-centric NTG response (" ++ natStr top.length ++
          strOf " event(s)) for " ++
          displayEntityList (context.entities.map (·.canonicalName)) 4 ++ strOf "."] ++
        top.enum.map (fun (pairIdx : Nat × TraceRow) =>
          let idx := pairIdx.1
          let row := pairIdx.2
          let snippet := (row.event.evidenceSnippets.head?).getD []
          natStr (idx + 1) ++ strOf ". " ++ row.event.eventId ++ strOf " " ++
            row.event.eventTypeL2 ++ strOf " in " ++
            ((row.scene.map (·.headerRaw)).getD row.event.sceneId) ++ strOf " [refs: " ++
            natStr row.event.evidenceRefs.length ++ strOf "] " ++
            truncate (if snippet ≠ [] then snippet else row.event.summary) 180)
      let answer : StructuredAnswerCore :=
        { answerText := joinSep (strOf "\n") lines
          modeUsed := .ntg
          queryType := .evidence
          confidence :=
            if top.length ≠ 0 then some (min (86/100) (45/100 + top.length * (4/100)))
            else some (2/10)
          entitiesUsed := contextEntityIds context ++ top.flatMap (·.participants)
          eventsUsed := top.map (·.event.eventId)
          stateChangesUsed := top.flatMap (·.stateChangesTriggered)
          evidenceRefs := top.flatMap (·.event.evidenceRefs)
          reasoningNotes := strOf "NTG evidence response selected events and surfaced their evidence refs/snippets directly." }
      maybeStripEvidence answer context.includeEvidence
  else
    let traceRows := listTraceExplorerEvents store
      { q := traceTextFilter
        entityId := primaryEntityId
        eventType := none
        pair := pair
        year := derivedYear
        limit := 40 }
    let timeline := getTimelineSlice store
      { q := if context.queryType = .timeline then traceTextFilter else none
        entityId := primaryEntityId
        pair := pair
        year := derivedYear
        limitScenes := 8
        includeBlocks := false }
    summarizeTimelineLikeAnswer context context.queryType traceRows timeline

/- ### The lexical-baseline builder (`src/lib/answers/baselineRagLike.ts`) -/

structure RetrievalRow where
  source : Str
  id : Str
  sceneId : Option Str
  text : Str
  evidenceRefs : List Str
  score : Nat
deriving DecidableEq, Repr

def cmpNat (a b : Nat) : Ordering :=
  if a < b then .lt else if b < a then .gt else .eq

/-- `buildBaselineRagLikeAnswer`. -/
def buildBaselineRagLikeAnswer (artifacts : NtgArtifacts)
    (context : AnswerBuilderContext) : StructuredAnswerCore :=
  if !artifacts.available then
    maybeStripEvidence
      { answerText := strOf "Baseline retrieval is unavailable because narrative trace artifacts are missing. Generate Phase 3/4 artifacts and retry."
        modeUsed := .baseline_rag
        queryType := context.queryType
        confidence := some (1/10)
        entitiesUsed := context.entities.map (·.entityId)
        eventsUsed := []
        stateChangesUsed := []
        evidenceRefs := []
        reasoningNotes := strOf "Baseline RAG-like placeholder depends on local event/script-block artifacts." }
      context.includeEvidence
  else
    let entityIds := context.entities.map (·.entityId)
    let eventDocs := artifacts.events.filterMap (fun event =>
      let hasEntityMatch :=
        entityIds.length = 0 ∨ entityIds.any (fun id => event.participants.contains id)
      if !hasEntityMatch then none
      else
        let snippet := (event.evidenceSnippets.head?).getD []
        let text := trim (event.summary ++ strOf "\n" ++ snippet)
        some
          { source := strOf "event"
            id := event.eventId
            sceneId := some event.sceneId
            text := text
            evidenceRefs := event.evidenceRefs
            score := overlapScore context.question (event.eventTypeL2 ++ strOf " " ++ text)
            : RetrievalRow })
    let stateChangeDocs := artifacts.stateChanges.filterMap (fun sc =>
      let hasEntityMatch :=
        entityIds.length = 0 ∨ entityIds.contains sc.subjectId ∨ entityIds.contains sc.objectId
      if !hasEntityMatch then none
      else
        some
          { source := strOf "state_change"
            id := sc.stateChangeId
            sceneId := some sc.sceneId
            text := sc.stateDimension ++ strOf " " ++ sc.direction ++ strOf " " ++
              sc.claimType ++ strOf " " ++ sc.subjectId ++ strOf " " ++ sc.objectId
            evidenceRefs := sc.evidenceRefs
            score := overlapScore context.question
              (sc.stateDimension ++ strOf " " ++ sc.direction ++ strOf " " ++ sc.claimType ++
                strOf " " ++ joinSep (strOf " ") sc.ruleIds)
            : RetrievalRow })
    let blockDocs := artifacts.scriptBlocks.filterMap (fun block =>
      let blockLower := lower ((block.speakerCueRaw.getD []) ++ strOf " " ++ block.text)
      let hasEntityMatch :=
        entityIds.length = 0 ∨
          context.entities.any (fun entity => blockLower.containsB (lower entity.canonicalName))
      if !hasEntityMatch then none
      else
        some
          { source := strOf "script_block"
            id := block.blockId
            sceneId := some block.sceneId
            text :=
              (match block.speakerCueRaw with
                | some cue => cue ++ strOf ": "
                | none => []) ++ block.text
            evidenceRefs := []
            score := overlapScore context.question (block.blockType ++ strOf " " ++ block.text)
            : RetrievalRow })
    let docs := eventDocs ++ stateChangeDocs ++ blockDocs
    let sorted := sortByCmp
      (fun a b =>
        (cmpNat b.score a.score).then
          ((cmpStr (a.sceneId.getD []) (b.sceneId.getD [])).then (cmpStr a.id b.id)))
      docs
    let top := (sorted.filter (fun row => row.score > 0)).take 6
    let answerLines :=
      if top.length = 0 then
        [strOf "Baseline retrieval found no strong lexical matches for this question. Try a more specific entity name or scene/event phrase."]
      else
        [strOf "Baseline retrieval returned " ++ natStr top.length ++
          strOf " top text chunk(s) for " ++
          displayEntityList (context.entities.map (·.canonicalName)) 4 ++ strOf "."] ++
        top.enum.map (fun (pairIdx : Nat × RetrievalRow) =>
          let scenePrefix :=
            match pairIdx.2.sceneId with
            | some sid => strOf " (" ++ sid ++ strOf ")"
            | none => []
          natStr (pairIdx.1 + 1) ++ strOf ". [" ++ pairIdx.2.source ++ scenePrefix ++
            strOf "] " ++ truncate pairIdx.2.text 220) ++
        [strOf "This baseline is lexical retrieval only; it does not explicitly model temporal edges or inferred relationship state changes."]
    maybeStripEvidence
      { answerText := joinSep (strOf "\n") answerLines
        modeUsed := .baseline_rag
        queryType := context.queryType
        confidence :=
          match top.head? with
          | some first => some (min (78/100) (28/100 + (first.score : ℚ) / 12))
          | none => some (12/100)
        entitiesUsed := context.entities.map (·.entityId)
        eventsUsed := (top.filter (fun row => row.source = strOf "event")).map (·.id)
        stateChangesUsed := (top.filter (fun row => row.source = strOf "state_change")).map (·.id)
        evidenceRefs := top.flatMap (·.evidenceRefs)
        reasoningNotes := strOf "Baseline RAG-like mode ranked event summaries, script blocks, and state-change labels by lexical overlap with the question." }
      context.includeEvidence

/- ### The hybrid builder (`src/lib/answers/hybridAnswer.ts`) -/

/-- `buildHybridAnswer` (the two sub-builders run on the same immutable
store snapshot; `Promise.all` concurrency is pure composition here). -/
def buildHybridAnswer (kg : KgArtifacts) (store : NtgStore)
    (context : AnswerBuilderContext) : StructuredAnswerCore :=
  let kgAnswer := buildKgAnswer kg context
  let traceAnswer := buildTraceAnswer store context
  let blendedText :=
    if context.queryType = .comparison then
      joinSep (strOf "\n")
        [strOf "Hybrid comparison answer:",
         strOf "KG view (entity/relationship structure):",
         kgAnswer.answerText,
         [],
         strOf "NTG view (timeline/state-change structure):",
         traceAnswer.answerText,
         [],
         strOf "Use the baseline comparator for a lexical-only contrast if requested."]
    else
      joinSep (strOf "\n")
        [strOf "Hybrid answer (KG + NTG):",
         strOf "- KG contribution: " ++ kgAnswer.reasoningNotes,
         strOf "- NTG contribution: " ++ traceAnswer.reasoningNotes,
         [],
         strOf "KG summary:",
         kgAnswer.answerText,
         [],
         strOf "NTG summary:",
         traceAnswer.answerText]
  let merged := mergeAnswerCores kgAnswer traceAnswer
    { noOverrides with
      modeUsed := some .hybrid
      answerText := some blendedText
      queryType := some context.queryType
      confidence :=
        jsMin (some (93/100))
          (jsAdd (jsMul (jsMax kgAnswer.confidence traceAnswer.confidence) (some (97/100)))
            (some (3/100)))
      reasoningNotes := some (strOf "Hybrid mode combined KG entity-relationship facts with NTG chronology/state-change evidence to answer a query that spans both structures.") }
  maybeStripEvidence merged context.includeEvidence

/- ### The optional synthesis layer (`src/lib/answers/synthesizeWithLLM.ts`) -/

/-- The feature-flag/credential gate (`getLlmSynthesisStatus`): `enabled` is
false when `ENABLE_LLM_SYNTHESIS` is off or the API key is missing, with the
corresponding `reason`. -/
structure LlmSynthesisStatus where
  enabled : Bool
  reason : Str
deriving DecidableEq, Repr

/-- The outcome of the single external text-generation call
(`generateOpenAIText`): the provider is an external collaborator, so the
result — including timeout and malformed-response failures, which the client
maps to `ok: false` — is an input of the model. -/
inductive GenResult where
  | ok (text : Str) (model : Str) (responseId : Option Str)
  | err (error : Str) (model : Str)
deriving DecidableEq, Repr

structure LlmSynthesisOutcome where
  answer : StructuredAnswerCore
  assisted : Bool
  skippedReason : Option Str
  error : Option Str
deriving DecidableEq, Repr

/-- `ensureAssistedLabel` (the `/^LLM-assisted/i` test is a case-insensitive
prefix check). -/
def ensureAssistedLabel (text : Str) : Str :=
  let trimmed := trim text
  if trimmed = [] then strOf "LLM-assisted synthesis is unavailable; using deterministic answer."
  else if lower (trimmed.take 12) = strOf "llm-assisted" then trimmed
  else strOf "LLM-assisted (structured evidence preserved)" ++ strOf "\n" ++ trimmed

/-- `appendNote`. -/
def appendNote (base addendum : Str) : Str :=
  let trimmedBase := trim base
  if trimmedBase = [] then trim addendum
  else if trimmedBase.containsB addendum then trimmedBase
  else trim (trimmedBase ++ strOf " " ++ addendum)

/-- `maybeSynthesizeStructuredAnswerWithLLM`. The system/user prompts are
consumed only by the external provider and are not modelled; the provider's
response is the `gen` input. -/
def maybeSynthesizeStructuredAnswerWithLLM (answer : StructuredAnswerCore)
    (llmStatus : LlmSynthesisStatus) (gen : GenResult) (label : Option Str) :
    LlmSynthesisOutcome :=
  let normalized := normalizeStructuredAnswer answer
  if trim normalized.answerText = [] then
    { answer := normalized, assisted := false
      skippedReason := some (strOf "empty structured answer text"), error := none }
  else if !llmStatus.enabled then
    { answer := normalized, assisted := false
      skippedReason := some llmStatus.reason, error := none }
  else
    match gen with
    | .err e model =>
      { answer :=
          { normalized with
            reasoningNotes :=
              appendNote normalized.reasoningNotes
                (strOf "LLM synthesis attempted but fell back to deterministic answer (" ++
                  model ++ strOf ": " ++ truncate e 220 ++ strOf ").") }
        assisted := false, skippedReason := none, error := some e }
    | .ok text model responseId =>
      let labeledAnswerText := ensureAssistedLabel (truncate text 8000)
      let noteParts :=
        [strOf "LLM-assisted synthesis applied on top of deterministic structured retrieval/traversal.",
         strOf "Structured IDs and evidence refs were preserved from the upstream answer.",
         strOf "OpenAI model: " ++ model ++ strOf "."] ++
        (match label with
          | some l => [strOf "Context: " ++ l ++ strOf "."]
          | none => []) ++
        (match responseId with
          | some rid => [strOf "response_id=" ++ rid ++ strOf "."]
          | none => [])
      { answer :=
          { normalized with
            answerText := labeledAnswerText
            reasoningNotes := appendNote normalized.reasoningNotes (joinSep (strOf " ") noteParts) }
        assisted := true, skippedReason := none, error := none }

/- ### Entity-mention detection (query service, `advanced/page.tsx` doc) -/

structure EntityDetectionLexiconEntry where
  entityId : Str
  canonicalName : Str
  entityType : Str
  phrase : Str
  matchKind : MatchKind
  priority : Nat
deriving DecidableEq, Repr

/-- Lexicon build state: `seen` models the dedup `Set` keyed by
`entityId|phrase|matchKind` (here the triple itself). -/
structure LexBuild where
  seen : List (Str × Str × MatchKind)
  entries : List EntityDetectionLexiconEntry
deriving DecidableEq, Repr

/-- `addEntry` inside `buildEntityDetectionLexicon`. -/
def addEntry (st : LexBuild) (entityId canonicalName entityType phraseRaw : Str)
    (matchKind : MatchKind) (priority : Nat) : LexBuild :=
  let phrase := normalizeText phraseRaw
  if phrase = [] ∨ phrase.length < 3 then st
  else
    let key := (entityId, phrase, matchKind)
    if key ∈ st.seen then st
    else
      { seen := st.seen ++ [key]
        entries := st.entries ++
          [{ entityId := entityId, canonicalName := canonicalName, entityType := entityType,
             phrase := phrase, matchKind := matchKind, priority := priority }] }

/-- Insertion-ordered multimap update (`Map` of last name → entity ids). -/
def assocAppend (acc : List (Str × List Str)) (key : Str) (v : Str) :
    List (Str × List Str) :=
  if acc.any (fun kv => kv.1 = key) then
    acc.map (fun kv => if kv.1 = key then (kv.1, kv.2 ++ [v]) else kv)
  else acc ++ [(key, [v])]

/-- The hand-authored hint table. -/
def manualHints : List (Str × Str) :=
  [(strOf "char_frank_sheeran", strOf "frank sheeran"),
   (strOf "char_frank_sheeran", strOf "frank"),
   (strOf "char_peggy_sheeran", strOf "peggy sheeran"),
   (strOf "char_peggy_sheeran", strOf "peggy"),
   (strOf "char_jimmy_hoffa", strOf "jimmy hoffa"),
   (strOf "char_jimmy_hoffa", strOf "hoffa"),
   (strOf "char_russell_bufalino", strOf "russell bufalino"),
   (strOf "char_russell_bufalino", strOf "russell"),
   (strOf "char_russell_bufalino", strOf "bufalino"),
   (strOf "group_teamsters", strOf "teamsters"),
   (strOf "group_teamsters_union", strOf "teamsters"),
   (strOf "org_fbi", strOf "fbi")]

/-- Lexicon sort: phrase length descending, priority descending, phrase
lexicographic. -/
def lexEntryCmp (a b : EntityDetectionLexiconEntry) : Ordering :=
  (cmpNat b.phrase.length a.phrase.length).then
    ((cmpNat b.priority a.priority).then (cmpStr a.phrase b.phrase))

/-- `buildEntityDetectionLexicon` (the returned `entityById` map is only
used inside the build; the scan consumes the entries). -/
def buildEntityDetectionLexicon (kg : KgArtifacts) : List EntityDetectionLexiconEntry :=
  if !kg.available then []
  else
    let st0 : LexBuild := { seen := [], entries := [] }
    -- Canonical names are the primary, safest signal.
    let st1 := kg.entities.foldl
      (fun st e => addEntry st e.entityId e.canonicalName e.entityType e.canonicalName .canonical 100)
      st0
    -- Manual aliases are useful and much less noisy than screenplay cue aliases.
    let st2 := kg.aliases.foldl
      (fun st al =>
        if !((lower al.source).containsB (strOf "manual")) then st
        else
          match kgEntityById kg al.entityId with
          | none => st
          | some info =>
            let st' := addEntry st al.entityId info.canonicalName info.entityType al.aliasRaw .alias 80
            addEntry st' al.entityId info.canonicalName info.entityType al.aliasNormalized .alias 75)
      st1
    -- Query-friendly hints for the core demo entities and common asks.
    let st3 := manualHints.foldl
      (fun st hint =>
        match kgEntityById kg hint.1 with
        | none => st
        | some info => addEntry st hint.1 info.canonicalName info.entityType hint.2 .hint 90)
      st2
    -- Unique last names of multi-word character entities (skip ambiguous tokens).
    let lastNameToEntityIds := kg.entities.foldl
      (fun (acc : List (Str × List Str)) e =>
        if e.entityType ≠ strOf "character" then acc
        else
          let parts := words (lower e.canonicalName)
          if parts.length < 2 then acc
          else
            let last := (parts.getLast?).getD []
            if last.length < 4 then acc
            else assocAppend acc last e.entityId)
      []
    let st4 := lastNameToEntityIds.foldl
      (fun st entry =>
        if entry.2.length ≠ 1 then st
        else
          let entityId := (entry.2.head?).getD []
          match kgEntityById kg entityId with
          | none => st
          | some info => addEntry st entityId info.canonicalName info.entityType entry.1 .hint 70)
      st3
    -- Longer phrases first; then priority.
    sortByCmp lexEntryCmp st4.entries

/-- `detectEntitiesInQuestion`. The matched substring of the boundary-
anchored literal pattern over the lowercased question equals the (lowercase)
phrase itself. -/
def detectEntitiesInQuestion (kg : KgArtifacts) (question : Str) :
    List DetectedEntityMention :=
  let entries := buildEntityDetectionLexicon kg
  if entries.length = 0 then []
  else
    let qLower := normalizeText question
    let scanned := entries.foldl
      (fun (st : List (Nat × Nat) × List DetectedEntityMention) entry =>
        match firstBoundaryMatch isLowerAlnum entry.phrase qLower with
        | none => st
        | some startIndex =>
          let endIndex := startIndex + entry.phrase.length
          let overlaps := st.1.any
            (fun span => !(decide (endIndex ≤ span.1) || decide (startIndex ≥ span.2)))
          if overlaps then st
          else
            (st.1 ++ [(startIndex, endIndex)],
             st.2 ++
               [{ entityId := entry.entityId, canonicalName := entry.canonicalName,
                  entityType := entry.entityType, matchedText := entry.phrase,
                  matchKind := entry.matchKind, startIndex := startIndex }]))
      ([], [])
    let hits := scanned.2
    let sorted := sortByCmp
      (fun a b => (cmpNat a.startIndex b.startIndex).then (cmpStr a.canonicalName b.canonicalName))
      hits
    -- Deduplicate same entity while preserving first (leftmost) mention.
    (sorted.foldl
      (fun (st : List Str × List DetectedEntityMention) hit =>
        if hit.entityId ∈ st.1 then st
        else (st.1 ++ [hit.entityId], st.2 ++ [hit]))
      ([], [])).2

/- ### The query service (`answerQueryRequest`) -/

def AnswerMode.toStr : AnswerMode → Str
  | .kg => strOf "kg"
  | .ntg => strOf "ntg"
  | .hybrid => strOf "hybrid"
  | .baseline_rag => strOf "baseline_rag"

def QueryType.toStr : QueryType → Str
  | .fact => strOf "fact"
  | .timeline => strOf "timeline"
  | .state_change => strOf "state_change"
  | .causal_chain => strOf "causal_chain"
  | .evidence => strOf "evidence"
  | .comparison => strOf "comparison"

/-- `appendRouteReasoning`. -/
def appendRouteReasoning (answer : StructuredAnswerCore) (routeReasoning : Str) :
    StructuredAnswerCore :=
  { answer with
    reasoningNotes :=
      if answer.reasoningNotes.containsB routeReasoning then answer.reasoningNotes
      else trim (answer.reasoningNotes ++ strOf " " ++ routeReasoning) }

/-- The evidence warning appended by `enforceEvidenceInvariant`. -/
def evidenceWarning : Str :=
  strOf "Warning: no evidence refs were available for some cited rows in this deterministic pass."

/-- `enforceEvidenceInvariant`. -/
def enforceEvidenceInvariant (answer : StructuredAnswerCore) : StructuredAnswerCore :=
  if answer.evidenceRefs.length > 0 then answer
  else if answer.eventsUsed.length = 0 ∧ answer.stateChangesUsed.length = 0 then answer
  else { answer with reasoningNotes := answer.reasoningNotes ++ strOf " " ++ evidenceWarning }

/-- `buildMainAnswer`: dispatch on the routed mode. -/
def buildMainAnswer (kg : KgArtifacts) (store : NtgStore) (context : AnswerBuilderContext)
    (modeUsed : AnswerMode) : StructuredAnswerCore :=
  match modeUsed with
  | .kg => buildKgAnswer kg context
  | .ntg => buildTraceAnswer store context
  | .hybrid => buildHybridAnswer kg store context
  | .baseline_rag => buildBaselineRagLikeAnswer store.artifacts context

/-- `answerQueryRequest`: the full pipeline for one request. -/
def answerQueryRequest (kg : KgArtifacts) (store : NtgStore)
    (llmStatus : LlmSynthesisStatus) (gen : GenResult) (request : QueryRequest) :
    QueryResponse :=
  let detectedEntities := detectEntitiesInQuestion kg request.question
  let route := routeQuery request.question (some request.preferredMode.toStr)
    detectedEntities.length
  let context : AnswerBuilderContext :=
    { question := request.question
      queryType := route.queryType
      routeReasoning := route.reasoning
      entities := detectedEntities
      includeEvidence := request.includeEvidence }
  let mainAnswer0 := buildMainAnswer kg store context route.modeUsed
  let mainAnswer1 :=
    enforceEvidenceInvariant
      (appendRouteReasoning (normalizeStructuredAnswer mainAnswer0) route.reasoning)
  let label := strOf "mode=" ++ route.modeUsed.toStr ++ strOf ", query_type=" ++
    route.queryType.toStr
  let mainAnswer2 :=
    (maybeSynthesizeStructuredAnswerWithLLM mainAnswer1 llmStatus gen (some label)).answer
  let shouldIncludeBaseline :=
    request.includeBaselineComparison || route.queryType = .comparison
  let baselineComparison : Option StructuredAnswerCore :=
    if shouldIncludeBaseline ∧ route.modeUsed ≠ .baseline_rag then
      let baselineAnswer := buildBaselineRagLikeAnswer store.artifacts context
      some (enforceEvidenceInvariant
        (appendRouteReasoning (normalizeStructuredAnswer baselineAnswer)
          (strOf "Baseline comparator generated for side-by-side deterministic comparison.")))
    else none
  -- Builders strip evidence refs, but apply here again for defense-in-depth.
  let mainAnswer3 :=
    if !request.includeEvidence then { mainAnswer2 with evidenceRefs := [] } else mainAnswer2
  let baselineComparison2 :=
    if !request.includeEvidence then
      baselineComparison.map (fun b => { b with evidenceRefs := [] })
    else baselineComparison
  { question := request.question
    main := mainAnswer3
    baselineComparison := baselineComparison2 }

/- ### Concrete fixtures used by witnesses and counterexamples -/

/-- A KG store whose backing artifacts are missing. -/
def kgMissing : KgArtifacts := { available := false, entities := [], aliases := [], edges := [] }

/-- NTG artifacts whose backing files are missing. -/
def ntgMissing : NtgArtifacts :=
  { available := false, events := [], stateChanges := [], scriptBlocks := [] }

/-- An NTG store whose backing artifacts are missing. -/
def ntgStoreMissing : NtgStore :=
  { artifacts := ntgMissing
    stateChangeRows := fun _ => ([], 0)
    traceEventRows := fun _ => ([], 0)
    timelineScenes := fun _ => [] }

/-- Available NTG artifacts with no records. -/
def ntgAvailEmpty : NtgArtifacts :=
  { available := true, events := [], stateChanges := [], scriptBlocks := [] }

/-- An available NTG store on which every query returns zero rows. -/
def ntgStoreNoRows : NtgStore :=
  { artifacts := ntgAvailEmpty
    stateChangeRows := fun _ => ([], 0)
    traceEventRows := fun _ => ([], 0)
    timelineScenes := fun _ => [] }

/-- A sample narrative event. -/
def sampleEvent : EventLite :=
  { eventId := strOf "evt_000001"
    eventTypeL2 := strOf "meeting"
    sceneId := strOf "scene_0001"
    sequenceInScene := 1
    summary := strOf "Frank meets Russell at the gas station."
    evidenceRefs := [strOf "evref_000001"]
    evidenceSnippets := [strOf "They meet at the station."]
    participants := [strOf "char_frank_sheeran", strOf "char_russell_bufalino"] }

/-- A sample trace-explorer row for `sampleEvent`. -/
def sampleTraceRow : TraceRow :=
  { event := sampleEvent
    scene := none
    participants := [strOf "char_frank_sheeran", strOf "char_russell_bufalino"]
    stateChangesTriggered := [] }

/-- An available NTG store that returns one trace row for every query. -/
def ntgStoreOneRow : NtgStore :=
  { artifacts := ntgAvailEmpty
    stateChangeRows := fun _ => ([], 0)
    traceEventRows := fun _ => ([sampleTraceRow], 1)
    timelineScenes := fun _ => [] }

/-- The disabled synthesis gate (flag off). -/
def llmDisabled : LlmSynthesisStatus :=
  { enabled := false, reason := strOf "ENABLE_LLM_SYNTHESIS is disabled" }

/-- The enabled synthesis gate. -/
def llmEnabled : LlmSynthesisStatus :=
  { enabled := true, reason := strOf "LLM synthesis enabled" }

/-- A generation result that is never consulted by disabled-gate runs. -/
def genUnused : GenResult := .err (strOf "unused") (strOf "gpt-4.1-mini")

/-- The fallback note appended on the error path of
`maybeSynthesizeStructuredAnswerWithLLM` (the source's template literal). -/
def synthFallbackNote (e model : Str) : Str :=
  strOf "LLM synthesis attempted but fell back to deterministic answer (" ++
    model ++ strOf ": " ++ truncate e 220 ++ strOf ")."

/-- The note appended on the success path of
`maybeSynthesizeStructuredAnswerWithLLM` (`noteParts.join(' ')`). -/
def synthSuccessNote (model : Str) (label : Option Str) (responseId : Option Str) : Str :=
  joinSep (strOf " ")
    ([strOf "LLM-assisted synthesis applied on top of deterministic structured retrieval/traversal.",
      strOf "Structured IDs and evidence refs were preserved from the upstream answer.",
      strOf "OpenAI model: " ++ model ++ strOf "."] ++
     (match label with
       | some l => [strOf "Context: " ++ l ++ strOf "."]
       | none => []) ++
     (match responseId with
       | some rid => [strOf "response_id=" ++ rid ++ strOf "."]
       | none => []))

/-- A normalized deterministic answer used to probe the synthesis layer. -/
def c6Answer : StructuredAnswerCore :=
  { answerText := strOf "Deterministic answer."
    modeUsed := .kg
    queryType := .fact
    confidence := some (1/2)
    entitiesUsed := [strOf "char_frank_sheeran"]
    eventsUsed := []
    stateChangesUsed := []
    evidenceRefs := []
    reasoningNotes := strOf "Deterministic rationale." }

/- ### Anchored substrings survive the note-appending plumbing -/

/-- Is the first character present and not whitespace? -/
def headNonWs (w : Str) : Bool :=
  match w with
  | [] => false
  | c :: _ => !isWs c

/-- A non-empty string whose first and last characters are not whitespace
(true of every note constant the pipeline appends). Decidable, so concrete
constants discharge it by `decide`. -/
def Anchored (w : Str) : Prop :=
  headNonWs w = true ∧ headNonWs w.reverse = true

instance (w : Str) : Decidable (Anchored w) := by
  unfold Anchored; infer_instance

/-- The omission note carried by stripped answers (without the trailing
period this is also the guard `maybeStripEvidence` checks). -/
def omissionNote : Str := strOf "Evidence refs omitted by request."

/-- The soft evidence invariant of `StructuredAnswerCore` (spec §3). -/
def evidenceInvariantHolds (a : StructuredAnswerCore) : Prop :=
  (a.eventsUsed ≠ [] ∨ a.stateChangesUsed ≠ []) → a.evidenceRefs = [] →
    evidenceWarning <:+: a.reasoningNotes

/-- The fixed reasoning-notes override of the hybrid builder. -/
def hybridNotes : Str :=
  strOf "Hybrid mode combined KG entity-relationship facts with NTG chronology/state-change evidence to answer a query that spans both structures."

/-- The mode a non-`auto` preferred mode forces (the claim's aliasing:
`baseline` maps to `baseline_rag`, everything else verbatim; the `auto` arm
is never reached under the claim's hypothesis). -/
def forcedMode : PreferredMode → AnswerMode
  | .kg => .kg
  | .ntg => .ntg
  | .hybrid => .hybrid
  | .baseline_rag => .baseline_rag
  | .baseline => .baseline_rag
  | .auto => .kg

/-- The fixed default mode of each query type asserted by the claim. -/
def claimDefaultMode : QueryType → AnswerMode
  | .fact => .kg
  | .timeline => .ntg
  | .state_change => .ntg
  | .causal_chain => .hybrid
  | .evidence => .hybrid
  | .comparison => .hybrid

/-- The validator checks of §4.7 that are not already guaranteed by typing
in this model: a finite confidence within `[0, 1]` (the enum fields, string
fields and string-array fields are total by construction). -/
def structurallyValid (a : StructuredAnswerCore) : Prop :=
  ∃ q : ℚ, a.confidence = some q ∧ 0 ≤ q ∧ q ≤ 1

/-- A concrete fact-type builder context for witnesses. -/
def ctxFact : AnswerBuilderContext :=
  { question := strOf "Who is Frank?"
    queryType := .fact
    routeReasoning := strOf "Fact-style query defaults to KG lookup."
    entities := []
    includeEvidence := true }

/-- A request that asks for the baseline comparison while forcing baseline
mode. -/
def reqBaselineForced : QueryRequest :=
  { question := strOf "hi"
    preferredMode := .baseline
    includeEvidence := true
    includeBaselineComparison := true }

/-- A plain request asking for the baseline comparison in auto mode. -/
def reqAutoComp : QueryRequest :=
  { question := strOf "hi"
    preferredMode := .auto
    includeEvidence := true
    includeBaselineComparison := true }

/-- An evidence-type builder context over an empty question match. -/
def ctxEvidence : AnswerBuilderContext :=
  { question := strOf "show proof"
    queryType := .evidence
    routeReasoning := strOf "r"
    entities := []
    includeEvidence := true }

/-- The trace-explorer query the evidence branch of `buildTraceAnswer`
issues. -/
def evidenceQueryOptions (context : AnswerBuilderContext) : TraceExplorerOptions :=
  { q := some context.question
    entityId := (context.entities.head?).map (·.entityId)
    eventType := none
    pair := pairFromContext context
    year := qLooksLikeYear context.question
    limit := 14 }

/-- The `includeEvidence = false` request probed by the C10 counterexample
and witness. -/
def reqC10F : QueryRequest :=
  { question := strOf "hi"
    preferredMode := .hybrid
    includeEvidence := false
    includeBaselineComparison := false }

/-- `reqC10F` with evidence kept. -/
def reqC10T : QueryRequest :=
  { question := strOf "hi"
    preferredMode := .hybrid
    includeEvidence := true
    includeBaselineComparison := false }

/-- The character span a detected mention occupies. -/
def mentionSpan (h : DetectedEntityMention) : Nat × Nat :=
  (h.startIndex, h.startIndex + h.matchedText.length)

/-- Two half-open spans do not overlap. -/
def spansDisjoint (p q : Nat × Nat) : Prop := p.2 ≤ q.1 ∨ q.2 ≤ p.1

/-- The comparator relation the detection sort uses. -/
def mentionLe (a b : DetectedEntityMention) : Prop :=
  (cmpNat a.startIndex b.startIndex).then (cmpStr a.canonicalName b.canonicalName) ≠ .gt

instance mentionLe_decidable : DecidableRel mentionLe := fun a b => by
  unfold mentionLe
  infer_instance

/- ### Basic lemmas about the string model -/

theorem dropWhile_dropWhile (p : Char → Bool) (l : Str) :
    (l.dropWhile p).dropWhile p = l.dropWhile p := by
  induction l with
  | nil => rfl
  | cons c rest ih =>
    by_cases h : p c
    · simp [List.dropWhile_cons, h, ih]
    · simp [List.dropWhile_cons, h]

theorem trimLeft_trimLeft (s : Str) : trimLeft (trimLeft s) = trimLeft s :=
  dropWhile_dropWhile isWs s

theorem trimRight_trimRight (s : Str) : trimRight (trimRight s) = trimRight s := by
  unfold trimRight
  rw [List.reverse_reverse, dropWhile_dropWhile]

/-- The head of `dropWhile p l` does not satisfy `p`. -/
theorem head_dropWhile_not (p : Char → Bool) (l : Str) {c : Char} {t : Str}
    (h : l.dropWhile p = c :: t) : p c = false := by
  induction l with
  | nil => simp at h
  | cons x rest ih =>
    by_cases hx : p x
    · rw [List.dropWhile_cons_of_pos hx] at h
      exact ih h
    · rw [List.dropWhile_cons_of_neg hx] at h
      cases h
      exact Bool.eq_false_iff.mpr hx

/-- `trimRight` returns a prefix of its argument. -/
theorem trimRight_prefix (s : Str) : trimRight s <+: s := by
  unfold trimRight
  rw [← List.reverse_suffix, List.reverse_reverse]
  exact List.dropWhile_suffix isWs

/-- If the head of `s` fails `p`, `dropWhile p s = s`. -/
theorem dropWhile_cons_neg' (p : Char → Bool) (c : Char) (t : Str) (h : p c = false) :
    (c :: t).dropWhile p = c :: t :=
  List.dropWhile_cons_of_neg (by simp [h])

theorem trim_trim (s : Str) : trim (trim s) = trim s := by
  unfold trim
  -- `trimRight (trimLeft s)` has a head failing `isWs` (or is empty),
  -- so the inner `trimLeft` is the identity on it.
  have key : trimLeft (trimRight (trimLeft s)) = trimRight (trimLeft s) := by
    cases hl : trimLeft s with
    | nil =>
      have : trimRight ([] : Str) = [] := rfl
      rw [this]; rfl
    | cons c t =>
      have hc : isWs c = false := head_dropWhile_not isWs s hl
      cases hr : trimRight (c :: t) with
      | nil => rfl
      | cons d u =>
        have hpre : (d :: u) <+: (c :: t) := hr ▸ trimRight_prefix (c :: t)
        obtain ⟨r, hrr⟩ := hpre
        have hdc : d = c := by
          have := hrr
          simp only [List.cons_append] at this
          exact (List.cons.injEq _ _ _ _ ▸ this).1
        unfold trimLeft
        rw [dropWhile_cons_neg' isWs d u (hdc ▸ hc)]
  rw [key, trimRight_trimRight]

/-- Substring containment survives appending on the right. -/
theorem infix_append_right {w s : Str} (t : Str) (h : w <:+: s) : w <:+: s ++ t := by
  obtain ⟨a, b, rfl⟩ := h
  exact ⟨a, b ++ t, by simp⟩

/-- Substring containment survives appending on the left. -/
theorem infix_append_left {w s : Str} (t : Str) (h : w <:+: s) : w <:+: t ++ s := by
  obtain ⟨a, b, rfl⟩ := h
  exact ⟨t ++ a, b, by simp⟩

/-- A substring whose first character fails `p` survives `dropWhile p`. -/
theorem infix_dropWhile_of_head_neg {p : Char → Bool} {w l : Str}
    (hc : ∃ c t, w = c :: t ∧ p c = false) (h : w <:+: l) : w <:+: l.dropWhile p := by
  obtain ⟨c, t, rfl, hpc⟩ := hc
  obtain ⟨a, b, rfl⟩ := h
  induction a with
  | nil =>
    simp only [List.nil_append, List.cons_append]
    rw [dropWhile_cons_neg' p c _ hpc]
    exact ⟨[], b, by simp⟩
  | cons x a' ih =>
    simp only [List.cons_append, List.append_assoc] at ih ⊢
    by_cases hx : p x
    · rw [List.dropWhile_cons_of_pos hx]
      exact ih
    · rw [List.dropWhile_cons_of_neg (by simp [hx])]
      exact ⟨x :: a', b, by simp⟩

/-- A substring with a non-whitespace first character survives `trimLeft`. -/
theorem infix_trimLeft {w s : Str} (hc : ∃ c t, w = c :: t ∧ isWs c = false)
    (h : w <:+: s) : w <:+: trimLeft s :=
  infix_dropWhile_of_head_neg hc h

/-- A substring with a non-whitespace last character survives `trimRight`. -/
theorem infix_trimRight {w s : Str} (hc : ∃ c t, w.reverse = c :: t ∧ isWs c = false)
    (h : w <:+: s) : w <:+: trimRight s := by
  rw [← List.reverse_infix] at h ⊢
  unfold trimRight
  rw [List.reverse_reverse]
  exact infix_dropWhile_of_head_neg hc h

/-- A substring with non-whitespace first and last characters survives `trim`. -/
theorem infix_trim {w s : Str} (hl : ∃ c t, w = c :: t ∧ isWs c = false)
    (hr : ∃ c t, w.reverse = c :: t ∧ isWs c = false)
    (h : w <:+: s) : w <:+: trim s :=
  infix_trimRight hr (infix_trimLeft hl h)

/- ### Normalizer lemmas -/

theorem clampConfidence_clampConfidence (c : JsNum) :
    clampConfidence (clampConfidence c) = clampConfidence c := by
  rcases c with _ | v
  · simp [clampConfidence]
  · simp only [clampConfidence]
    have h1 : (0:ℚ) ≤ max 0 (min 1 v) := le_max_left _ _
    have h2 : max 0 (min 1 v) ≤ 1 := max_le (by norm_num) (min_le_left _ _)
    rw [min_eq_right h2, max_eq_right h1]

/-- Every output of `uniqueStringsAux` is trim-fixed, non-empty, and not in
`seen`. -/
theorem uniqueStringsAux_mem {seen l : List Str} {x : Str}
    (hx : x ∈ uniqueStringsAux seen l) : trim x = x ∧ x ≠ [] ∧ x ∉ seen := by
  induction l generalizing seen with
  | nil => simp [uniqueStringsAux] at hx
  | cons v rest ih =>
    rw [uniqueStringsAux] at hx
    by_cases h : trim v = [] ∨ trim v ∈ seen
    · rw [if_pos h] at hx
      exact ih hx
    · rw [if_neg h] at hx
      push_neg at h
      rcases List.mem_cons.mp hx with rfl | hx'
      · exact ⟨trim_trim v, h.1, h.2⟩
      · obtain ⟨h1, h2, h3⟩ := ih hx'
        refine ⟨h1, h2, fun hmem => h3 ?_⟩
        exact List.mem_cons_of_mem _ hmem

/-- Outputs of `uniqueStringsAux` are pairwise distinct. -/
theorem uniqueStringsAux_pairwise (seen l : List Str) :
    (uniqueStringsAux seen l).Pairwise (· ≠ ·) := by
  induction l generalizing seen with
  | nil => simp [uniqueStringsAux]
  | cons v rest ih =>
    rw [uniqueStringsAux]
    by_cases h : trim v = [] ∨ trim v ∈ seen
    · rw [if_pos h]; exact ih seen
    · rw [if_neg h]
      refine List.pairwise_cons.mpr ⟨fun x hx heq => ?_, ih _⟩
      exact (uniqueStringsAux_mem hx).2.2 (heq ▸ List.mem_cons_self _ _)

/-- `uniqueStringsAux` is the identity on lists of trim-fixed, non-empty,
pairwise-distinct strings disjoint from `seen`. -/
theorem uniqueStringsAux_fixed {seen l : List Str}
    (h1 : ∀ x ∈ l, trim x = x ∧ x ≠ [] ∧ x ∉ seen)
    (h2 : l.Pairwise (· ≠ ·)) : uniqueStringsAux seen l = l := by
  induction l generalizing seen with
  | nil => rfl
  | cons v rest ih =>
    obtain ⟨hv1, hv2, hv3⟩ := h1 v (List.mem_cons_self _ _)
    rw [uniqueStringsAux]
    simp only [hv1]
    rw [if_neg (by push_neg; exact ⟨hv2, hv3⟩)]
    congr 1
    refine ih (fun x hx => ?_) (List.Pairwise.of_cons h2)
    obtain ⟨g1, g2, g3⟩ := h1 x (List.mem_cons_of_mem _ hx)
    refine ⟨g1, g2, fun hmem => ?_⟩
    rcases List.mem_cons.mp hmem with rfl | hmem'
    · exact (List.pairwise_cons.mp h2).1 x hx rfl
    · exact g3 hmem'

theorem uniqueStrings_uniqueStrings (l : List Str) :
    uniqueStrings (uniqueStrings l) = uniqueStrings l := by
  unfold uniqueStrings
  exact uniqueStringsAux_fixed
    (fun x hx => by
      obtain ⟨a, b, _⟩ := uniqueStringsAux_mem hx
      exact ⟨a, b, List.not_mem_nil x⟩)
    (uniqueStringsAux_pairwise [] l)

/-- The normalizer is idempotent (shared helper for several claims). -/
theorem normalize_normalize (x : StructuredAnswerCore) :
    normalizeStructuredAnswer (normalizeStructuredAnswer x) = normalizeStructuredAnswer x := by
  unfold normalizeStructuredAnswer
  simp only [trim_trim, clampConfidence_clampConfidence, uniqueStrings_uniqueStrings]

theorem Anchored.exists_head {w : Str} (h : Anchored w) :
    ∃ c t, w = c :: t ∧ isWs c = false := by
  obtain ⟨h1, -⟩ := h
  cases w with
  | nil => simp [headNonWs] at h1
  | cons c t =>
    refine ⟨c, t, rfl, ?_⟩
    simpa [headNonWs] using h1

theorem Anchored.exists_last {w : Str} (h : Anchored w) :
    ∃ c t, w.reverse = c :: t ∧ isWs c = false := by
  obtain ⟨-, h2⟩ := h
  cases hr : w.reverse with
  | nil => rw [hr] at h2; simp [headNonWs] at h2
  | cons c t =>
    refine ⟨c, t, rfl, ?_⟩
    rw [hr] at h2
    simpa [headNonWs] using h2

theorem Anchored.ne_nil {w : Str} (h : Anchored w) : w ≠ [] := by
  obtain ⟨c, t, rfl, -⟩ := h.exists_head
  simp

theorem anchored_infix_trim {w s : Str} (hw : Anchored w) (h : w <:+: s) :
    w <:+: trim s :=
  infix_trim hw.exists_head hw.exists_last h

theorem anchored_infix_appendNote {w base : Str} (addendum : Str) (hw : Anchored w)
    (h : w <:+: trim base) : w <:+: appendNote base addendum := by
  unfold appendNote
  by_cases h0 : trim base = []
  · rw [h0] at h
    exact absurd (List.infix_nil.mp h) hw.ne_nil
  · rw [if_neg h0]
    by_cases h1 : (trim base).containsB addendum
    · rw [if_pos h1]; exact h
    · rw [if_neg h1]
      exact anchored_infix_trim hw (infix_append_right addendum (infix_append_right (strOf " ") h))

/- ### Field-preservation lemmas for the post-processing steps -/

theorem maybeStrip_true (a : StructuredAnswerCore) : maybeStripEvidence a true = a := by
  simp [maybeStripEvidence]

theorem maybeStrip_evidenceRefs_false (a : StructuredAnswerCore) :
    (maybeStripEvidence a false).evidenceRefs = [] := by
  simp [maybeStripEvidence]

theorem maybeStrip_answerText (a : StructuredAnswerCore) (e : Bool) :
    (maybeStripEvidence a e).answerText = a.answerText := by
  cases e <;> simp [maybeStripEvidence]

theorem maybeStrip_modeUsed (a : StructuredAnswerCore) (e : Bool) :
    (maybeStripEvidence a e).modeUsed = a.modeUsed := by
  cases e <;> simp [maybeStripEvidence]

theorem maybeStrip_queryType (a : StructuredAnswerCore) (e : Bool) :
    (maybeStripEvidence a e).queryType = a.queryType := by
  cases e <;> simp [maybeStripEvidence]

theorem maybeStrip_confidence (a : StructuredAnswerCore) (e : Bool) :
    (maybeStripEvidence a e).confidence = a.confidence := by
  cases e <;> simp [maybeStripEvidence]

theorem maybeStrip_entitiesUsed (a : StructuredAnswerCore) (e : Bool) :
    (maybeStripEvidence a e).entitiesUsed = a.entitiesUsed := by
  cases e <;> simp [maybeStripEvidence]

theorem maybeStrip_eventsUsed (a : StructuredAnswerCore) (e : Bool) :
    (maybeStripEvidence a e).eventsUsed = a.eventsUsed := by
  cases e <;> simp [maybeStripEvidence]

theorem maybeStrip_stateChangesUsed (a : StructuredAnswerCore) (e : Bool) :
    (maybeStripEvidence a e).stateChangesUsed = a.stateChangesUsed := by
  cases e <;> simp [maybeStripEvidence]

theorem maybeStrip_false_notes {a : StructuredAnswerCore}
    (h : ¬ a.reasoningNotes.containsB (strOf "Evidence refs omitted by request")) :
    (maybeStripEvidence a false).reasoningNotes =
      a.reasoningNotes ++ strOf " " ++ strOf "Evidence refs omitted by request." := by
  simp only [maybeStripEvidence, Bool.false_eq_true, if_false, if_neg h]
  simp [strOf]

/- `appendRouteReasoning` changes only the reasoning notes. -/

theorem appendRoute_fields (a : StructuredAnswerCore) (r : Str) :
    (appendRouteReasoning a r).answerText = a.answerText ∧
    (appendRouteReasoning a r).modeUsed = a.modeUsed ∧
    (appendRouteReasoning a r).queryType = a.queryType ∧
    (appendRouteReasoning a r).confidence = a.confidence ∧
    (appendRouteReasoning a r).entitiesUsed = a.entitiesUsed ∧
    (appendRouteReasoning a r).eventsUsed = a.eventsUsed ∧
    (appendRouteReasoning a r).stateChangesUsed = a.stateChangesUsed ∧
    (appendRouteReasoning a r).evidenceRefs = a.evidenceRefs := by
  simp [appendRouteReasoning]

/-- Anchored substrings of trim-fixed notes survive `appendRouteReasoning`. -/
theorem appendRoute_infix_pres {w : Str} {a : StructuredAnswerCore} (r : Str)
    (hw : Anchored w) (h : w <:+: a.reasoningNotes) :
    w <:+: (appendRouteReasoning a r).reasoningNotes := by
  unfold appendRouteReasoning
  by_cases hc : a.reasoningNotes.containsB r
  · simpa [hc] using h
  · simp only [hc, Bool.false_eq_true, if_false]
    exact anchored_infix_trim hw (infix_append_right r (infix_append_right (strOf " ") h))

/- `enforceEvidenceInvariant` changes only the reasoning notes. -/

theorem enforce_fields (a : StructuredAnswerCore) :
    (enforceEvidenceInvariant a).answerText = a.answerText ∧
    (enforceEvidenceInvariant a).modeUsed = a.modeUsed ∧
    (enforceEvidenceInvariant a).queryType = a.queryType ∧
    (enforceEvidenceInvariant a).confidence = a.confidence ∧
    (enforceEvidenceInvariant a).entitiesUsed = a.entitiesUsed ∧
    (enforceEvidenceInvariant a).eventsUsed = a.eventsUsed ∧
    (enforceEvidenceInvariant a).stateChangesUsed = a.stateChangesUsed ∧
    (enforceEvidenceInvariant a).evidenceRefs = a.evidenceRefs := by
  unfold enforceEvidenceInvariant
  split
  · simp
  · split <;> simp

theorem enforce_infix {w : Str} {a : StructuredAnswerCore}
    (h : w <:+: a.reasoningNotes) :
    w <:+: (enforceEvidenceInvariant a).reasoningNotes := by
  unfold enforceEvidenceInvariant
  split
  · exact h
  · split
    · exact h
    · exact infix_append_right _ (infix_append_right _ h)

/-- The output of `enforceEvidenceInvariant` always satisfies the soft
evidence invariant. -/
theorem enforce_establishes (a : StructuredAnswerCore) :
    evidenceInvariantHolds (enforceEvidenceInvariant a) := by
  unfold evidenceInvariantHolds enforceEvidenceInvariant
  split
  · intro _ hrefs
    simp_all
  · split
    · intro hne _
      rcases hne with hne | hne <;> simp_all
    · intro _ _
      exact ⟨a.reasoningNotes ++ strOf " ", [], by simp⟩

/-- When the evidence refs are already empty before enforcement and some
event/state-change ids are cited, the warning is appended. -/
theorem enforce_appends_when_empty {a : StructuredAnswerCore}
    (hrefs : a.evidenceRefs = []) (hne : a.eventsUsed ≠ [] ∨ a.stateChangesUsed ≠ []) :
    evidenceWarning <:+: (enforceEvidenceInvariant a).reasoningNotes := by
  unfold enforceEvidenceInvariant
  rw [if_neg (by simp [hrefs])]
  rw [if_neg (by rcases hne with h | h <;> simp [h])]
  exact ⟨a.reasoningNotes ++ strOf " ", [], by simp⟩

/- ### Synthesis-layer lemmas -/

theorem synth_fields (a : StructuredAnswerCore) (st : LlmSynthesisStatus)
    (gen : GenResult) (label : Option Str) :
    ((maybeSynthesizeStructuredAnswerWithLLM a st gen label).answer).modeUsed = a.modeUsed ∧
    ((maybeSynthesizeStructuredAnswerWithLLM a st gen label).answer).queryType = a.queryType ∧
    ((maybeSynthesizeStructuredAnswerWithLLM a st gen label).answer).confidence =
      clampConfidence a.confidence ∧
    ((maybeSynthesizeStructuredAnswerWithLLM a st gen label).answer).entitiesUsed =
      uniqueStrings a.entitiesUsed ∧
    ((maybeSynthesizeStructuredAnswerWithLLM a st gen label).answer).eventsUsed =
      uniqueStrings a.eventsUsed ∧
    ((maybeSynthesizeStructuredAnswerWithLLM a st gen label).answer).stateChangesUsed =
      uniqueStrings a.stateChangesUsed ∧
    ((maybeSynthesizeStructuredAnswerWithLLM a st gen label).answer).evidenceRefs =
      uniqueStrings a.evidenceRefs := by
  cases gen <;>
    simp only [maybeSynthesizeStructuredAnswerWithLLM, normalizeStructuredAnswer] <;>
    split_ifs <;> simp

/-- Anchored substrings of the reasoning notes survive the synthesis layer
(on every path). -/
theorem synth_infix {w : Str} {a : StructuredAnswerCore} (st : LlmSynthesisStatus)
    (gen : GenResult) (label : Option Str) (hw : Anchored w)
    (h : w <:+: a.reasoningNotes) :
    w <:+: ((maybeSynthesizeStructuredAnswerWithLLM a st gen label).answer).reasoningNotes := by
  have hn2 : w <:+: Str.trim a.reasoningNotes := anchored_infix_trim hw h
  have hn3 : w <:+: Str.trim (Str.trim a.reasoningNotes) := by
    rw [trim_trim]; exact hn2
  cases gen <;>
    (simp only [maybeSynthesizeStructuredAnswerWithLLM, normalizeStructuredAnswer]
     split_ifs <;>
       first
         | exact hn2
         | exact anchored_infix_appendNote _ hw hn3)

/- ### Builders factor through `maybeStripEvidence` -/

theorem buildKgAnswer_inc (kg : KgArtifacts) (q : Str) (qt : QueryType) (rr : Str)
    (ents : List DetectedEntityMention) (inc : Bool) :
    buildKgAnswer kg ⟨q, qt, rr, ents, inc⟩ =
      maybeStripEvidence (buildKgAnswer kg ⟨q, qt, rr, ents, true⟩) inc := by
  cases inc
  · simp only [buildKgAnswer]
    repeat' split
    all_goals rw [maybeStrip_true]
  · rw [maybeStrip_true]

theorem summarizeStateChanges_inc (q : Str) (qt : QueryType) (rr : Str)
    (ents : List DetectedEntityMention) (inc : Bool) (rows : StateChangesResult) :
    summarizeStateChangesAnswer ⟨q, qt, rr, ents, inc⟩ rows =
      maybeStripEvidence (summarizeStateChangesAnswer ⟨q, qt, rr, ents, true⟩ rows) inc := by
  cases inc
  · simp only [summarizeStateChangesAnswer, contextEntityIds]
    repeat' split
    all_goals rw [maybeStrip_true]
  · rw [maybeStrip_true]

theorem summarizeTimelineLike_inc (q : Str) (qt qt' : QueryType) (rr : Str)
    (ents : List DetectedEntityMention) (inc : Bool) (traceRows : TraceEventsResult)
    (timeline : TimelineResult) :
    summarizeTimelineLikeAnswer ⟨q, qt, rr, ents, inc⟩ qt' traceRows timeline =
      maybeStripEvidence
        (summarizeTimelineLikeAnswer ⟨q, qt, rr, ents, true⟩ qt' traceRows timeline) inc := by
  cases inc
  · simp only [summarizeTimelineLikeAnswer, contextEntityIds]
    repeat' split
    all_goals rw [maybeStrip_true]
  · rw [maybeStrip_true]

theorem buildTraceAnswer_inc (store : NtgStore) (q : Str) (qt : QueryType) (rr : Str)
    (ents : List DetectedEntityMention) (inc : Bool) :
    buildTraceAnswer store ⟨q, qt, rr, ents, inc⟩ =
      maybeStripEvidence (buildTraceAnswer store ⟨q, qt, rr, ents, true⟩) inc := by
  cases inc
  · simp only [buildTraceAnswer, pairFromContext, contextEntityIds]
    repeat' split
    all_goals
      first
        | exact summarizeStateChanges_inc q qt rr _ false _
        | exact summarizeTimelineLike_inc q qt _ rr _ false _ _
        | rw [maybeStrip_true]
  · rw [maybeStrip_true]

theorem buildBaselineRagLikeAnswer_inc (artifacts : NtgArtifacts) (q : Str)
    (qt : QueryType) (rr : Str) (ents : List DetectedEntityMention) (inc : Bool) :
    buildBaselineRagLikeAnswer artifacts ⟨q, qt, rr, ents, inc⟩ =
      maybeStripEvidence (buildBaselineRagLikeAnswer artifacts ⟨q, qt, rr, ents, true⟩) inc := by
  cases inc
  · simp only [buildBaselineRagLikeAnswer]
    split <;> rw [maybeStrip_true]
  · rw [maybeStrip_true]

/-- The hybrid builder is `maybeStripEvidence` of a merged answer whose
reasoning notes are the fixed hybrid override. -/
theorem buildHybridAnswer_shape (kg : KgArtifacts) (store : NtgStore)
    (context : AnswerBuilderContext) :
    ∃ x, buildHybridAnswer kg store context = maybeStripEvidence x context.includeEvidence ∧
      x.reasoningNotes = hybridNotes := by
  refine ⟨_, rfl, ?_⟩
  simp [mergeAnswerCores, noOverrides, hybridNotes]

/- Evidence refs are stripped by every builder when the request opts out. -/

theorem buildKgAnswer_strip (kg : KgArtifacts) {context : AnswerBuilderContext}
    (h : context.includeEvidence = false) :
    (buildKgAnswer kg context).evidenceRefs = [] := by
  obtain ⟨q, qt, rr, ents, inc⟩ := context
  rw [buildKgAnswer_inc, show inc = false from h]
  exact maybeStrip_evidenceRefs_false _

theorem buildTraceAnswer_strip (store : NtgStore) {context : AnswerBuilderContext}
    (h : context.includeEvidence = false) :
    (buildTraceAnswer store context).evidenceRefs = [] := by
  obtain ⟨q, qt, rr, ents, inc⟩ := context
  rw [buildTraceAnswer_inc, show inc = false from h]
  exact maybeStrip_evidenceRefs_false _

theorem buildBaselineRagLikeAnswer_strip (artifacts : NtgArtifacts)
    {context : AnswerBuilderContext} (h : context.includeEvidence = false) :
    (buildBaselineRagLikeAnswer artifacts context).evidenceRefs = [] := by
  obtain ⟨q, qt, rr, ents, inc⟩ := context
  rw [buildBaselineRagLikeAnswer_inc, show inc = false from h]
  exact maybeStrip_evidenceRefs_false _

theorem buildHybridAnswer_strip (kg : KgArtifacts) (store : NtgStore)
    {context : AnswerBuilderContext} (h : context.includeEvidence = false) :
    (buildHybridAnswer kg store context).evidenceRefs = [] := by
  obtain ⟨x, hx, -⟩ := buildHybridAnswer_shape kg store context
  rw [hx, h]
  exact maybeStrip_evidenceRefs_false _

/-- Whatever the routed mode, the builder output has no evidence refs when
the request opted out. -/
theorem buildMainAnswer_strip (kg : KgArtifacts) (store : NtgStore)
    {context : AnswerBuilderContext} (mode : AnswerMode)
    (h : context.includeEvidence = false) :
    (buildMainAnswer kg store context mode).evidenceRefs = [] := by
  cases mode
  · exact buildKgAnswer_strip kg h
  · exact buildTraceAnswer_strip store h
  · exact buildHybridAnswer_strip kg store h
  · exact buildBaselineRagLikeAnswer_strip store.artifacts h

/- ### The main-answer post-processing chain keeps the soft invariant -/

theorem chain_inv (b : StructuredAnswerCore) (r : Str) (st : LlmSynthesisStatus)
    (gen : GenResult) (lbl : Option Str) :
    evidenceInvariantHolds
      ((maybeSynthesizeStructuredAnswerWithLLM
        (enforceEvidenceInvariant (appendRouteReasoning (normalizeStructuredAnswer b) r))
        st gen lbl).answer) := by
  intro hne hrefs
  set a2 := appendRouteReasoning (normalizeStructuredAnswer b) r with ha2
  set a3 := enforceEvidenceInvariant a2 with ha3
  obtain ⟨-, -, -, -, hsev, hssc, hsref⟩ := synth_fields a3 st gen lbl
  obtain ⟨-, -, -, -, -, heev, hesc, heref⟩ := enforce_fields a2
  obtain ⟨-, -, -, -, -, haev, hasc, haref⟩ := appendRoute_fields (normalizeStructuredAnswer b) r
  have hev3 : a3.eventsUsed = uniqueStrings b.eventsUsed := by
    rw [ha3, heev, haev]; rfl
  have hsc3 : a3.stateChangesUsed = uniqueStrings b.stateChangesUsed := by
    rw [ha3, hesc, hasc]; rfl
  have href3 : a3.evidenceRefs = uniqueStrings b.evidenceRefs := by
    rw [ha3, heref, haref]; rfl
  have huev : uniqueStrings a3.eventsUsed = a3.eventsUsed := by
    rw [hev3, uniqueStrings_uniqueStrings]
  have husc : uniqueStrings a3.stateChangesUsed = a3.stateChangesUsed := by
    rw [hsc3, uniqueStrings_uniqueStrings]
  have huref : uniqueStrings a3.evidenceRefs = a3.evidenceRefs := by
    rw [href3, uniqueStrings_uniqueStrings]
  have hw : evidenceWarning <:+: a3.reasoningNotes := by
    refine enforce_establishes a2 ?_ ?_
    · rcases hne with h | h
      · exact Or.inl (by rw [← huev, ← hsev]; exact h)
      · exact Or.inr (by rw [← husc, ← hssc]; exact h)
    · rw [← huref, ← hsref]; exact hrefs
  exact synth_infix st gen lbl (by decide) hw

theorem chain_inv_stripped (b : StructuredAnswerCore) (r : Str) (st : LlmSynthesisStatus)
    (gen : GenResult) (lbl : Option Str) (hb : b.evidenceRefs = []) :
    evidenceInvariantHolds
      { (maybeSynthesizeStructuredAnswerWithLLM
          (enforceEvidenceInvariant (appendRouteReasoning (normalizeStructuredAnswer b) r))
          st gen lbl).answer with evidenceRefs := [] } := by
  intro hne _
  set a2 := appendRouteReasoning (normalizeStructuredAnswer b) r with ha2
  set a3 := enforceEvidenceInvariant a2 with ha3
  have hne' : ((maybeSynthesizeStructuredAnswerWithLLM a3 st gen lbl).answer).eventsUsed ≠ [] ∨
      ((maybeSynthesizeStructuredAnswerWithLLM a3 st gen lbl).answer).stateChangesUsed ≠ [] := hne
  show evidenceWarning <:+:
    ((maybeSynthesizeStructuredAnswerWithLLM a3 st gen lbl).answer).reasoningNotes
  obtain ⟨-, -, -, -, hsev, hssc, -⟩ := synth_fields a3 st gen lbl
  obtain ⟨-, -, -, -, -, heev, hesc, -⟩ := enforce_fields a2
  obtain ⟨-, -, -, -, -, haev, hasc, haref⟩ := appendRoute_fields (normalizeStructuredAnswer b) r
  have ha2ref : a2.evidenceRefs = [] := by
    rw [ha2, haref]
    show uniqueStrings b.evidenceRefs = []
    rw [hb]; rfl
  have hne2 : a2.eventsUsed ≠ [] ∨ a2.stateChangesUsed ≠ [] := by
    rcases hne' with h | h
    · refine Or.inl fun hnil => h ?_
      rw [hsev, ha3, heev, hnil]
      rfl
    · refine Or.inr fun hnil => h ?_
      rw [hssc, ha3, hesc, hnil]
      rfl
  have hw : evidenceWarning <:+: a3.reasoningNotes :=
    enforce_appends_when_empty ha2ref hne2
  exact synth_infix st gen lbl (by decide) hw

theorem baseline_chain_inv_stripped (b : StructuredAnswerCore) (r : Str)
    (hb : b.evidenceRefs = []) :
    evidenceInvariantHolds
      { enforceEvidenceInvariant (appendRouteReasoning (normalizeStructuredAnswer b) r) with
          evidenceRefs := [] } := by
  intro hne _
  set a2 := appendRouteReasoning (normalizeStructuredAnswer b) r with ha2
  have hne' : (enforceEvidenceInvariant a2).eventsUsed ≠ [] ∨
      (enforceEvidenceInvariant a2).stateChangesUsed ≠ [] := hne
  show evidenceWarning <:+: (enforceEvidenceInvariant a2).reasoningNotes
  obtain ⟨-, -, -, -, -, heev, hesc, -⟩ := enforce_fields a2
  obtain ⟨-, -, -, -, -, haev, hasc, haref⟩ := appendRoute_fields (normalizeStructuredAnswer b) r
  have ha2ref : a2.evidenceRefs = [] := by
    rw [ha2, haref]
    show uniqueStrings b.evidenceRefs = []
    rw [hb]; rfl
  have hne2 : a2.eventsUsed ≠ [] ∨ a2.stateChangesUsed ≠ [] := by
    rcases hne' with h | h
    · refine Or.inl fun hnil => h ?_
      rw [heev, hnil]
    · refine Or.inr fun hnil => h ?_
      rw [hesc, hnil]
  exact enforce_appends_when_empty ha2ref hne2

/-- Membership in a conditional `some`. -/
theorem mem_ite_some {α : Type} {c : Prop} [Decidable c] {x b : α}
    (hb : b ∈ (if c then some x else none)) : b = x := by
  split at hb
  · rw [Option.mem_def, Option.some.injEq] at hb
    exact hb.symm
  · exact absurd hb (Option.not_mem_none b)

/-- `Option.map` over a conditional `some`. -/
theorem map_ite_some {α β : Type} (f : α → β) {c : Prop} [Decidable c] (x : α) :
    Option.map f (if c then some x else none) = if c then some (f x) else none := by
  split <;> simp

/-- **C1.** For every answer produced by the query pipeline (main answer and
baseline comparison), if `eventsUsed` or `stateChangesUsed` is non-empty and
`evidenceRefs` is empty, then `reasoningNotes` contains the evidence warning
string; the pipeline always returns an answer (it is a total function), so
violating answers are annotated, never rejected. -/
theorem C1_pipeline_evidence_invariant (kg : KgArtifacts) (store : NtgStore)
    (llmStatus : LlmSynthesisStatus) (gen : GenResult) (request : QueryRequest) :
    evidenceInvariantHolds (answerQueryRequest kg store llmStatus gen request).main ∧
    ∀ b ∈ (answerQueryRequest kg store llmStatus gen request).baselineComparison,
      evidenceInvariantHolds b := by
  simp only [answerQueryRequest]
  cases hinc : request.includeEvidence
  · simp only [hinc, Bool.not_false, if_true]
    constructor
    · exact chain_inv_stripped _ _ _ _ _ (buildMainAnswer_strip kg store _ rfl)
    · intro b hb
      rw [map_ite_some] at hb
      rw [mem_ite_some hb]
      exact baseline_chain_inv_stripped _ _ (buildBaselineRagLikeAnswer_strip _ rfl)
  · simp only [hinc, Bool.not_true, if_false]
    constructor
    · exact chain_inv _ _ _ _ _
    · intro b hb
      rw [mem_ite_some hb]
      exact enforce_establishes _

/-- **C7.** `normalizeStructuredAnswer` is idempotent: for every
`StructuredAnswerCore` `x`, `normalize (normalize x) = normalize x`. -/
theorem C7_normalize_idempotent (x : StructuredAnswerCore) :
    normalizeStructuredAnswer (normalizeStructuredAnswer x) = normalizeStructuredAnswer x :=
  normalize_normalize x

/-- **C3.** For every question and preferred mode: a non-`auto` preferred
mode is honored verbatim (`baseline` aliased to `baseline_rag`) with a
reasoning string stating the manual override; otherwise `modeUsed` is the
fixed default of the classified query type (`fact`→kg, `timeline`/
`state_change`→ntg, `causal_chain`/`evidence`/`comparison`→hybrid). -/
theorem C3_mode_selection (question : Str) (pm : PreferredMode) (entityCount : Nat) :
    (pm ≠ .auto →
      (routeQuery question (some pm.toStr) entityCount).modeUsed = forcedMode pm ∧
      (strOf "override") <:+: (routeQuery question (some pm.toStr) entityCount).reasoning) ∧
    (pm = .auto →
      (routeQuery question (some pm.toStr) entityCount).modeUsed =
        claimDefaultMode (routeQuery question (some pm.toStr) entityCount).queryType) := by
  have hq : (routeQuery question (some pm.toStr) entityCount).queryType =
      classifyQueryType question := rfl
  constructor
  · intro hpm
    cases pm
    · exact absurd rfl hpm
    · exact ⟨rfl, show (strOf "override") <:+: strOf "User preferred kg mode override." from by decide⟩
    · exact ⟨rfl, show (strOf "override") <:+: strOf "User preferred ntg mode override." from by decide⟩
    · exact ⟨rfl, show (strOf "override") <:+: strOf "User preferred hybrid mode override." from by decide⟩
    · exact ⟨rfl, show (strOf "override") <:+: strOf "User preferred baseline_rag mode override." from by decide⟩
    · exact ⟨rfl, show (strOf "override") <:+: strOf "User preferred baseline mode override." from by decide⟩
  · intro hpm
    subst hpm
    rw [hq]
    show (selectModeForQueryType (classifyQueryType question) (some PreferredMode.auto.toStr)
      entityCount).1 = claimDefaultMode (classifyQueryType question)
    cases classifyQueryType question <;>
      simp [selectModeForQueryType, claimDefaultMode, show
        normalizePreferredMode (some PreferredMode.auto.toStr) = .auto from by decide]

/-- Witness for C3 at a concrete input: forcing `kg` on a timeline-shaped
question yields `modeUsed = kg` with an "override" rationale. -/
theorem C3_mode_selection_witness :
    (routeQuery (strOf "When does Frank meet Russell?") (some PreferredMode.kg.toStr) 0).modeUsed =
        forcedMode .kg ∧
      (strOf "override") <:+:
        (routeQuery (strOf "When does Frank meet Russell?") (some PreferredMode.kg.toStr) 0).reasoning :=
  (C3_mode_selection (strOf "When does Frank meet Russell?") .kg 0).1 (by decide)

/-- Every member of a joined list is a substring of the join. -/
theorem joinSep_infix_of_mem (sep : Str) (xs : List Str) (x : Str) (hx : x ∈ xs) :
    x <:+: joinSep sep xs := by
  induction xs with
  | nil => cases hx
  | cons y rest ih =>
    cases rest with
    | nil =>
      rcases List.mem_cons.mp hx with rfl | h
      · exact List.infix_refl x
      · cases h
    | cons z t =>
      have hj : sep.joinSep (y :: z :: t) = y ++ (sep ++ sep.joinSep (z :: t)) := by
        simp [joinSep]
      rw [hj]
      rcases List.mem_cons.mp hx with rfl | h
      · exact ⟨[], sep ++ sep.joinSep (z :: t), by simp⟩
      · exact infix_append_left y (infix_append_left sep (ih h))

/-- **C5.** When a graph store's backing artifacts are missing, each of the
four answer builders returns a structurally valid low-confidence answer
whose text states which artifacts are missing (for the hybrid builder, the
text embeds both sub-builders' unavailability messages), and — being a
total function — never raises an exception. -/
theorem C5_store_unavailable (context : AnswerBuilderContext) (kg : KgArtifacts)
    (store : NtgStore) (hkg : kg.available = false)
    (hntg : store.artifacts.available = false) :
    ((buildKgAnswer kg context).answerText =
        strOf "KG artifacts are unavailable. Run the Phase 2 entity/KG builders and retry." ∧
      (buildKgAnswer kg context).confidence = some (1/10) ∧
      structurallyValid (buildKgAnswer kg context)) ∧
    ((buildTraceAnswer store context).answerText =
        (if context.queryType = .state_change then
          strOf "NTG state-change artifacts are unavailable. Run Phase 4 generation and retry."
         else strOf "NTG artifacts are unavailable. Run Phase 3/4 generation and retry.") ∧
      (buildTraceAnswer store context).confidence = some (12/100) ∧
      structurallyValid (buildTraceAnswer store context)) ∧
    ((buildBaselineRagLikeAnswer store.artifacts context).answerText =
        strOf "Baseline retrieval is unavailable because narrative trace artifacts are missing. Generate Phase 3/4 artifacts and retry." ∧
      (buildBaselineRagLikeAnswer store.artifacts context).confidence = some (1/10) ∧
      structurallyValid (buildBaselineRagLikeAnswer store.artifacts context)) ∧
    (((buildHybridAnswer kg store context).answerText).containsStr
        (strOf "KG artifacts are unavailable. Run the Phase 2 entity/KG builders and retry.") ∧
      ((buildHybridAnswer kg store context).answerText).containsStr
        (strOf "artifacts are unavailable") ∧
      (buildHybridAnswer kg store context).confidence = some (183/1250) ∧
      structurallyValid (buildHybridAnswer kg store context)) := by
  obtain ⟨q, qt, rr, ents, inc⟩ := context
  have hsc : ∀ o, listStateChanges store o = { available := false, items := [], filtered := 0 } := by
    intro o; simp [listStateChanges, hntg]
  have htr : ∀ o, listTraceExplorerEvents store o = { available := false, items := [], filtered := 0 } := by
    intro o; simp [listTraceExplorerEvents, hntg]
  have htl : ∀ o, getTimelineSlice store o = { available := false, scenes := [] } := by
    intro o; simp [getTimelineSlice, hntg]
  refine ⟨⟨?_, ?_, ?_⟩, ⟨?_, ?_, ?_⟩, ⟨?_, ?_, ?_⟩, ?_⟩
  · simp [buildKgAnswer, hkg, maybeStrip_answerText]
  · simp [buildKgAnswer, hkg, maybeStrip_confidence]
  · refine ⟨1/10, ?_, by norm_num, by norm_num⟩
    simp [buildKgAnswer, hkg, maybeStrip_confidence]
  · cases qt <;>
      simp [buildTraceAnswer, hsc, htr, htl, summarizeStateChangesAnswer,
        summarizeTimelineLikeAnswer, maybeStrip_answerText]
  · cases qt <;>
      simp [buildTraceAnswer, hsc, htr, htl, summarizeStateChangesAnswer,
        summarizeTimelineLikeAnswer, maybeStrip_confidence]
  · refine ⟨12/100, ?_, by norm_num, by norm_num⟩
    cases qt <;>
      simp [buildTraceAnswer, hsc, htr, htl, summarizeStateChangesAnswer,
        summarizeTimelineLikeAnswer, maybeStrip_confidence]
  · simp [buildBaselineRagLikeAnswer, hntg, maybeStrip_answerText]
  · simp [buildBaselineRagLikeAnswer, hntg, maybeStrip_confidence]
  · refine ⟨1/10, ?_, by norm_num, by norm_num⟩
    simp [buildBaselineRagLikeAnswer, hntg, maybeStrip_confidence]
  · have hkgA : (buildKgAnswer kg ⟨q, qt, rr, ents, inc⟩).answerText =
        strOf "KG artifacts are unavailable. Run the Phase 2 entity/KG builders and retry." := by
      simp [buildKgAnswer, hkg, maybeStrip_answerText]
    have hkgC : (buildKgAnswer kg ⟨q, qt, rr, ents, inc⟩).confidence = some (1/10) := by
      simp [buildKgAnswer, hkg, maybeStrip_confidence]
    have htrA : (buildTraceAnswer store ⟨q, qt, rr, ents, inc⟩).answerText =
        (if qt = .state_change then
          strOf "NTG state-change artifacts are unavailable. Run Phase 4 generation and retry."
         else strOf "NTG artifacts are unavailable. Run Phase 3/4 generation and retry.") := by
      cases qt <;>
        simp [buildTraceAnswer, hsc, htr, htl, summarizeStateChangesAnswer,
          summarizeTimelineLikeAnswer, maybeStrip_answerText]
    have htrC : (buildTraceAnswer store ⟨q, qt, rr, ents, inc⟩).confidence = some (12/100) := by
      cases qt <;>
        simp [buildTraceAnswer, hsc, htr, htl, summarizeStateChangesAnswer,
          summarizeTimelineLikeAnswer, maybeStrip_confidence]
    have hAT : ∀ w : Str,
        w <:+: (buildKgAnswer kg ⟨q, qt, rr, ents, inc⟩).answerText ∨
        w <:+: (buildTraceAnswer store ⟨q, qt, rr, ents, inc⟩).answerText →
        w <:+: (buildHybridAnswer kg store ⟨q, qt, rr, ents, inc⟩).answerText := by
      intro w hw
      have hmerge : (buildHybridAnswer kg store ⟨q, qt, rr, ents, inc⟩).answerText =
          (if qt = QueryType.comparison then
            joinSep (strOf "\n")
              [strOf "Hybrid comparison answer:",
               strOf "KG view (entity/relationship structure):",
               (buildKgAnswer kg ⟨q, qt, rr, ents, inc⟩).answerText,
               [],
               strOf "NTG view (timeline/state-change structure):",
               (buildTraceAnswer store ⟨q, qt, rr, ents, inc⟩).answerText,
               [],
               strOf "Use the baseline comparator for a lexical-only contrast if requested."]
           else
            joinSep (strOf "\n")
              [strOf "Hybrid answer (KG + NTG):",
               strOf "- KG contribution: " ++ (buildKgAnswer kg ⟨q, qt, rr, ents, inc⟩).reasoningNotes,
               strOf "- NTG contribution: " ++ (buildTraceAnswer store ⟨q, qt, rr, ents, inc⟩).reasoningNotes,
               [],
               strOf "KG summary:",
               (buildKgAnswer kg ⟨q, qt, rr, ents, inc⟩).answerText,
               [],
               strOf "NTG summary:",
               (buildTraceAnswer store ⟨q, qt, rr, ents, inc⟩).answerText]) := by
        simp only [buildHybridAnswer]
        rw [maybeStrip_answerText]
        simp [mergeAnswerCores, noOverrides]
      rw [hmerge]
      split <;>
        rcases hw with hw | hw <;>
        exact hw.trans (joinSep_infix_of_mem _ _ _ (by simp))
    have hC : (buildHybridAnswer kg store ⟨q, qt, rr, ents, inc⟩).confidence =
        some (183/1250) := by
      have h1 : max (1/10 : ℚ) (12/100) = 12/100 := by
        rw [max_eq_right]; norm_num
      have h2 : min (93/100 : ℚ) (12/100 * (97/100) + 3/100) = 183/1250 := by
        rw [min_eq_right (by norm_num : (12/100 * (97/100) + 3/100 : ℚ) ≤ 93/100)]
        norm_num
      simp only [buildHybridAnswer]
      rw [maybeStrip_confidence]
      simp only [mergeAnswerCores, noOverrides, hkgC, htrC, jsMax, jsMin, jsMul, jsAdd, h1, h2]
    refine ⟨?_, ?_, hC, ⟨183/1250, hC, by norm_num, by norm_num⟩⟩
    · exact hAT _ (Or.inl (by rw [hkgA]))
    · refine hAT _ (Or.inr ?_)
      rw [htrA]
      split <;> decide

/-- Witness for C5 at missing stores. -/
theorem C5_store_unavailable_witness :
    kgMissing.available = false ∧ ntgStoreMissing.artifacts.available = false ∧
    (buildKgAnswer kgMissing ctxFact).answerText =
      strOf "KG artifacts are unavailable. Run the Phase 2 entity/KG builders and retry." ∧
    (buildTraceAnswer ntgStoreMissing ctxFact).confidence = some (12/100) ∧
    structurallyValid (buildBaselineRagLikeAnswer ntgStoreMissing.artifacts ctxFact) := by
  have h := C5_store_unavailable ctxFact kgMissing ntgStoreMissing rfl rfl
  exact ⟨rfl, rfl, h.1.1, h.2.1.2.1, h.2.2.1.2.2⟩

/-- **C2 counterexample.** A request with a non-empty question that asks for
the baseline comparison (`includeBaselineComparison = true`) but forces
baseline mode receives a `null` `baselineComparison`, contradicting the
claim as stated. -/
theorem C2_counterexample :
    reqBaselineForced.question ≠ [] ∧
    reqBaselineForced.includeBaselineComparison = true ∧
    (answerQueryRequest kgMissing ntgStoreMissing llmDisabled genUnused
      reqBaselineForced).baselineComparison = none := by
  refine ⟨by decide, rfl, ?_⟩
  rfl

/-- **C2 (amended).** For every query request with a non-empty question, the
response's `baselineComparison` field is non-null whenever the request asks
for the baseline comparison or the routed query type is `comparison`, *and*
the routed mode is not `baseline_rag` (the pipeline skips the comparison
when the main answer is already the baseline). -/
theorem C2_baseline_comparison_present (kg : KgArtifacts) (store : NtgStore)
    (llmStatus : LlmSynthesisStatus) (gen : GenResult) (request : QueryRequest)
    (hq : request.question ≠ [])
    (h1 : request.includeBaselineComparison = true ∨
      (routeQuery request.question (some request.preferredMode.toStr)
        (detectEntitiesInQuestion kg request.question).length).queryType = .comparison)
    (h2 : (routeQuery request.question (some request.preferredMode.toStr)
        (detectEntitiesInQuestion kg request.question).length).modeUsed ≠ .baseline_rag) :
    (answerQueryRequest kg store llmStatus gen request).baselineComparison ≠ none := by
  simp only [answerQueryRequest]
  have hcond : ((request.includeBaselineComparison ||
      (routeQuery request.question (some request.preferredMode.toStr)
        (detectEntitiesInQuestion kg request.question).length).queryType = .comparison) = true) ∧
      (routeQuery request.question (some request.preferredMode.toStr)
        (detectEntitiesInQuestion kg request.question).length).modeUsed ≠ .baseline_rag := by
    refine ⟨?_, h2⟩
    rcases h1 with h | h
    · simp [h]
    · simp [h]
  cases hinc : request.includeEvidence <;> simp [hinc, if_pos hcond] <;> exact ⟨h1, h2⟩

/-- Witness for the amended C2 at a concrete input. -/
theorem C2_baseline_comparison_present_witness :
    (answerQueryRequest kgMissing ntgStoreMissing llmDisabled genUnused
      reqAutoComp).baselineComparison ≠ none :=
  C2_baseline_comparison_present kgMissing ntgStoreMissing llmDisabled genUnused reqAutoComp
    (by decide) (Or.inl rfl) (by decide)

/-- **C8 counterexample.** An evidence query against available artifacts
that matches zero rows gets confidence 0.2, not
`min(0.86, 0.45 + 0*0.04) = 0.45` as the claim's formula requires. -/
theorem C8_counterexample :
    ntgStoreNoRows.artifacts.available = true ∧
    ctxEvidence.queryType = .evidence ∧
    (buildTraceAnswer ntgStoreNoRows ctxEvidence).confidence = some (2/10) ∧
    (2/10 : ℚ) ≠ min (86/100) (45/100 + 0 * (4/100)) := by
  refine ⟨rfl, rfl, rfl, by norm_num⟩

/-- **C8 (amended).** For every evidence-type query answered by the
narrative-trace builder with available artifacts, the returned confidence is
`min(0.86, 0.45 + shown*0.04)` when `shown > 0` rows are rendered (at most
8), and `0.2` when zero rows match. -/
theorem C8_evidence_confidence (store : NtgStore) (context : AnswerBuilderContext)
    (hqt : context.queryType = .evidence) (hav : store.artifacts.available = true) :
    (buildTraceAnswer store context).confidence =
      (if ((listTraceExplorerEvents store (evidenceQueryOptions context)).items.take 8).length ≠ 0
       then some (min ((86:ℚ)/100) ((45:ℚ)/100 +
         (((listTraceExplorerEvents store (evidenceQueryOptions context)).items.take 8).length : ℚ) * ((4:ℚ)/100)))
       else some ((2:ℚ)/10)) := by
  obtain ⟨q, qt, rr, ents, inc⟩ := context
  simp only [AnswerBuilderContext.queryType] at hqt
  subst hqt
  simp only [buildTraceAnswer, evidenceQueryOptions, listTraceExplorerEvents, hav,
    Bool.not_true, Bool.false_eq_true, if_false, reduceCtorEq, ite_false, ite_true]
  rw [maybeStrip_confidence]

/-- Witness for the amended C8: one matching row gives confidence
`min(0.86, 0.49) = 0.49`. -/
theorem C8_evidence_confidence_witness :
    ctxEvidence.queryType = .evidence ∧ ntgStoreOneRow.artifacts.available = true ∧
    (buildTraceAnswer ntgStoreOneRow ctxEvidence).confidence = some ((49:ℚ)/100) := by
  refine ⟨rfl, rfl, ?_⟩
  rw [C8_evidence_confidence ntgStoreOneRow ctxEvidence rfl rfl]
  norm_num [listTraceExplorerEvents, ntgStoreOneRow, ntgAvailEmpty]

/- ### C6: the synthesis layer's frame and effect -/

/-- Every output of `ensureAssistedLabel` starts with an `LLM-assisted` label
(case-insensitively). -/
theorem ensureAssistedLabel_labeled (t : Str) :
    lower ((ensureAssistedLabel t).take 12) = strOf "llm-assisted" := by
  simp only [ensureAssistedLabel]
  split_ifs with h1 h2
  · rfl
  · exact h2
  · rw [List.take_append_of_le_length (by decide)]
    rfl

/-- C6, counterexample: with the synthesis flag disabled, the deterministic
answer is returned exactly unchanged — no fallback note is appended to the
reasoning notes, contradicting the claim that every failure path appends a
note. -/
theorem C6_counterexample :
    (maybeSynthesizeStructuredAnswerWithLLM c6Answer llmDisabled genUnused none).answer
        = c6Answer ∧
    ¬ (strOf "LLM" <:+:
        (maybeSynthesizeStructuredAnswerWithLLM c6Answer llmDisabled genUnused
          none).answer.reasoningNotes) := by
  have h2 : normalizeStructuredAnswer c6Answer = c6Answer := by
    unfold normalizeStructuredAnswer c6Answer
    congr 1 <;> first
      | rfl
      | decide
      | (simp only [clampConfidence]; norm_num)
  constructor
  · rw [show (maybeSynthesizeStructuredAnswerWithLLM c6Answer llmDisabled genUnused none).answer
        = normalizeStructuredAnswer c6Answer from by
      simp only [maybeSynthesizeStructuredAnswerWithLLM, llmDisabled, Bool.not_false, if_true]
      split_ifs <;> rfl]
    exact h2
  · decide

/-- C6 (amended): the synthesis layer never changes the structured fields
(mode, query type, confidence, entity/event/state-change IDs, evidence refs)
of the normalized answer; when the gate is disabled (flag off or credential
missing) the normalized answer is returned exactly unchanged, with no note;
when the external call fails (timeout, malformed response, provider error)
only the reasoning notes change, by appending the fallback note; on success
only the answer text (replaced by a labeled `LLM-assisted` text) and the
reasoning notes (success note appended) change. The layer is a total
function, so it never fails the request. -/
theorem C6_synthesis_effect (a : StructuredAnswerCore) (st : LlmSynthesisStatus)
    (gen : GenResult) (label : Option Str) :
    (((maybeSynthesizeStructuredAnswerWithLLM a st gen label).answer).modeUsed =
        (normalizeStructuredAnswer a).modeUsed ∧
      ((maybeSynthesizeStructuredAnswerWithLLM a st gen label).answer).queryType =
        (normalizeStructuredAnswer a).queryType ∧
      ((maybeSynthesizeStructuredAnswerWithLLM a st gen label).answer).confidence =
        (normalizeStructuredAnswer a).confidence ∧
      ((maybeSynthesizeStructuredAnswerWithLLM a st gen label).answer).entitiesUsed =
        (normalizeStructuredAnswer a).entitiesUsed ∧
      ((maybeSynthesizeStructuredAnswerWithLLM a st gen label).answer).eventsUsed =
        (normalizeStructuredAnswer a).eventsUsed ∧
      ((maybeSynthesizeStructuredAnswerWithLLM a st gen label).answer).stateChangesUsed =
        (normalizeStructuredAnswer a).stateChangesUsed ∧
      ((maybeSynthesizeStructuredAnswerWithLLM a st gen label).answer).evidenceRefs =
        (normalizeStructuredAnswer a).evidenceRefs) ∧
    (st.enabled = false →
      (maybeSynthesizeStructuredAnswerWithLLM a st gen label).answer =
        normalizeStructuredAnswer a) ∧
    (∀ e model, gen = .err e model → st.enabled = true →
      trim (normalizeStructuredAnswer a).answerText ≠ [] →
      (maybeSynthesizeStructuredAnswerWithLLM a st gen label).answer =
        { normalizeStructuredAnswer a with
          reasoningNotes :=
            appendNote (normalizeStructuredAnswer a).reasoningNotes
              (synthFallbackNote e model) }) ∧
    (∀ text model rid, gen = .ok text model rid → st.enabled = true →
      trim (normalizeStructuredAnswer a).answerText ≠ [] →
      ((maybeSynthesizeStructuredAnswerWithLLM a st gen label).answer).answerText =
          ensureAssistedLabel (truncate text 8000) ∧
        lower ((((maybeSynthesizeStructuredAnswerWithLLM a st gen
            label).answer).answerText).take 12) = strOf "llm-assisted" ∧
        ((maybeSynthesizeStructuredAnswerWithLLM a st gen label).answer).reasoningNotes =
          appendNote (normalizeStructuredAnswer a).reasoningNotes
            (synthSuccessNote model label rid)) := by
  refine ⟨?_, ?_, ?_, ?_⟩
  · have h := synth_fields a st gen label
    simpa only [normalizeStructuredAnswer] using h
  · intro hst
    simp only [maybeSynthesizeStructuredAnswerWithLLM, hst, Bool.not_false, if_true]
    split_ifs <;> rfl
  · intro e model hgen hen hne
    subst hgen
    simp only [maybeSynthesizeStructuredAnswerWithLLM, hen, Bool.not_true]
    rw [if_neg hne]
    rfl
  · intro text model rid hgen hen hne
    subst hgen
    simp only [maybeSynthesizeStructuredAnswerWithLLM, hen, Bool.not_true]
    rw [if_neg hne]
    refine ⟨rfl, ?_, rfl⟩
    exact ensureAssistedLabel_labeled _

/- ### C9: the hybrid answer's reasoning notes -/

set_option maxRecDepth 10000 in
/-- C9, counterexample: at unavailable stores (fact query, evidence kept) the
hybrid answer's reasoning notes are the fixed hybrid override string, and the
KG sub-builder's rationale is not even a substring of them — so the merged
notes are not a concatenation of the two sub-builders' rationales. -/
theorem C9_counterexample :
    (buildHybridAnswer kgMissing ntgStoreMissing ctxFact).reasoningNotes = hybridNotes ∧
    (buildKgAnswer kgMissing ctxFact).reasoningNotes =
      strOf "KG answer builder depends on entities.json and kg_edges.json." ∧
    ¬ ((buildKgAnswer kgMissing ctxFact).reasoningNotes <:+:
        (buildHybridAnswer kgMissing ntgStoreMissing ctxFact).reasoningNotes) := by
  refine ⟨rfl, rfl, ?_⟩
  rw [show (buildKgAnswer kgMissing ctxFact).reasoningNotes =
      strOf "KG answer builder depends on entities.json and kg_edges.json." from rfl,
    show (buildHybridAnswer kgMissing ntgStoreMissing ctxFact).reasoningNotes =
      hybridNotes from rfl]
  decide

/-- C9 (amended): with evidence kept, the hybrid answer's reasoning notes are
always the fixed override string `hybridNotes` (they do not concatenate the
sub-builders' rationales); for non-comparison queries the two sub-builders'
rationales are instead embedded in the blended answer text. -/
theorem C9_hybrid_notes (kg : KgArtifacts) (store : NtgStore) (q : Str)
    (qt : QueryType) (rr : Str) (ents : List DetectedEntityMention) :
    (buildHybridAnswer kg store ⟨q, qt, rr, ents, true⟩).reasoningNotes = hybridNotes ∧
    (qt ≠ .comparison →
      (buildKgAnswer kg ⟨q, qt, rr, ents, true⟩).reasoningNotes <:+:
        (buildHybridAnswer kg store ⟨q, qt, rr, ents, true⟩).answerText ∧
      (buildTraceAnswer store ⟨q, qt, rr, ents, true⟩).reasoningNotes <:+:
        (buildHybridAnswer kg store ⟨q, qt, rr, ents, true⟩).answerText) := by
  constructor
  · simp only [buildHybridAnswer]
    rw [maybeStrip_true]
    simp [mergeAnswerCores, noOverrides, hybridNotes]
  · intro h
    have hmerge : (buildHybridAnswer kg store ⟨q, qt, rr, ents, true⟩).answerText =
        joinSep (strOf "\n")
          [strOf "Hybrid answer (KG + NTG):",
           strOf "- KG contribution: " ++
             (buildKgAnswer kg ⟨q, qt, rr, ents, true⟩).reasoningNotes,
           strOf "- NTG contribution: " ++
             (buildTraceAnswer store ⟨q, qt, rr, ents, true⟩).reasoningNotes,
           [],
           strOf "KG summary:",
           (buildKgAnswer kg ⟨q, qt, rr, ents, true⟩).answerText,
           [],
           strOf "NTG summary:",
           (buildTraceAnswer store ⟨q, qt, rr, ents, true⟩).answerText] := by
      simp only [buildHybridAnswer]
      rw [maybeStrip_answerText]
      simp [mergeAnswerCores, noOverrides, h]
    rw [hmerge]
    constructor
    · exact (List.suffix_append (strOf "- KG contribution: ") _).isInfix.trans
        (joinSep_infix_of_mem (strOf "\n") _
          (strOf "- KG contribution: " ++
            (buildKgAnswer kg ⟨q, qt, rr, ents, true⟩).reasoningNotes) (by simp))
    · exact (List.suffix_append (strOf "- NTG contribution: ") _).isInfix.trans
        (joinSep_infix_of_mem (strOf "\n") _
          (strOf "- NTG contribution: " ++
            (buildTraceAnswer store ⟨q, qt, rr, ents, true⟩).reasoningNotes) (by simp))

/- ### C10 machinery: the omission note reaches every stripped answer -/

/-- Stripping with `includeEvidence = false` appends the omission note
whenever the guard substring is not already present. -/
theorem strip_false_omission {a : StructuredAnswerCore}
    (h : ¬ a.reasoningNotes.containsB (strOf "Evidence refs omitted by request")) :
    omissionNote <:+: (maybeStripEvidence a false).reasoningNotes := by
  rw [maybeStrip_false_notes h]
  exact (List.suffix_append (a.reasoningNotes ++ strOf " ")
    (strOf "Evidence refs omitted by request.")).isInfix

set_option maxRecDepth 10000 in
/-- No reasoning-notes constant of the KG builder contains the omission
guard. -/
theorem kgAnswer_no_guard (kg : KgArtifacts) (q : Str) (qt : QueryType) (rr : Str)
    (ents : List DetectedEntityMention) :
    ¬ (buildKgAnswer kg ⟨q, qt, rr, ents, true⟩).reasoningNotes.containsB
        (strOf "Evidence refs omitted by request") := by
  simp only [buildKgAnswer]
  split
  · exact (by decide : ¬ (strOf "KG answer builder depends on entities.json and kg_edges.json.").containsB (strOf "Evidence refs omitted by request") = true)
  · split
    · rename_i answer heq
      split at heq
      · exact Option.noConfusion heq
      · split at heq <;> first
          | (injection heq with h2
             subst h2
             exact (by decide : ¬ (strOf "KG mode returns canonical entities and relationship edges (static/semi-stable/volatile) without timeline sequencing.").containsB (strOf "Evidence refs omitted by request") = true))
          | exact Option.noConfusion heq
    · exact (by decide : ¬ (strOf "KG mode fell back to entity-name search because no specific graph neighborhood target was detected.").containsB (strOf "Evidence refs omitted by request") = true)

set_option maxRecDepth 10000 in
/-- No reasoning-notes constant of the state-change summarizer contains the
omission guard. -/
theorem stateChanges_no_guard (q : Str) (qt : QueryType) (rr : Str)
    (ents : List DetectedEntityMention) (rows : StateChangesResult) :
    ¬ (summarizeStateChangesAnswer ⟨q, qt, rr, ents, true⟩ rows).reasoningNotes.containsB
        (strOf "Evidence refs omitted by request") := by
  simp only [summarizeStateChangesAnswer]
  repeat' split
  all_goals first
    | exact (by decide : ¬ (strOf "State-change answer builder depends on state_changes.json and supporting NTG artifacts.").containsB (strOf "Evidence refs omitted by request") = true)
    | exact (by decide : ¬ (strOf "NTG state-change retrieval returned zero rows for the inferred pair/entity filters.").containsB (strOf "Evidence refs omitted by request") = true)
    | exact (by decide : ¬ (strOf "NTG mode answered using inferred state changes linked to trigger events and evidence refs; inferred vs explicit claims remain labeled.").containsB (strOf "Evidence refs omitted by request") = true)

set_option maxRecDepth 10000 in
/-- No reasoning-notes constant of the timeline-like summarizer contains the
omission guard. -/
theorem timelineLike_no_guard (q : Str) (qt : QueryType) (rr : Str)
    (ents : List DetectedEntityMention) (qt' : QueryType)
    (traceRows : TraceEventsResult) (timeline : TimelineResult) :
    ¬ (summarizeTimelineLikeAnswer ⟨q, qt, rr, ents, true⟩ qt' traceRows
        timeline).reasoningNotes.containsB
        (strOf "Evidence refs omitted by request") := by
  simp only [summarizeTimelineLikeAnswer]
  repeat' split
  all_goals first
    | exact (by decide : ¬ (strOf "Trace/timeline answer builder depends on events, temporal edges, and scene index artifacts.").containsB (strOf "Evidence refs omitted by request") = true)
    | exact (by decide : ¬ (strOf "Timeline/event search returned zero rows for the current query filters.").containsB (strOf "Evidence refs omitted by request") = true)
    | exact (by decide : ¬ (strOf "NTG mode answered using scene/event ordering plus temporal edges and evidence-linked event nodes.").containsB (strOf "Evidence refs omitted by request") = true)
    | exact (by decide : ¬ (strOf "NTG mode provided a heuristic chain using filtered event order and state-change overlays.").containsB (strOf "Evidence refs omitted by request") = true)

set_option maxRecDepth 10000 in
/-- No reasoning-notes constant of the narrative-trace builder contains the
omission guard. -/
theorem traceAnswer_no_guard (store : NtgStore) (q : Str) (qt : QueryType) (rr : Str)
    (ents : List DetectedEntityMention) :
    ¬ (buildTraceAnswer store ⟨q, qt, rr, ents, true⟩).reasoningNotes.containsB
        (strOf "Evidence refs omitted by request") := by
  simp only [buildTraceAnswer]
  repeat' split
  all_goals first
    | exact stateChanges_no_guard q qt rr ents _
    | exact timelineLike_no_guard q qt rr ents _ _ _
    | exact (by decide : ¬ (strOf "NTG evidence response selected events and surfaced their evidence refs/snippets directly.").containsB (strOf "Evidence refs omitted by request") = true)

set_option maxRecDepth 10000 in
/-- No reasoning-notes constant of the lexical-baseline builder contains the
omission guard. -/
theorem baselineAnswer_no_guard (artifacts : NtgArtifacts) (q : Str) (qt : QueryType)
    (rr : Str) (ents : List DetectedEntityMention) :
    ¬ (buildBaselineRagLikeAnswer artifacts ⟨q, qt, rr, ents, true⟩).reasoningNotes.containsB
        (strOf "Evidence refs omitted by request") := by
  simp only [buildBaselineRagLikeAnswer]
  repeat' split
  all_goals first
    | exact (by decide : ¬ (strOf "Baseline RAG-like placeholder depends on local event/script-block artifacts.").containsB (strOf "Evidence refs omitted by request") = true)
    | exact (by decide : ¬ (strOf "Baseline RAG-like mode ranked event summaries, script blocks, and state-change labels by lexical overlap with the question.").containsB (strOf "Evidence refs omitted by request") = true)

set_option maxRecDepth 10000 in
/-- With `includeEvidence = false`, every builder output carries the omission
note in its reasoning notes. -/
theorem buildMainAnswer_omission (kg : KgArtifacts) (store : NtgStore) (q : Str)
    (qt : QueryType) (rr : Str) (ents : List DetectedEntityMention)
    (mode : AnswerMode) :
    omissionNote <:+:
      (buildMainAnswer kg store ⟨q, qt, rr, ents, false⟩ mode).reasoningNotes := by
  cases mode
  · show omissionNote <:+: (buildKgAnswer kg ⟨q, qt, rr, ents, false⟩).reasoningNotes
    rw [buildKgAnswer_inc]
    exact strip_false_omission (kgAnswer_no_guard kg q qt rr ents)
  · show omissionNote <:+: (buildTraceAnswer store ⟨q, qt, rr, ents, false⟩).reasoningNotes
    rw [buildTraceAnswer_inc]
    exact strip_false_omission (traceAnswer_no_guard store q qt rr ents)
  · show omissionNote <:+:
      (buildHybridAnswer kg store ⟨q, qt, rr, ents, false⟩).reasoningNotes
    obtain ⟨x, hx, hn⟩ := buildHybridAnswer_shape kg store ⟨q, qt, rr, ents, false⟩
    rw [hx]
    exact strip_false_omission (by
      rw [hn]
      exact (by decide : ¬ hybridNotes.containsB (strOf "Evidence refs omitted by request") = true))
  · show omissionNote <:+:
      (buildBaselineRagLikeAnswer store.artifacts ⟨q, qt, rr, ents, false⟩).reasoningNotes
    rw [buildBaselineRagLikeAnswer_inc]
    exact strip_false_omission (baselineAnswer_no_guard store.artifacts q qt rr ents)

/-- Anchored omission notes survive normalize → route-append → enforce. -/
theorem post_omission (b : StructuredAnswerCore) (r : Str)
    (h : omissionNote <:+: b.reasoningNotes) :
    omissionNote <:+:
      (enforceEvidenceInvariant
        (appendRouteReasoning (normalizeStructuredAnswer b) r)).reasoningNotes :=
  enforce_infix (appendRoute_infix_pres r (by decide) (anchored_infix_trim (by decide) h))

/-- Anchored omission notes survive the full main-answer post-processing
chain, including the synthesis layer. -/
theorem chain_omission (b : StructuredAnswerCore) (r : Str)
    (st : LlmSynthesisStatus) (gen : GenResult) (lbl : Option Str)
    (h : omissionNote <:+: b.reasoningNotes) :
    omissionNote <:+:
      ((maybeSynthesizeStructuredAnswerWithLLM
        (enforceEvidenceInvariant (appendRouteReasoning (normalizeStructuredAnswer b) r))
        st gen lbl).answer).reasoningNotes :=
  synth_infix st gen lbl (by decide) (post_omission b r h)

/- ### C10 machinery: fields not touched by evidence stripping -/

/-- The KG builder changes only `evidenceRefs`/`reasoningNotes` when evidence
is stripped. -/
theorem buildKgAnswer_proj (kg : KgArtifacts) (q : Str) (qt : QueryType) (rr : Str)
    (ents : List DetectedEntityMention) :
    (buildKgAnswer kg ⟨q, qt, rr, ents, false⟩).answerText =
      (buildKgAnswer kg ⟨q, qt, rr, ents, true⟩).answerText ∧
    (buildKgAnswer kg ⟨q, qt, rr, ents, false⟩).modeUsed =
      (buildKgAnswer kg ⟨q, qt, rr, ents, true⟩).modeUsed ∧
    (buildKgAnswer kg ⟨q, qt, rr, ents, false⟩).queryType =
      (buildKgAnswer kg ⟨q, qt, rr, ents, true⟩).queryType ∧
    (buildKgAnswer kg ⟨q, qt, rr, ents, false⟩).confidence =
      (buildKgAnswer kg ⟨q, qt, rr, ents, true⟩).confidence ∧
    (buildKgAnswer kg ⟨q, qt, rr, ents, false⟩).entitiesUsed =
      (buildKgAnswer kg ⟨q, qt, rr, ents, true⟩).entitiesUsed ∧
    (buildKgAnswer kg ⟨q, qt, rr, ents, false⟩).eventsUsed =
      (buildKgAnswer kg ⟨q, qt, rr, ents, true⟩).eventsUsed ∧
    (buildKgAnswer kg ⟨q, qt, rr, ents, false⟩).stateChangesUsed =
      (buildKgAnswer kg ⟨q, qt, rr, ents, true⟩).stateChangesUsed := by
  rw [buildKgAnswer_inc kg q qt rr ents false]
  exact ⟨maybeStrip_answerText _ _, maybeStrip_modeUsed _ _, maybeStrip_queryType _ _,
    maybeStrip_confidence _ _, maybeStrip_entitiesUsed _ _, maybeStrip_eventsUsed _ _,
    maybeStrip_stateChangesUsed _ _⟩

/-- The narrative-trace builder changes only `evidenceRefs`/`reasoningNotes`
when evidence is stripped. -/
theorem buildTraceAnswer_proj (store : NtgStore) (q : Str) (qt : QueryType) (rr : Str)
    (ents : List DetectedEntityMention) :
    (buildTraceAnswer store ⟨q, qt, rr, ents, false⟩).answerText =
      (buildTraceAnswer store ⟨q, qt, rr, ents, true⟩).answerText ∧
    (buildTraceAnswer store ⟨q, qt, rr, ents, false⟩).modeUsed =
      (buildTraceAnswer store ⟨q, qt, rr, ents, true⟩).modeUsed ∧
    (buildTraceAnswer store ⟨q, qt, rr, ents, false⟩).queryType =
      (buildTraceAnswer store ⟨q, qt, rr, ents, true⟩).queryType ∧
    (buildTraceAnswer store ⟨q, qt, rr, ents, false⟩).confidence =
      (buildTraceAnswer store ⟨q, qt, rr, ents, true⟩).confidence ∧
    (buildTraceAnswer store ⟨q, qt, rr, ents, false⟩).entitiesUsed =
      (buildTraceAnswer store ⟨q, qt, rr, ents, true⟩).entitiesUsed ∧
    (buildTraceAnswer store ⟨q, qt, rr, ents, false⟩).eventsUsed =
      (buildTraceAnswer store ⟨q, qt, rr, ents, true⟩).eventsUsed ∧
    (buildTraceAnswer store ⟨q, qt, rr, ents, false⟩).stateChangesUsed =
      (buildTraceAnswer store ⟨q, qt, rr, ents, true⟩).stateChangesUsed := by
  rw [buildTraceAnswer_inc store q qt rr ents false]
  exact ⟨maybeStrip_answerText _ _, maybeStrip_modeUsed _ _, maybeStrip_queryType _ _,
    maybeStrip_confidence _ _, maybeStrip_entitiesUsed _ _, maybeStrip_eventsUsed _ _,
    maybeStrip_stateChangesUsed _ _⟩

/-- The lexical-baseline builder changes only `evidenceRefs`/`reasoningNotes`
when evidence is stripped. -/
theorem buildBaselineAnswer_proj (artifacts : NtgArtifacts) (q : Str) (qt : QueryType)
    (rr : Str) (ents : List DetectedEntityMention) :
    (buildBaselineRagLikeAnswer artifacts ⟨q, qt, rr, ents, false⟩).answerText =
      (buildBaselineRagLikeAnswer artifacts ⟨q, qt, rr, ents, true⟩).answerText ∧
    (buildBaselineRagLikeAnswer artifacts ⟨q, qt, rr, ents, false⟩).modeUsed =
      (buildBaselineRagLikeAnswer artifacts ⟨q, qt, rr, ents, true⟩).modeUsed ∧
    (buildBaselineRagLikeAnswer artifacts ⟨q, qt, rr, ents, false⟩).queryType =
      (buildBaselineRagLikeAnswer artifacts ⟨q, qt, rr, ents, true⟩).queryType ∧
    (buildBaselineRagLikeAnswer artifacts ⟨q, qt, rr, ents, false⟩).confidence =
      (buildBaselineRagLikeAnswer artifacts ⟨q, qt, rr, ents, true⟩).confidence ∧
    (buildBaselineRagLikeAnswer artifacts ⟨q, qt, rr, ents, false⟩).entitiesUsed =
      (buildBaselineRagLikeAnswer artifacts ⟨q, qt, rr, ents, true⟩).entitiesUsed ∧
    (buildBaselineRagLikeAnswer artifacts ⟨q, qt, rr, ents, false⟩).eventsUsed =
      (buildBaselineRagLikeAnswer artifacts ⟨q, qt, rr, ents, true⟩).eventsUsed ∧
    (buildBaselineRagLikeAnswer artifacts ⟨q, qt, rr, ents, false⟩).stateChangesUsed =
      (buildBaselineRagLikeAnswer artifacts ⟨q, qt, rr, ents, true⟩).stateChangesUsed := by
  rw [buildBaselineRagLikeAnswer_inc artifacts q qt rr ents false]
  exact ⟨maybeStrip_answerText _ _, maybeStrip_modeUsed _ _, maybeStrip_queryType _ _,
    maybeStrip_confidence _ _, maybeStrip_entitiesUsed _ _, maybeStrip_eventsUsed _ _,
    maybeStrip_stateChangesUsed _ _⟩

/-- The hybrid builder's merged structured fields do not depend on the
evidence flag (its answer text does — see the C10 counterexample). -/
theorem buildHybridAnswer_proj (kg : KgArtifacts) (store : NtgStore) (q : Str)
    (qt : QueryType) (rr : Str) (ents : List DetectedEntityMention) :
    (buildHybridAnswer kg store ⟨q, qt, rr, ents, false⟩).modeUsed =
      (buildHybridAnswer kg store ⟨q, qt, rr, ents, true⟩).modeUsed ∧
    (buildHybridAnswer kg store ⟨q, qt, rr, ents, false⟩).queryType =
      (buildHybridAnswer kg store ⟨q, qt, rr, ents, true⟩).queryType ∧
    (buildHybridAnswer kg store ⟨q, qt, rr, ents, false⟩).confidence =
      (buildHybridAnswer kg store ⟨q, qt, rr, ents, true⟩).confidence ∧
    (buildHybridAnswer kg store ⟨q, qt, rr, ents, false⟩).entitiesUsed =
      (buildHybridAnswer kg store ⟨q, qt, rr, ents, true⟩).entitiesUsed ∧
    (buildHybridAnswer kg store ⟨q, qt, rr, ents, false⟩).eventsUsed =
      (buildHybridAnswer kg store ⟨q, qt, rr, ents, true⟩).eventsUsed ∧
    (buildHybridAnswer kg store ⟨q, qt, rr, ents, false⟩).stateChangesUsed =
      (buildHybridAnswer kg store ⟨q, qt, rr, ents, true⟩).stateChangesUsed := by
  obtain ⟨-, -, -, hc, he, hev, hsc⟩ := buildKgAnswer_proj kg q qt rr ents
  obtain ⟨-, -, -, hc2, he2, hev2, hsc2⟩ := buildTraceAnswer_proj store q qt rr ents
  refine ⟨?_, ?_, ?_, ?_, ?_, ?_⟩ <;>
    simp only [buildHybridAnswer, maybeStrip_modeUsed, maybeStrip_queryType,
      maybeStrip_confidence, maybeStrip_entitiesUsed, maybeStrip_eventsUsed,
      maybeStrip_stateChangesUsed, mergeAnswerCores, noOverrides, Option.getD,
      hc, he, hev, hsc, hc2, he2, hev2, hsc2]

/-- The dispatched builder's structured fields do not depend on the evidence
flag, for every routed mode. -/
theorem buildMainAnswer_proj (kg : KgArtifacts) (store : NtgStore) (q : Str)
    (qt : QueryType) (rr : Str) (ents : List DetectedEntityMention)
    (mode : AnswerMode) :
    (buildMainAnswer kg store ⟨q, qt, rr, ents, false⟩ mode).modeUsed =
      (buildMainAnswer kg store ⟨q, qt, rr, ents, true⟩ mode).modeUsed ∧
    (buildMainAnswer kg store ⟨q, qt, rr, ents, false⟩ mode).queryType =
      (buildMainAnswer kg store ⟨q, qt, rr, ents, true⟩ mode).queryType ∧
    (buildMainAnswer kg store ⟨q, qt, rr, ents, false⟩ mode).confidence =
      (buildMainAnswer kg store ⟨q, qt, rr, ents, true⟩ mode).confidence ∧
    (buildMainAnswer kg store ⟨q, qt, rr, ents, false⟩ mode).entitiesUsed =
      (buildMainAnswer kg store ⟨q, qt, rr, ents, true⟩ mode).entitiesUsed ∧
    (buildMainAnswer kg store ⟨q, qt, rr, ents, false⟩ mode).eventsUsed =
      (buildMainAnswer kg store ⟨q, qt, rr, ents, true⟩ mode).eventsUsed ∧
    (buildMainAnswer kg store ⟨q, qt, rr, ents, false⟩ mode).stateChangesUsed =
      (buildMainAnswer kg store ⟨q, qt, rr, ents, true⟩ mode).stateChangesUsed := by
  cases mode
  · obtain ⟨-, h1, h2, h3, h4, h5, h6⟩ := buildKgAnswer_proj kg q qt rr ents
    exact ⟨h1, h2, h3, h4, h5, h6⟩
  · obtain ⟨-, h1, h2, h3, h4, h5, h6⟩ := buildTraceAnswer_proj store q qt rr ents
    exact ⟨h1, h2, h3, h4, h5, h6⟩
  · exact buildHybridAnswer_proj kg store q qt rr ents
  · obtain ⟨-, h1, h2, h3, h4, h5, h6⟩ := buildBaselineAnswer_proj store.artifacts q qt rr ents
    exact ⟨h1, h2, h3, h4, h5, h6⟩

/-- The main post-processing chain maps equal structured fields to equal
structured fields. -/
theorem chain_proj (b b' : StructuredAnswerCore) (r : Str) (st : LlmSynthesisStatus)
    (gen : GenResult) (lbl : Option Str)
    (hm : b.modeUsed = b'.modeUsed) (hq : b.queryType = b'.queryType)
    (hc : b.confidence = b'.confidence) (he : b.entitiesUsed = b'.entitiesUsed)
    (hev : b.eventsUsed = b'.eventsUsed) (hsc : b.stateChangesUsed = b'.stateChangesUsed) :
    ((maybeSynthesizeStructuredAnswerWithLLM
      (enforceEvidenceInvariant (appendRouteReasoning (normalizeStructuredAnswer b) r))
      st gen lbl).answer).modeUsed =
      ((maybeSynthesizeStructuredAnswerWithLLM
        (enforceEvidenceInvariant (appendRouteReasoning (normalizeStructuredAnswer b') r))
        st gen lbl).answer).modeUsed ∧
    ((maybeSynthesizeStructuredAnswerWithLLM
      (enforceEvidenceInvariant (appendRouteReasoning (normalizeStructuredAnswer b) r))
      st gen lbl).answer).queryType =
      ((maybeSynthesizeStructuredAnswerWithLLM
        (enforceEvidenceInvariant (appendRouteReasoning (normalizeStructuredAnswer b') r))
        st gen lbl).answer).queryType ∧
    ((maybeSynthesizeStructuredAnswerWithLLM
      (enforceEvidenceInvariant (appendRouteReasoning (normalizeStructuredAnswer b) r))
      st gen lbl).answer).confidence =
      ((maybeSynthesizeStructuredAnswerWithLLM
        (enforceEvidenceInvariant (appendRouteReasoning (normalizeStructuredAnswer b') r))
        st gen lbl).answer).confidence ∧
    ((maybeSynthesizeStructuredAnswerWithLLM
      (enforceEvidenceInvariant (appendRouteReasoning (normalizeStructuredAnswer b) r))
      st gen lbl).answer).entitiesUsed =
      ((maybeSynthesizeStructuredAnswerWithLLM
        (enforceEvidenceInvariant (appendRouteReasoning (normalizeStructuredAnswer b') r))
        st gen lbl).answer).entitiesUsed ∧
    ((maybeSynthesizeStructuredAnswerWithLLM
      (enforceEvidenceInvariant (appendRouteReasoning (normalizeStructuredAnswer b) r))
      st gen lbl).answer).eventsUsed =
      ((maybeSynthesizeStructuredAnswerWithLLM
        (enforceEvidenceInvariant (appendRouteReasoning (normalizeStructuredAnswer b') r))
        st gen lbl).answer).eventsUsed ∧
    ((maybeSynthesizeStructuredAnswerWithLLM
      (enforceEvidenceInvariant (appendRouteReasoning (normalizeStructuredAnswer b) r))
      st gen lbl).answer).stateChangesUsed =
      ((maybeSynthesizeStructuredAnswerWithLLM
        (enforceEvidenceInvariant (appendRouteReasoning (normalizeStructuredAnswer b') r))
        st gen lbl).answer).stateChangesUsed := by
  obtain ⟨hs1, hs2, hs3, hs4, hs5, hs6, -⟩ := synth_fields
    (enforceEvidenceInvariant (appendRouteReasoning (normalizeStructuredAnswer b) r))
    st gen lbl
  obtain ⟨ht1, ht2, ht3, ht4, ht5, ht6, -⟩ := synth_fields
    (enforceEvidenceInvariant (appendRouteReasoning (normalizeStructuredAnswer b') r))
    st gen lbl
  obtain ⟨-, he1, he2, he3, he4, he5, he6, -⟩ := enforce_fields
    (appendRouteReasoning (normalizeStructuredAnswer b) r)
  obtain ⟨-, hf1, hf2, hf3, hf4, hf5, hf6, -⟩ := enforce_fields
    (appendRouteReasoning (normalizeStructuredAnswer b') r)
  obtain ⟨-, ha1, ha2, ha3, ha4, ha5, ha6, -⟩ := appendRoute_fields
    (normalizeStructuredAnswer b) r
  obtain ⟨-, hb1, hb2, hb3, hb4, hb5, hb6, -⟩ := appendRoute_fields
    (normalizeStructuredAnswer b') r
  refine ⟨?_, ?_, ?_, ?_, ?_, ?_⟩
  · rw [hs1, he1, ha1, ht1, hf1, hb1]
    show b.modeUsed = b'.modeUsed
    exact hm
  · rw [hs2, he2, ha2, ht2, hf2, hb2]
    show b.queryType = b'.queryType
    exact hq
  · rw [hs3, he3, ha3, ht3, hf3, hb3]
    show clampConfidence (clampConfidence b.confidence) =
      clampConfidence (clampConfidence b'.confidence)
    rw [hc]
  · rw [hs4, he4, ha4, ht4, hf4, hb4]
    show uniqueStrings (uniqueStrings b.entitiesUsed) =
      uniqueStrings (uniqueStrings b'.entitiesUsed)
    rw [he]
  · rw [hs5, he5, ha5, ht5, hf5, hb5]
    show uniqueStrings (uniqueStrings b.eventsUsed) =
      uniqueStrings (uniqueStrings b'.eventsUsed)
    rw [hev]
  · rw [hs6, he6, ha6, ht6, hf6, hb6]
    show uniqueStrings (uniqueStrings b.stateChangesUsed) =
      uniqueStrings (uniqueStrings b'.stateChangesUsed)
    rw [hsc]

/-- The baseline post-processing (normalize → route-append → enforce) maps
equal structured fields (and answer text) to equal ones. -/
theorem post_proj (b b' : StructuredAnswerCore) (r : Str)
    (hat : b.answerText = b'.answerText)
    (hm : b.modeUsed = b'.modeUsed) (hq : b.queryType = b'.queryType)
    (hc : b.confidence = b'.confidence) (he : b.entitiesUsed = b'.entitiesUsed)
    (hev : b.eventsUsed = b'.eventsUsed) (hsc : b.stateChangesUsed = b'.stateChangesUsed) :
    (enforceEvidenceInvariant (appendRouteReasoning
      (normalizeStructuredAnswer b) r)).answerText =
      (enforceEvidenceInvariant (appendRouteReasoning
        (normalizeStructuredAnswer b') r)).answerText ∧
    (enforceEvidenceInvariant (appendRouteReasoning
      (normalizeStructuredAnswer b) r)).modeUsed =
      (enforceEvidenceInvariant (appendRouteReasoning
        (normalizeStructuredAnswer b') r)).modeUsed ∧
    (enforceEvidenceInvariant (appendRouteReasoning
      (normalizeStructuredAnswer b) r)).queryType =
      (enforceEvidenceInvariant (appendRouteReasoning
        (normalizeStructuredAnswer b') r)).queryType ∧
    (enforceEvidenceInvariant (appendRouteReasoning
      (normalizeStructuredAnswer b) r)).confidence =
      (enforceEvidenceInvariant (appendRouteReasoning
        (normalizeStructuredAnswer b') r)).confidence ∧
    (enforceEvidenceInvariant (appendRouteReasoning
      (normalizeStructuredAnswer b) r)).entitiesUsed =
      (enforceEvidenceInvariant (appendRouteReasoning
        (normalizeStructuredAnswer b') r)).entitiesUsed ∧
    (enforceEvidenceInvariant (appendRouteReasoning
      (normalizeStructuredAnswer b) r)).eventsUsed =
      (enforceEvidenceInvariant (appendRouteReasoning
        (normalizeStructuredAnswer b') r)).eventsUsed ∧
    (enforceEvidenceInvariant (appendRouteReasoning
      (normalizeStructuredAnswer b) r)).stateChangesUsed =
      (enforceEvidenceInvariant (appendRouteReasoning
        (normalizeStructuredAnswer b') r)).stateChangesUsed := by
  obtain ⟨he0, he1, he2, he3, he4, he5, he6, -⟩ := enforce_fields
    (appendRouteReasoning (normalizeStructuredAnswer b) r)
  obtain ⟨hf0, hf1, hf2, hf3, hf4, hf5, hf6, -⟩ := enforce_fields
    (appendRouteReasoning (normalizeStructuredAnswer b') r)
  obtain ⟨ha0, ha1, ha2, ha3, ha4, ha5, ha6, -⟩ := appendRoute_fields
    (normalizeStructuredAnswer b) r
  obtain ⟨hb0, hb1, hb2, hb3, hb4, hb5, hb6, -⟩ := appendRoute_fields
    (normalizeStructuredAnswer b') r
  refine ⟨?_, ?_, ?_, ?_, ?_, ?_, ?_⟩
  · rw [he0, ha0, hf0, hb0]
    show trim b.answerText = trim b'.answerText
    rw [hat]
  · rw [he1, ha1, hf1, hb1]
    show b.modeUsed = b'.modeUsed
    exact hm
  · rw [he2, ha2, hf2, hb2]
    show b.queryType = b'.queryType
    exact hq
  · rw [he3, ha3, hf3, hb3]
    show clampConfidence b.confidence = clampConfidence b'.confidence
    rw [hc]
  · rw [he4, ha4, hf4, hb4]
    show uniqueStrings b.entitiesUsed = uniqueStrings b'.entitiesUsed
    rw [he]
  · rw [he5, ha5, hf5, hb5]
    show uniqueStrings b.eventsUsed = uniqueStrings b'.eventsUsed
    rw [hev]
  · rw [he6, ha6, hf6, hb6]
    show uniqueStrings b.stateChangesUsed = uniqueStrings b'.stateChangesUsed
    rw [hsc]

set_option maxRecDepth 200000 in
/-- C10, counterexample: two identical hybrid-mode requests that differ only
in `includeEvidence` produce different main answer texts (the hybrid blended
text embeds the sub-builders' reasoning notes, which carry the omission note
when evidence is stripped) — contradicting the claim that no field other
than `evidenceRefs`/`reasoningNotes` differs. -/
theorem C10_counterexample :
    (answerQueryRequest kgMissing ntgStoreMissing llmDisabled genUnused
      ⟨strOf "hi", .hybrid, false, false⟩).main.answerText ≠
    (answerQueryRequest kgMissing ntgStoreMissing llmDisabled genUnused
      ⟨strOf "hi", .hybrid, true, false⟩).main.answerText := by
  decide

/- C10 helper facts, one pipeline projection each. -/

set_option maxHeartbeats 1000000 in
theorem c10_main_refs (kg : KgArtifacts) (store : NtgStore)
    (llmStatus : LlmSynthesisStatus) (gen : GenResult) (request : QueryRequest)
    (hinc : request.includeEvidence = false) :
    (answerQueryRequest kg store llmStatus gen request).main.evidenceRefs = [] := by
  simp only [answerQueryRequest, hinc, Bool.not_false, if_true]

set_option maxHeartbeats 1000000 in
theorem c10_main_note (kg : KgArtifacts) (store : NtgStore)
    (llmStatus : LlmSynthesisStatus) (gen : GenResult) (request : QueryRequest)
    (hinc : request.includeEvidence = false) :
    omissionNote <:+:
      (answerQueryRequest kg store llmStatus gen request).main.reasoningNotes := by
  simp only [answerQueryRequest, hinc, Bool.not_false, if_true]
  exact chain_omission _ _ llmStatus gen _
    (buildMainAnswer_omission kg store request.question _ _ _ _)

set_option maxHeartbeats 2000000 in
theorem c10_main_fields (kg : KgArtifacts) (store : NtgStore)
    (llmStatus : LlmSynthesisStatus) (gen : GenResult)
    (request requestT : QueryRequest)
    (hinc : request.includeEvidence = false)
    (hq : requestT.question = request.question)
    (hp : requestT.preferredMode = request.preferredMode)
    (hb : requestT.includeBaselineComparison = request.includeBaselineComparison)
    (hT : requestT.includeEvidence = true) :
    (answerQueryRequest kg store llmStatus gen request).main.modeUsed =
      (answerQueryRequest kg store llmStatus gen requestT).main.modeUsed ∧
    (answerQueryRequest kg store llmStatus gen request).main.queryType =
      (answerQueryRequest kg store llmStatus gen requestT).main.queryType ∧
    (answerQueryRequest kg store llmStatus gen request).main.confidence =
      (answerQueryRequest kg store llmStatus gen requestT).main.confidence ∧
    (answerQueryRequest kg store llmStatus gen request).main.entitiesUsed =
      (answerQueryRequest kg store llmStatus gen requestT).main.entitiesUsed ∧
    (answerQueryRequest kg store llmStatus gen request).main.eventsUsed =
      (answerQueryRequest kg store llmStatus gen requestT).main.eventsUsed ∧
    (answerQueryRequest kg store llmStatus gen request).main.stateChangesUsed =
      (answerQueryRequest kg store llmStatus gen requestT).main.stateChangesUsed := by
  obtain ⟨p1, p2, p3, p4, p5, p6⟩ := buildMainAnswer_proj kg store request.question
    (routeQuery request.question (some request.preferredMode.toStr)
      (detectEntitiesInQuestion kg request.question).length).queryType
    (routeQuery request.question (some request.preferredMode.toStr)
      (detectEntitiesInQuestion kg request.question).length).reasoning
    (detectEntitiesInQuestion kg request.question)
    (routeQuery request.question (some request.preferredMode.toStr)
      (detectEntitiesInQuestion kg request.question).length).modeUsed
  have hchain := chain_proj _ _
    (routeQuery request.question (some request.preferredMode.toStr)
      (detectEntitiesInQuestion kg request.question).length).reasoning
    llmStatus gen
    (some (strOf "mode=" ++
      (routeQuery request.question (some request.preferredMode.toStr)
        (detectEntitiesInQuestion kg request.question).length).modeUsed.toStr ++
      strOf ", query_type=" ++
      (routeQuery request.question (some request.preferredMode.toStr)
        (detectEntitiesInQuestion kg request.question).length).queryType.toStr))
    p1 p2 p3 p4 p5 p6
  simp only [answerQueryRequest, hinc, hq, hp, hb, hT, Bool.not_false, Bool.not_true,
    Bool.false_eq_true, if_true, if_false, ite_false, ite_true]
  exact hchain

set_option maxHeartbeats 2000000 in
set_option maxRecDepth 100000 in
theorem c10_baseline_isSome (kg : KgArtifacts) (store : NtgStore)
    (llmStatus : LlmSynthesisStatus) (gen : GenResult)
    (request requestT : QueryRequest)
    (hinc : request.includeEvidence = false)
    (hq : requestT.question = request.question)
    (hp : requestT.preferredMode = request.preferredMode)
    (hb : requestT.includeBaselineComparison = request.includeBaselineComparison)
    (hT : requestT.includeEvidence = true) :
    (answerQueryRequest kg store llmStatus gen request).baselineComparison.isSome =
      (answerQueryRequest kg store llmStatus gen requestT).baselineComparison.isSome := by
  simp only [answerQueryRequest, hinc, hq, hp, hb, hT, Bool.not_false, Bool.not_true,
    Bool.false_eq_true, if_true, if_false, ite_false, ite_true]
  rw [map_ite_some]
  split_ifs with hcond
  · rfl
  · rfl

set_option maxHeartbeats 2000000 in
theorem c10_baseline_stripped (kg : KgArtifacts) (store : NtgStore)
    (llmStatus : LlmSynthesisStatus) (gen : GenResult) (request : QueryRequest)
    (hinc : request.includeEvidence = false) :
    ∀ b, (answerQueryRequest kg store llmStatus gen request).baselineComparison =
        some b →
      b.evidenceRefs = [] ∧ omissionNote <:+: b.reasoningNotes := by
  have hbase : omissionNote <:+:
      (buildBaselineRagLikeAnswer store.artifacts
        ⟨request.question,
         (routeQuery request.question (some request.preferredMode.toStr)
           (detectEntitiesInQuestion kg request.question).length).queryType,
         (routeQuery request.question (some request.preferredMode.toStr)
           (detectEntitiesInQuestion kg request.question).length).reasoning,
         detectEntitiesInQuestion kg request.question, false⟩).reasoningNotes := by
    rw [buildBaselineRagLikeAnswer_inc]
    exact strip_false_omission (baselineAnswer_no_guard _ _ _ _ _)
  simp only [answerQueryRequest, hinc, Bool.not_false, if_true]
  intro b hb
  rw [map_ite_some] at hb
  split at hb
  · injection hb with hh
    subst hh
    exact ⟨rfl, post_omission _ _ hbase⟩
  · exact Option.noConfusion hb

set_option maxHeartbeats 2000000 in
theorem c10_baseline_agree (kg : KgArtifacts) (store : NtgStore)
    (llmStatus : LlmSynthesisStatus) (gen : GenResult)
    (request requestT : QueryRequest)
    (hinc : request.includeEvidence = false)
    (hq : requestT.question = request.question)
    (hp : requestT.preferredMode = request.preferredMode)
    (hb : requestT.includeBaselineComparison = request.includeBaselineComparison)
    (hT : requestT.includeEvidence = true) :
    ∀ b0 b1, (answerQueryRequest kg store llmStatus gen
        requestT).baselineComparison = some b0 →
      (answerQueryRequest kg store llmStatus gen request).baselineComparison =
        some b1 →
      b1.answerText = b0.answerText ∧ b1.modeUsed = b0.modeUsed ∧
        b1.queryType = b0.queryType ∧ b1.confidence = b0.confidence ∧
        b1.entitiesUsed = b0.entitiesUsed ∧ b1.eventsUsed = b0.eventsUsed ∧
        b1.stateChangesUsed = b0.stateChangesUsed := by
  obtain ⟨q1, q2, q3, q4, q5, q6, q7⟩ := buildBaselineAnswer_proj store.artifacts
    request.question
    (routeQuery request.question (some request.preferredMode.toStr)
      (detectEntitiesInQuestion kg request.question).length).queryType
    (routeQuery request.question (some request.preferredMode.toStr)
      (detectEntitiesInQuestion kg request.question).length).reasoning
    (detectEntitiesInQuestion kg request.question)
  have hpost := post_proj _ _
    (strOf "Baseline comparator generated for side-by-side deterministic comparison.")
    q1 q2 q3 q4 q5 q6 q7
  simp only [answerQueryRequest, hinc, hq, hp, hb, hT, Bool.not_false, Bool.not_true,
    Bool.false_eq_true, if_true, if_false, ite_false, ite_true]
  intro b0 b1 h0 h1
  rw [map_ite_some] at h1
  split at h0 <;> split at h1 <;>
    first
      | exact Option.noConfusion h0
      | exact Option.noConfusion h1
      | (injection h0 with hh0
         injection h1 with hh1
         subst hh0
         subst hh1
         exact ⟨hpost.1, hpost.2.1, hpost.2.2.1, hpost.2.2.2.1, hpost.2.2.2.2.1,
           hpost.2.2.2.2.2.1, hpost.2.2.2.2.2.2⟩)

/-- C10 (amended): for every request with `includeEvidence = false` and its
evidence-kept twin (same question, preferred mode and baseline flag,
`includeEvidence = true`): the main answer carries no evidence refs and its
reasoning notes contain the omission note; its structured fields (mode,
query type, confidence, entity/event/state-change IDs) equal the twin run's;
the baseline comparison is present in one run exactly when it is present in
the other, is likewise stripped and annotated, and agrees with the twin run
on every field other than `evidenceRefs`/`reasoningNotes` (including its
answer text). The main answer text is *not* preserved in general: in hybrid
mode it embeds the sub-builders' stripped notes (see the counterexample). -/
theorem C10_no_evidence_frame (kg : KgArtifacts) (store : NtgStore)
    (llmStatus : LlmSynthesisStatus) (gen : GenResult)
    (request requestT : QueryRequest)
    (hinc : request.includeEvidence = false)
    (hq : requestT.question = request.question)
    (hp : requestT.preferredMode = request.preferredMode)
    (hb : requestT.includeBaselineComparison = request.includeBaselineComparison)
    (hT : requestT.includeEvidence = true) :
    (answerQueryRequest kg store llmStatus gen request).main.evidenceRefs = [] ∧
    omissionNote <:+:
      (answerQueryRequest kg store llmStatus gen request).main.reasoningNotes ∧
    (answerQueryRequest kg store llmStatus gen request).main.modeUsed =
      (answerQueryRequest kg store llmStatus gen requestT).main.modeUsed ∧
    (answerQueryRequest kg store llmStatus gen request).main.queryType =
      (answerQueryRequest kg store llmStatus gen requestT).main.queryType ∧
    (answerQueryRequest kg store llmStatus gen request).main.confidence =
      (answerQueryRequest kg store llmStatus gen requestT).main.confidence ∧
    (answerQueryRequest kg store llmStatus gen request).main.entitiesUsed =
      (answerQueryRequest kg store llmStatus gen requestT).main.entitiesUsed ∧
    (answerQueryRequest kg store llmStatus gen request).main.eventsUsed =
      (answerQueryRequest kg store llmStatus gen requestT).main.eventsUsed ∧
    (answerQueryRequest kg store llmStatus gen request).main.stateChangesUsed =
      (answerQueryRequest kg store llmStatus gen requestT).main.stateChangesUsed ∧
    (answerQueryRequest kg store llmStatus gen request).baselineComparison.isSome =
      (answerQueryRequest kg store llmStatus gen requestT).baselineComparison.isSome ∧
    (∀ b, (answerQueryRequest kg store llmStatus gen request).baselineComparison =
        some b →
      b.evidenceRefs = [] ∧ omissionNote <:+: b.reasoningNotes) ∧
    (∀ b0 b1, (answerQueryRequest kg store llmStatus gen
        requestT).baselineComparison = some b0 →
      (answerQueryRequest kg store llmStatus gen request).baselineComparison =
        some b1 →
      b1.answerText = b0.answerText ∧ b1.modeUsed = b0.modeUsed ∧
        b1.queryType = b0.queryType ∧ b1.confidence = b0.confidence ∧
        b1.entitiesUsed = b0.entitiesUsed ∧ b1.eventsUsed = b0.eventsUsed ∧
        b1.stateChangesUsed = b0.stateChangesUsed) := by
  obtain ⟨f1, f2, f3, f4, f5, f6⟩ :=
    c10_main_fields kg store llmStatus gen request requestT hinc hq hp hb hT
  exact ⟨c10_main_refs kg store llmStatus gen request hinc,
    c10_main_note kg store llmStatus gen request hinc,
    f1, f2, f3, f4, f5, f6,
    c10_baseline_isSome kg store llmStatus gen request requestT hinc hq hp hb hT,
    c10_baseline_stripped kg store llmStatus gen request hinc,
    c10_baseline_agree kg store llmStatus gen request requestT hinc hq hp hb hT⟩

/-- Witness for the amended C10 at the counterexample's request pair. -/
theorem C10_no_evidence_frame_witness :
    reqC10F.includeEvidence = false ∧ reqC10T.question = reqC10F.question ∧
    reqC10T.includeEvidence = true ∧
    (answerQueryRequest kgMissing ntgStoreMissing llmDisabled genUnused
      reqC10F).main.evidenceRefs = [] ∧
    omissionNote <:+: (answerQueryRequest kgMissing ntgStoreMissing llmDisabled
      genUnused reqC10F).main.reasoningNotes ∧
    (answerQueryRequest kgMissing ntgStoreMissing llmDisabled genUnused
      reqC10F).main.confidence =
      (answerQueryRequest kgMissing ntgStoreMissing llmDisabled genUnused
        reqC10T).main.confidence :=
  ⟨rfl, rfl, rfl,
    (C10_no_evidence_frame kgMissing ntgStoreMissing llmDisabled genUnused
      reqC10F reqC10T rfl rfl rfl rfl rfl).1,
    (C10_no_evidence_frame kgMissing ntgStoreMissing llmDisabled genUnused
      reqC10F reqC10T rfl rfl rfl rfl rfl).2.1,
    (C10_no_evidence_frame kgMissing ntgStoreMissing llmDisabled genUnused
      reqC10F reqC10T rfl rfl rfl rfl rfl).2.2.2.2.1⟩

/- ### C4 machinery: the detection comparator is a total preorder -/

theorem cmpNat_lt_iff {a b : Nat} : cmpNat a b = .lt ↔ a < b := by
  unfold cmpNat
  split_ifs with h1 h2 <;> simp <;> omega

theorem cmpNat_eq_iff {a b : Nat} : cmpNat a b = .eq ↔ a = b := by
  unfold cmpNat
  split_ifs with h1 h2 <;> simp <;> omega

theorem cmpNat_gt_iff {a b : Nat} : cmpNat a b = .gt ↔ b < a := by
  unfold cmpNat
  split_ifs with h1 h2 <;> simp <;> omega

theorem cmpStr_nil_left_ne_gt (z : Str) : cmpStr [] z ≠ .gt := by
  cases z <;> simp [cmpStr]

theorem cmpStr_cons_nil_eq_gt (a : Char) (as : Str) : cmpStr (a :: as) [] = .gt := rfl

theorem cmpStr_eq_iff : ∀ {s t : Str}, cmpStr s t = .eq ↔ s = t := by
  intro s
  induction s with
  | nil => intro t; cases t <;> simp [cmpStr]
  | cons a as ih =>
    intro t
    cases t with
    | nil => simp [cmpStr]
    | cons b bs =>
      simp only [cmpStr]
      split_ifs with h1 h2
      · constructor
        · intro h; exact absurd h (by decide)
        · intro h
          injection h with hh1 hh2
          exact absurd hh1 (ne_of_lt h1)
      · constructor
        · intro h; exact absurd h (by decide)
        · intro h
          injection h with hh1 hh2
          exact absurd hh1.symm (ne_of_lt h2)
      · have hab : a = b := le_antisymm (not_lt.mp h2) (not_lt.mp h1)
        simp [hab, ih]

theorem cmpStr_le_trans : ∀ {x y z : Str},
    cmpStr x y ≠ .gt → cmpStr y z ≠ .gt → cmpStr x z ≠ .gt := by
  intro x
  induction x with
  | nil => intro y z _ _; exact cmpStr_nil_left_ne_gt z
  | cons a as ih =>
    intro y z h1 h2
    cases y with
    | nil => exact absurd (cmpStr_cons_nil_eq_gt a as) h1
    | cons b bs =>
      cases z with
      | nil => exact absurd (cmpStr_cons_nil_eq_gt b bs) h2
      | cons c cs =>
        simp only [cmpStr] at h1 h2 ⊢
        split_ifs with hac hca
        · simp
        · -- c < a: derive a contradiction from a ≤ b ≤ c
          exfalso
          have hab : a ≤ b := by
            by_contra hba
            rw [if_neg (fun h => absurd (lt_trans h (not_le.mp hba))
              (lt_irrefl a)), if_pos (not_le.mp hba)] at h1
            exact h1 rfl
          have hbc : b ≤ c := by
            by_contra hcb
            rw [if_neg (fun h => absurd (lt_trans h (not_le.mp hcb))
              (lt_irrefl b)), if_pos (not_le.mp hcb)] at h2
            exact h2 rfl
          exact absurd (lt_of_lt_of_le hca (le_trans hab hbc)) (lt_irrefl c)
        · -- ¬ a < c and ¬ c < a, so a = c; both comparisons pass through the tails
          have hac' : a = c := le_antisymm (not_lt.mp hca) (not_lt.mp hac)
          subst hac'
          have hab : a ≤ b := by
            by_contra hba
            rw [if_neg (fun h => absurd (lt_trans h (not_le.mp hba))
              (lt_irrefl a)), if_pos (not_le.mp hba)] at h1
            exact h1 rfl
          have hba : b ≤ a := by
            by_contra hab'
            rw [if_neg (fun h => absurd (lt_trans h (not_le.mp hab'))
              (lt_irrefl b)), if_pos (not_le.mp hab')] at h2
            exact h2 rfl
          have hab2 : a = b := le_antisymm hab hba
          subst hab2
          rw [if_neg (lt_irrefl a), if_neg (lt_irrefl a)] at h1 h2
          exact ih h1 h2

theorem cmpStr_total : ∀ (s t : Str), cmpStr s t ≠ .gt ∨ cmpStr t s ≠ .gt := by
  intro s
  induction s with
  | nil => intro t; exact Or.inl (cmpStr_nil_left_ne_gt t)
  | cons a as ih =>
    intro t
    cases t with
    | nil => exact Or.inr (cmpStr_nil_left_ne_gt (a :: as))
    | cons b bs =>
      rcases lt_trichotomy a b with h | h | h
      · refine Or.inl ?_
        show cmpStr (a :: as) (b :: bs) ≠ .gt
        simp only [cmpStr]
        rw [if_pos h]
        decide
      · subst h
        rcases ih bs with h' | h'
        · refine Or.inl ?_
          show cmpStr (a :: as) (a :: bs) ≠ .gt
          simp only [cmpStr]
          rw [if_neg (lt_irrefl a), if_neg (lt_irrefl a)]
          exact h'
        · refine Or.inr ?_
          show cmpStr (a :: bs) (a :: as) ≠ .gt
          simp only [cmpStr]
          rw [if_neg (lt_irrefl a), if_neg (lt_irrefl a)]
          exact h'
      · refine Or.inr ?_
        show cmpStr (b :: bs) (a :: as) ≠ .gt
        simp only [cmpStr]
        rw [if_pos h]
        decide

theorem then_ne_gt_iff {o1 o2 : Ordering} :
    o1.then o2 ≠ .gt ↔ (o1 = .lt ∨ (o1 = .eq ∧ o2 ≠ .gt)) := by
  cases o1 <;> simp [Ordering.then]

theorem mentionLe_total (a b : DetectedEntityMention) : mentionLe a b ∨ mentionLe b a := by
  unfold mentionLe
  rcases lt_trichotomy a.startIndex b.startIndex with h | h | h
  · exact Or.inl (then_ne_gt_iff.mpr (Or.inl (cmpNat_lt_iff.mpr h)))
  · rcases cmpStr_total a.canonicalName b.canonicalName with h' | h'
    · exact Or.inl (then_ne_gt_iff.mpr (Or.inr ⟨cmpNat_eq_iff.mpr h, h'⟩))
    · exact Or.inr (then_ne_gt_iff.mpr (Or.inr ⟨cmpNat_eq_iff.mpr h.symm, h'⟩))
  · exact Or.inr (then_ne_gt_iff.mpr (Or.inl (cmpNat_lt_iff.mpr h)))

theorem mentionLe_trans {a b c : DetectedEntityMention}
    (h1 : mentionLe a b) (h2 : mentionLe b c) : mentionLe a c := by
  unfold mentionLe at h1 h2 ⊢
  rw [then_ne_gt_iff] at h1 h2 ⊢
  rcases h1 with h1 | ⟨h1e, h1s⟩
  · rcases h2 with h2 | ⟨h2e, h2s⟩
    · exact Or.inl (cmpNat_lt_iff.mpr
        (lt_trans (cmpNat_lt_iff.mp h1) (cmpNat_lt_iff.mp h2)))
    · exact Or.inl (cmpNat_lt_iff.mpr
        (lt_of_lt_of_le (cmpNat_lt_iff.mp h1) (le_of_eq (cmpNat_eq_iff.mp h2e))))
  · rcases h2 with h2 | ⟨h2e, h2s⟩
    · exact Or.inl (cmpNat_lt_iff.mpr
        (lt_of_le_of_lt (le_of_eq (cmpNat_eq_iff.mp h1e)) (cmpNat_lt_iff.mp h2)))
    · exact Or.inr ⟨cmpNat_eq_iff.mpr
        ((cmpNat_eq_iff.mp h1e).trans (cmpNat_eq_iff.mp h2e)),
        cmpStr_le_trans h1s h2s⟩

/-- The detection sort produces a list sorted under the comparator. -/
theorem detect_sorted (hits : List DetectedEntityMention) :
    List.Sorted mentionLe
      (sortByCmp (fun a b =>
        (cmpNat a.startIndex b.startIndex).then (cmpStr a.canonicalName b.canonicalName))
        hits) := by
  unfold sortByCmp
  haveI : IsTotal DetectedEntityMention mentionLe := ⟨mentionLe_total⟩
  haveI : IsTrans DetectedEntityMention mentionLe := ⟨fun _ _ _ => mentionLe_trans⟩
  show List.Sorted mentionLe (List.insertionSort mentionLe hits)
  exact List.sorted_insertionSort mentionLe hits

/- ### C4 machinery: every lexicon phrase has at least three characters -/

theorem addEntry_min3 {st : LexBuild}
    (h : ∀ x ∈ st.entries, 3 ≤ x.phrase.length)
    (entityId canonicalName entityType phraseRaw : Str) (matchKind : MatchKind)
    (priority : Nat) :
    ∀ x ∈ (addEntry st entityId canonicalName entityType phraseRaw matchKind
        priority).entries, 3 ≤ x.phrase.length := by
  intro x hx
  simp only [addEntry] at hx
  split at hx
  · exact h x hx
  · rename_i hc
    split at hx
    · exact h x hx
    · simp only [List.mem_append, List.mem_singleton] at hx
      rcases hx with hx | rfl
      · exact h x hx
      · push_neg at hc
        exact hc.2

/-- Fold-preservation of the min-length invariant over one lexicon stage. -/
theorem stage_fold_min3 {β : Type} (f : LexBuild → β → LexBuild)
    (hf : ∀ st b, (∀ x ∈ st.entries, 3 ≤ x.phrase.length) →
      ∀ x ∈ (f st b).entries, 3 ≤ x.phrase.length)
    (l : List β) (st : LexBuild)
    (hst : ∀ x ∈ st.entries, 3 ≤ x.phrase.length) :
    ∀ x ∈ (l.foldl f st).entries, 3 ≤ x.phrase.length :=
  List.foldlRecOn l f st hst (fun b hb a _ => hf b a hb)

theorem lexicon_min3 (kg : KgArtifacts) :
    ∀ x ∈ buildEntityDetectionLexicon kg, 3 ≤ x.phrase.length := by
  unfold buildEntityDetectionLexicon
  split
  · simp
  · intro x hx
    simp only [sortByCmp] at hx
    have hx2 := (List.perm_insertionSort _ _).subset hx
    refine stage_fold_min3 _ ?_ _ _
      (stage_fold_min3 _ ?_ _ _
        (stage_fold_min3 _ ?_ _ _
          (stage_fold_min3 _ ?_ _ _ (by simp)))) x hx2
    · intro st entry hst
      intro y hy
      split at hy
      · exact hst y hy
      · split at hy
        · exact hst y hy
        · exact addEntry_min3 hst _ _ _ _ _ _ y hy
    · intro st hint hst
      intro y hy
      split at hy
      · exact hst y hy
      · exact addEntry_min3 hst _ _ _ _ _ _ y hy
    · intro st al hst
      intro y hy
      split at hy
      · exact hst y hy
      · split at hy
        · exact hst y hy
        · exact addEntry_min3 (addEntry_min3 hst _ _ _ _ _ _) _ _ _ _ _ _ y hy
    · intro st e hst
      exact addEntry_min3 hst _ _ _ _ _ _

/- ### C4 machinery: the scan keeps spans disjoint -/

/-- Invariant of the detection scan fold: the occupied-span list mirrors the
hits, spans are pairwise disjoint, and every hit matched a phrase of at
least three characters. -/
theorem scan_invariant (entries : List EntityDetectionLexiconEntry) (q : Str)
    (hmin : ∀ e ∈ entries, 3 ≤ e.phrase.length) :
    (entries.foldl
      (fun (st : List (Nat × Nat) × List DetectedEntityMention) entry =>
        match firstBoundaryMatch isLowerAlnum entry.phrase q with
        | none => st
        | some startIndex =>
          let endIndex := startIndex + entry.phrase.length
          let overlaps := st.1.any
            (fun span => !(decide (endIndex ≤ span.1) || decide (startIndex ≥ span.2)))
          if overlaps then st
          else
            (st.1 ++ [(startIndex, endIndex)],
             st.2 ++
               [{ entityId := entry.entityId, canonicalName := entry.canonicalName,
                  entityType := entry.entityType, matchedText := entry.phrase,
                  matchKind := entry.matchKind, startIndex := startIndex }]))
      ([], [])).1 =
      ((entries.foldl
        (fun (st : List (Nat × Nat) × List DetectedEntityMention) entry =>
          match firstBoundaryMatch isLowerAlnum entry.phrase q with
          | none => st
          | some startIndex =>
            let endIndex := startIndex + entry.phrase.length
            let overlaps := st.1.any
              (fun span => !(decide (endIndex ≤ span.1) || decide (startIndex ≥ span.2)))
            if overlaps then st
            else
              (st.1 ++ [(startIndex, endIndex)],
               st.2 ++
                 [{ entityId := entry.entityId, canonicalName := entry.canonicalName,
                    entityType := entry.entityType, matchedText := entry.phrase,
                    matchKind := entry.matchKind, startIndex := startIndex }]))
        ([], [])).2).map mentionSpan ∧
    List.Pairwise spansDisjoint
      (entries.foldl
        (fun (st : List (Nat × Nat) × List DetectedEntityMention) entry =>
          match firstBoundaryMatch isLowerAlnum entry.phrase q with
          | none => st
          | some startIndex =>
            let endIndex := startIndex + entry.phrase.length
            let overlaps := st.1.any
              (fun span => !(decide (endIndex ≤ span.1) || decide (startIndex ≥ span.2)))
            if overlaps then st
            else
              (st.1 ++ [(startIndex, endIndex)],
               st.2 ++
                 [{ entityId := entry.entityId, canonicalName := entry.canonicalName,
                    entityType := entry.entityType, matchedText := entry.phrase,
                    matchKind := entry.matchKind, startIndex := startIndex }]))
        ([], [])).1 ∧
    ∀ h ∈ (entries.foldl
        (fun (st : List (Nat × Nat) × List DetectedEntityMention) entry =>
          match firstBoundaryMatch isLowerAlnum entry.phrase q with
          | none => st
          | some startIndex =>
            let endIndex := startIndex + entry.phrase.length
            let overlaps := st.1.any
              (fun span => !(decide (endIndex ≤ span.1) || decide (startIndex ≥ span.2)))
            if overlaps then st
            else
              (st.1 ++ [(startIndex, endIndex)],
               st.2 ++
                 [{ entityId := entry.entityId, canonicalName := entry.canonicalName,
                    entityType := entry.entityType, matchedText := entry.phrase,
                    matchKind := entry.matchKind, startIndex := startIndex }]))
        ([], [])).2, 3 ≤ h.matchedText.length := by
  refine @List.foldlRecOn _ _
    (fun (st : List (Nat × Nat) × List DetectedEntityMention) =>
      st.1 = st.2.map mentionSpan ∧ List.Pairwise spansDisjoint st.1 ∧
        ∀ h ∈ st.2, 3 ≤ h.matchedText.length)
    entries _ ([], []) ⟨rfl, List.Pairwise.nil, by simp⟩ ?_
  intro st hst entry hentry
  obtain ⟨h1, h2, h3⟩ := hst
  split
  · exact ⟨h1, h2, h3⟩
  · rename_i startIndex hmatch
    dsimp only
    split
    · exact ⟨h1, h2, h3⟩
    · rename_i hov
      refine ⟨?_, ?_, ?_⟩
      · rw [List.map_append, h1]
        simp [mentionSpan]
      · refine List.pairwise_append.mpr ⟨h2, by simp, ?_⟩
        intro p hp b hb
        simp only [List.mem_singleton] at hb
        subst hb
        have hov' : ∀ span ∈ st.1,
            startIndex + entry.phrase.length ≤ span.1 ∨ span.2 ≤ startIndex := by
          intro span hsp
          by_contra hcon
          push_neg at hcon
          apply hov
          rw [List.any_eq_true]
          refine ⟨span, hsp, ?_⟩
          simp [not_le.mpr hcon.1, not_le.mpr hcon.2]
        exact (hov' p hp).symm
      · intro h hh
        simp only [List.mem_append, List.mem_singleton] at hh
        rcases hh with hh | rfl
        · exact h3 h hh
        · exact hmin entry hentry

/- ### C4 machinery: the dedupe fold -/

/-- The dedupe fold returns a subsequence of its input. -/
theorem dedup_sublist : ∀ (l : List DetectedEntityMention)
    (acc : List Str × List DetectedEntityMention),
    ((l.foldl
      (fun (st : List Str × List DetectedEntityMention) hit =>
        if hit.entityId ∈ st.1 then st
        else (st.1 ++ [hit.entityId], st.2 ++ [hit]))
      acc).2).Sublist (acc.2 ++ l) := by
  intro l
  induction l with
  | nil => intro acc; simp
  | cons hit rest ih =>
    intro acc
    simp only [List.foldl_cons]
    split
    · exact (ih acc).trans ((List.sublist_cons_self hit rest).append_left acc.2)
    · have h := ih (acc.1 ++ [hit.entityId], acc.2 ++ [hit])
      simpa [List.append_assoc] using h

/-- The dedupe fold keeps its key list equal to the kept entity ids. -/
theorem dedup_ids : ∀ (l : List DetectedEntityMention)
    (acc : List Str × List DetectedEntityMention),
    acc.1 = acc.2.map (fun h => h.entityId) →
    (l.foldl
      (fun (st : List Str × List DetectedEntityMention) hit =>
        if hit.entityId ∈ st.1 then st
        else (st.1 ++ [hit.entityId], st.2 ++ [hit]))
      acc).1 =
      ((l.foldl
        (fun (st : List Str × List DetectedEntityMention) hit =>
          if hit.entityId ∈ st.1 then st
          else (st.1 ++ [hit.entityId], st.2 ++ [hit]))
        acc).2).map (fun h => h.entityId) := by
  intro l
  induction l with
  | nil => intro acc h; simpa using h
  | cons hit rest ih =>
    intro acc h
    simp only [List.foldl_cons]
    split
    · exact ih acc h
    · exact ih _ (by simp [h])

/-- The dedupe fold keeps its key list duplicate-free. -/
theorem dedup_keys_nodup : ∀ (l : List DetectedEntityMention)
    (acc : List Str × List DetectedEntityMention),
    acc.1.Nodup →
    (l.foldl
      (fun (st : List Str × List DetectedEntityMention) hit =>
        if hit.entityId ∈ st.1 then st
        else (st.1 ++ [hit.entityId], st.2 ++ [hit]))
      acc).1.Nodup := by
  intro l
  induction l with
  | nil => intro acc h; exact h
  | cons hit rest ih =>
    intro acc h
    simp only [List.foldl_cons]
    split
    · exact ih acc h
    · rename_i hni
      exact ih _ (by simp [List.nodup_append, h, hni])

/-- Post-scan processing (sort then dedupe) of the detection pipeline:
pairwise-disjoint spans with positive lengths give a result with pairwise
disjoint spans, pairwise distinct entity ids, and strictly increasing start
indexes. -/
theorem detect_post (hits : List DetectedEntityMention)
    (hdisj : List.Pairwise (fun a b => spansDisjoint (mentionSpan a) (mentionSpan b)) hits)
    (hlen : ∀ h ∈ hits, 0 < h.matchedText.length) :
    List.Pairwise (fun a b => spansDisjoint (mentionSpan a) (mentionSpan b))
      (((sortByCmp (fun a b =>
          (cmpNat a.startIndex b.startIndex).then
            (cmpStr a.canonicalName b.canonicalName)) hits).foldl
        (fun (st : List Str × List DetectedEntityMention) hit =>
          if hit.entityId ∈ st.1 then st
          else (st.1 ++ [hit.entityId], st.2 ++ [hit]))
        ([], [])).2) ∧
    List.Pairwise (fun a b => a.entityId ≠ b.entityId)
      (((sortByCmp (fun a b =>
          (cmpNat a.startIndex b.startIndex).then
            (cmpStr a.canonicalName b.canonicalName)) hits).foldl
        (fun (st : List Str × List DetectedEntityMention) hit =>
          if hit.entityId ∈ st.1 then st
          else (st.1 ++ [hit.entityId], st.2 ++ [hit]))
        ([], [])).2) ∧
    List.Pairwise (fun a b => a.startIndex < b.startIndex)
      (((sortByCmp (fun a b =>
          (cmpNat a.startIndex b.startIndex).then
            (cmpStr a.canonicalName b.canonicalName)) hits).foldl
        (fun (st : List Str × List DetectedEntityMention) hit =>
          if hit.entityId ∈ st.1 then st
          else (st.1 ++ [hit.entityId], st.2 ++ [hit]))
        ([], [])).2) := by
  have hperm : (sortByCmp (fun a b =>
      (cmpNat a.startIndex b.startIndex).then
        (cmpStr a.canonicalName b.canonicalName)) hits).Perm hits :=
    List.perm_insertionSort _ hits
  have hdisjS := (@List.Perm.pairwise_iff _
    (fun a b => spansDisjoint (mentionSpan a) (mentionSpan b))
    (fun h => Or.symm h) _ _ hperm).mpr hdisj
  have hlenS : ∀ h ∈ (sortByCmp (fun a b =>
      (cmpNat a.startIndex b.startIndex).then
        (cmpStr a.canonicalName b.canonicalName)) hits), 0 < h.matchedText.length :=
    fun h hh => hlen h (hperm.subset hh)
  have hsorted := detect_sorted hits
  have hsub := dedup_sublist (sortByCmp (fun a b =>
    (cmpNat a.startIndex b.startIndex).then
      (cmpStr a.canonicalName b.canonicalName)) hits) ([], [])
  simp only [List.nil_append] at hsub
  have hdisjO := List.Pairwise.sublist hsub hdisjS
  have hsortO : List.Pairwise mentionLe _ := List.Pairwise.sublist hsub hsorted
  have hlenO : ∀ h ∈ (((sortByCmp (fun a b =>
      (cmpNat a.startIndex b.startIndex).then
        (cmpStr a.canonicalName b.canonicalName)) hits).foldl
      (fun (st : List Str × List DetectedEntityMention) hit =>
        if hit.entityId ∈ st.1 then st
        else (st.1 ++ [hit.entityId], st.2 ++ [hit]))
      ([], [])).2), 0 < h.matchedText.length :=
    fun h hh => hlenS h (hsub.subset hh)
  refine ⟨hdisjO, ?_, ?_⟩
  · have hids := dedup_ids (sortByCmp (fun a b =>
      (cmpNat a.startIndex b.startIndex).then
        (cmpStr a.canonicalName b.canonicalName)) hits) ([], []) (by simp)
    have hnd := dedup_keys_nodup (sortByCmp (fun a b =>
      (cmpNat a.startIndex b.startIndex).then
        (cmpStr a.canonicalName b.canonicalName)) hits) ([], []) (by simp)
    rw [hids] at hnd
    exact List.pairwise_map.mp hnd
  · have hand := hsortO.and hdisjO
    refine hand.imp_of_mem ?_
    intro a b ha hb hab
    obtain ⟨hle, hd⟩ := hab
    have hla := hlenO a ha
    have hlb := hlenO b hb
    rcases then_ne_gt_iff.mp hle with h | ⟨he, -⟩
    · exact cmpNat_lt_iff.mp h
    · exfalso
      have heq : a.startIndex = b.startIndex := cmpNat_eq_iff.mp he
      rcases hd with hd | hd <;>
        (simp only [mentionSpan] at hd; omega)

/-- **C4.** For every knowledge-graph store and question, entity detection
returns mentions whose character spans are pairwise disjoint, with pairwise
distinct entity ids (at most one mention per entity), ordered by strictly
increasing start index (each entity's kept mention is its first occurrence,
since the dedupe keeps the leftmost mention after the start-index sort). -/
theorem C4_entity_detection (kg : KgArtifacts) (question : Str) :
    List.Pairwise (fun a b => spansDisjoint (mentionSpan a) (mentionSpan b))
      (detectEntitiesInQuestion kg question) ∧
    List.Pairwise (fun a b => a.entityId ≠ b.entityId)
      (detectEntitiesInQuestion kg question) ∧
    List.Pairwise (fun a b => a.startIndex < b.startIndex)
      (detectEntitiesInQuestion kg question) := by
  unfold detectEntitiesInQuestion
  dsimp only
  split
  · simp
  · obtain ⟨hspan, hdisj1, hlen3⟩ := scan_invariant (buildEntityDetectionLexicon kg)
      (normalizeText question) (lexicon_min3 kg)
    rw [hspan] at hdisj1
    have hdisj2 := List.pairwise_map.mp hdisj1
    have hlen0 : ∀ h ∈ (((buildEntityDetectionLexicon kg).foldl
        (fun (st : List (Nat × Nat) × List DetectedEntityMention) entry =>
          match firstBoundaryMatch isLowerAlnum entry.phrase (normalizeText question) with
          | none => st
          | some startIndex =>
            let endIndex := startIndex + entry.phrase.length
            let overlaps := st.1.any
              (fun span => !(decide (endIndex ≤ span.1) || decide (startIndex ≥ span.2)))
            if overlaps then st
            else
              (st.1 ++ [(startIndex, endIndex)],
               st.2 ++
                 [{ entityId := entry.entityId, canonicalName := entry.canonicalName,
                    entityType := entry.entityType, matchedText := entry.phrase,
                    matchKind := entry.matchKind, startIndex := startIndex }]))
        ([], [])).2), 0 < h.matchedText.length :=
      fun h hh => lt_of_lt_of_le (by norm_num) (hlen3 h hh)
    exact detect_post _ hdisj2 hlen0
